import Mathlib

/-!
# TESTBLE: bonded peer store, pairing window, fragment transport and access gate

A shallow embedding of `src/main/bluetooth_manager.c` and `src/main/wifi_manager.c`.
C arrays are lists, `for` loops are structural recursions over the slots they
visit, machine integers are naturals with the reduction written out where a
wrap-around can happen, and every call that acts on an external collaborator
(radio stack, key/value storage, station network stack, display) is appended
to a call log kept in the world state, as are the entries into the operations
of the station manager that the link layer invokes.  The answers the
collaborators give are inputs, collected in `env_t`; what the persistent store
holds at boot is an input as well, `nvs_ble_bond`.
-/

namespace TestBle

/-! ## Constants

Those of `bluetooth_manager.h` and `bluetooth_manager.c`, then the ones the
sources take from the headers of the radio stack. -/

def MAX_BONDED_DEVICES : Nat := 8
def WIFI_CRED_MAX_LEN : Nat := 128
def MAX_DEVICE_NAME_LEN : Nat := 32
def WIFI_SCAN_CHR_UUID : Nat := 0xA001
def WIFI_CRED_CHR_UUID : Nat := 0xA002
def STATUS_CHR_UUID : Nat := 0xA005
def ALLOW_NEW_BONDING_TIMEOUT_MS : Nat := 60000

def BLE_GATT_DSC_CLT_CFG_UUID16 : Nat := 0x2902
def BLE_HS_CONN_HANDLE_NONE : Nat := 0xffff
def BLE_ERR_REM_USER_CONN_TERM : Nat := 0x13

/-! ## Data model -/

/-- The transport's `ble_addr_t`: a type tag and the 6-byte array `val`. -/
structure ble_addr_t where
  type : Nat
  val : List Nat
deriving DecidableEq, Repr

/-- One slot of `bonded_devices[]`. -/
structure bonded_device_t where
  addr : ble_addr_t
  addr_type : Nat
  last_connected_timestamp : Nat
  priority : Nat
  device_name : List Nat
  is_active : Bool
deriving DecidableEq, Repr

/-- The zero-filled slot of a static array. -/
def bonded_device_zero : bonded_device_t :=
  { addr := { type := 0, val := [0, 0, 0, 0, 0, 0] }, addr_type := 0,
    last_connected_timestamp := 0, priority := 0,
    device_name := List.replicate MAX_DEVICE_NAME_LEN 0, is_active := false }

instance : Inhabited bonded_device_t := ⟨bonded_device_zero⟩

/-- The process-wide `ble_connection_state_t`. -/
structure ble_connection_state_t where
  is_connected : Bool
  is_bonded : Bool
  bonded_addr : List Nat
  bonded_addr_type : Nat
  irk : List Nat
  has_irk : Bool
  mtu_size : Nat
  allow_new_bonding : Bool
  peer_addr : ble_addr_t
  bonded_devices : List bonded_device_t
  bonded_count : Nat
  active_scan_mode : Bool
  reconnect_mode : Bool
deriving DecidableEq, Repr

/-- The loop test shared by `add_bonded_device`, `is_bonded_device`,
`update_device_connection_info` and the advertisement-report handler:
`memcmp(d.addr.val, addr->val, 6) == 0 && d.addr_type == addr_type`. -/
def same_peer (d : bonded_device_t) (addr : ble_addr_t) (addr_type : Nat) : Bool :=
  decide (d.addr.val = addr.val) && decide (d.addr_type = addr_type)

/-! ## `sort_bonded_devices_by_priority` -/

/-- The inner loop `for (j = 0; j < m; j++)` of the bubble sort, run on the
slots from `j` on: the head of the list is slot `j`, its second element is
slot `j + 1`; after the compare-and-swap the loop goes on from slot `j + 1`. -/
def sort_inner : Nat → List bonded_device_t → List bonded_device_t
  | 0, l => l
  | _ + 1, [] => []
  | _ + 1, [a] => [a]
  | m + 1, a :: b :: rest =>
    if a.priority < b.priority then
      b :: sort_inner m (a :: rest)
    else if a.priority = b.priority ∧
        a.last_connected_timestamp < b.last_connected_timestamp then
      b :: sort_inner m (a :: rest)
    else
      a :: sort_inner m (b :: rest)

/-- The two nested loops of `sort_bonded_devices_by_priority` on the array
`devs` with `count` records in use: pass `i` runs the inner loop with bound
`count - i - 1`, for `i = 0 .. count - 2`. -/
def sort_slots (count : Nat) (devs : List bonded_device_t) : List bonded_device_t :=
  (List.range (count - 1)).foldl (fun l i => sort_inner (count - i - 1) l) devs

/-- No swap is due between `a` (lower slot) and `b` (higher slot). -/
def in_order (a b : bonded_device_t) : Prop :=
  b.priority ≤ a.priority ∧
    (a.priority = b.priority → b.last_connected_timestamp ≤ a.last_connected_timestamp)

instance (a b : bonded_device_t) : Decidable (in_order a b) := by
  unfold in_order; infer_instance

/-! ## World state -/

/-- The `wifi_status_t` of `wifi_manager.h`. -/
inductive wifi_status_t where
  | WIFI_STATUS_UNKNOWN
  | WIFI_STATUS_OK
  | WIFI_STATUS_SCAN_OK
  | WIFI_STATUS_FAIL
deriving DecidableEq, Repr

/-- The call log, in the order the calls are made: the calls into external
collaborators, and the entries into the three operations of the station
manager that the link layer invokes (`wifi_manager_start_scan`,
`wifi_manager_connect`, `update_wifi_status_notify`). -/
inductive ext_call where
  | ble_gap_adv_stop
  | ble_gap_adv_set_fields
  | ble_gap_adv_rsp_set_fields
  | ble_gap_adv_start (filter_policy : Nat)
  | ble_gap_security_initiate (conn_handle : Nat)
  | ble_gap_terminate (conn_handle : Nat) (reason : Nat)
  | ble_gap_wl_set (addrs : List ble_addr_t)
  | ble_gap_connect (peer : ble_addr_t) (duration_ms : Nat)
  | ble_gap_disc (duration_ms : Nat) (filter_duplicates : Nat)
  | ble_gap_disc_cancel
  | ble_gatts_notify_custom (conn_handle : Nat) (attr_handle : Nat) (data : List Nat)
  | nvs_set_blob_bonded_list (devs : List bonded_device_t)
  | nvs_set_u8_bonded_count (count : Nat)
  | nvs_commit
  | nvs_set_str_ssid (ssid : List Nat)
  | nvs_set_str_password (password : List Nat)
  | nvs_flash_erase
  | nvs_flash_init
  | vTaskDelay (ms : Nat)
  | xTaskCreate_wifi_scan_task
  | qrcode_display_init
  | qrcode_display_generate_and_show
  | esp_wifi_disconnect
  | esp_wifi_set_config (ssid : List Nat) (password : List Nat) (open_auth : Bool)
  | esp_wifi_connect
  | os_mbuf_append (data : List Nat)
  | wifi_manager_start_scan
  | wifi_manager_connect (credentials : List Nat)
  | update_wifi_status_notify (status : wifi_status_t)
  | ble_att_set_preferred_mtu (mtu : Nat)
deriving DecidableEq, Repr

/-- All file-scope state of `bluetooth_manager.c` and `wifi_manager.c`,
together with the log of external calls. -/
structure world_t where
  ble_state : ble_connection_state_t
  allow_new_bonding_timeout_active : Bool
  allow_new_bonding_start_time : Nat
  connection_handle : Nat
  wifi_scan_chr_handle : Nat
  wifi_cred_chr_handle : Nat
  status_chr_handle : Nat
  wifi_scan_notify_enabled : Bool
  status_notify_enabled : Bool
  wifi_cred_buf : List Nat
  wifi_cred_len : Nat
  wifi_station_started : Bool
  wifi_is_connected : Bool
  wifi_scan_running : Bool
  current_wifi_status : wifi_status_t
  saved_ssid : List Nat
  saved_password : List Nat
  calls : List ext_call
deriving DecidableEq, Repr

/-- The static initialisers: `ble_state` as written in the source, every
other static zero-filled. -/
def world_init : world_t :=
  { ble_state :=
      { is_connected := false, is_bonded := false,
        bonded_addr := [0, 0, 0, 0, 0, 0], bonded_addr_type := 0,
        irk := List.replicate 16 0, has_irk := false, mtu_size := 247,
        allow_new_bonding := true, peer_addr := { type := 0, val := [0, 0, 0, 0, 0, 0] },
        bonded_devices := List.replicate MAX_BONDED_DEVICES bonded_device_zero,
        bonded_count := 0, active_scan_mode := false, reconnect_mode := false },
    allow_new_bonding_timeout_active := false,
    allow_new_bonding_start_time := 0,
    connection_handle := BLE_HS_CONN_HANDLE_NONE,
    wifi_scan_chr_handle := 0, wifi_cred_chr_handle := 0, status_chr_handle := 0,
    wifi_scan_notify_enabled := false, status_notify_enabled := false,
    wifi_cred_buf := List.replicate WIFI_CRED_MAX_LEN 0, wifi_cred_len := 0,
    wifi_station_started := false, wifi_is_connected := false, wifi_scan_running := false,
    current_wifi_status := wifi_status_t.WIFI_STATUS_UNKNOWN,
    saved_ssid := [], saved_password := [],
    calls := [] }

/-- A connection descriptor as filled in by `ble_gap_conn_find`: the fields
the handlers read. -/
structure ble_gap_conn_desc where
  peer_id_addr : ble_addr_t
  sec_state_bonded : Bool
deriving DecidableEq, Repr

/-- The parts of a parsed JSON document that `wifi_manager_connect` reads:
the items `ssid` and `password` of the root object, each present or not,
and, when present, a string or not. -/
structure cjson_root where
  ssid : Option (Option (List Nat))
  password : Option (Option (List Nat))
deriving DecidableEq, Repr

/-- The answers of the external collaborators during one call into the
program.  A return code `0` is success. -/
structure env_t where
  nvs_open_ok : Bool
  esp_timer_get_time : Nat
  xTaskGetTickCount : Nat
  portTICK_PERIOD_MS : Nat
  ble_gap_conn_find : Option ble_gap_conn_desc
  ble_gap_security_initiate_rc : Nat
  ble_gap_terminate_rc : Nat
  ble_gap_adv_set_fields_rc : Nat
  ble_gap_adv_rsp_set_fields_rc : Nat
  ble_gap_adv_start_rc : Nat
  ble_gap_connect_rc : Nat
  ble_gap_disc_rc : Nat
  ble_hs_mbuf_from_flat_ok : Bool
  ble_gatts_notify_custom_rc : Nat
  cJSON_Parse : List Nat → Option cjson_root
  esp_wifi_set_config_ok : Bool
  esp_wifi_connect_rc : Nat
  os_mbuf_append_rc : Nat
  nvs_flash_erase_ok : Bool
  nvs_flash_init_ok : Bool

/-- Append one external call to the log. -/
def world_t.log (w : world_t) (c : ext_call) : world_t :=
  { w with calls := w.calls ++ [c] }

/-! ## Bonded peer store -/

/-- The record key compared by every lookup loop. -/
def peer_key (d : bonded_device_t) : List Nat × Nat := (d.addr.val, d.addr_type)

def save_bonded_devices_to_nvs (env : env_t) (w : world_t) : world_t :=
  if env.nvs_open_ok then
    ((w.log (ext_call.nvs_set_blob_bonded_list w.ble_state.bonded_devices)).log
      (ext_call.nvs_set_u8_bonded_count w.ble_state.bonded_count)).log ext_call.nvs_commit
  else w

def sort_bonded_devices_by_priority (w : world_t) : world_t :=
  { w with ble_state :=
      { w.ble_state with
        bonded_devices := sort_slots w.ble_state.bonded_count w.ble_state.bonded_devices } }

/-- The loop `for (i = 0; i < bonded_count; ++i) if (match) return true;`. -/
def is_bonded_device (w : world_t) (addr : ble_addr_t) (addr_type : Nat) : Bool :=
  (w.ble_state.bonded_devices.take w.ble_state.bonded_count).any
    (fun d => same_peer d addr addr_type)

/-- Slot `i` of the array is rewritten by `f`; the other slots stay. -/
def write_slot (f : bonded_device_t → bonded_device_t) :
    Nat → List bonded_device_t → List bonded_device_t
  | _, [] => []
  | 0, d :: ds => f d :: ds
  | i + 1, d :: ds => d :: write_slot f i ds

def add_bonded_device (env : env_t) (w : world_t) (addr : ble_addr_t) (addr_type : Nat) :
    Bool × world_t :=
  if is_bonded_device w addr addr_type then (false, w)
  else if w.ble_state.bonded_count < MAX_BONDED_DEVICES then
    let w1 : world_t :=
      { w with ble_state :=
          { w.ble_state with
            bonded_devices :=
              write_slot (fun d => { d with addr := addr, addr_type := addr_type })
                w.ble_state.bonded_count w.ble_state.bonded_devices,
            bonded_count := w.ble_state.bonded_count + 1 } }
    (true, save_bonded_devices_to_nvs env w1)
  else (false, w)

/-- The three field updates `update_device_connection_info` makes on the
record it finds; `sec` is `(uint32_t)(esp_timer_get_time() / 1000000)`. -/
def touch_record (sec : Nat) (d : bonded_device_t) : bonded_device_t :=
  { d with
    last_connected_timestamp := sec,
    priority := if d.priority < 10 then d.priority + 1 else d.priority,
    is_active := true }

/-- The search loop of `update_device_connection_info` over the first `n`
slots: the first matching record is updated and the loop breaks.  The flag
is `device_found`. -/
def touch_slots (sec : Nat) (addr : ble_addr_t) (addr_type : Nat) :
    Nat → List bonded_device_t → Bool × List bonded_device_t
  | 0, l => (false, l)
  | _ + 1, [] => (false, [])
  | n + 1, d :: ds =>
    if same_peer d addr addr_type then (true, touch_record sec d :: ds)
    else ((touch_slots sec addr addr_type n ds).1, d :: (touch_slots sec addr addr_type n ds).2)

def update_device_connection_info (env : env_t) (w : world_t) (addr : ble_addr_t)
    (addr_type : Nat) : world_t :=
  let r := touch_slots ((env.esp_timer_get_time / 1000000) % 2 ^ 32) addr addr_type
    w.ble_state.bonded_count w.ble_state.bonded_devices
  if r.1 then
    sort_bonded_devices_by_priority
      (save_bonded_devices_to_nvs env
        { w with ble_state := { w.ble_state with bonded_devices := r.2 } })
  else w

/-- An environment in which every external call succeeds; the JSON parser
accepts nothing. -/
def env_ok : env_t :=
  { nvs_open_ok := true, esp_timer_get_time := 0, xTaskGetTickCount := 0,
    portTICK_PERIOD_MS := 10, ble_gap_conn_find := none,
    ble_gap_security_initiate_rc := 0, ble_gap_terminate_rc := 0,
    ble_gap_adv_set_fields_rc := 0, ble_gap_adv_rsp_set_fields_rc := 0,
    ble_gap_adv_start_rc := 0, ble_gap_connect_rc := 0, ble_gap_disc_rc := 0,
    ble_hs_mbuf_from_flat_ok := true, ble_gatts_notify_custom_rc := 0,
    cJSON_Parse := fun _ => none, esp_wifi_set_config_ok := true, esp_wifi_connect_rc := 0,
    os_mbuf_append_rc := 0,
    nvs_flash_erase_ok := true, nvs_flash_init_ok := true }

/-! ## C strings -/

/-- The bytes of a C string: what precedes the first NUL. -/
def cstr (l : List Nat) : List Nat := l.takeWhile (fun b => b != 0)

def strlen (l : List Nat) : Nat := (cstr l).length

/-- The literal `SCAN`. -/
def str_SCAN : List Nat := [83, 67, 65, 78]
/-- The literal `PAIR`. -/
def str_PAIR : List Nat := [80, 65, 73, 82]
/-- The literal `PAIRING_MODE`. -/
def str_PAIRING_MODE : List Nat := [80, 65, 73, 82, 73, 78, 71, 95, 77, 79, 68, 69]
/-- The byte `/`. -/
def chr_slash : Nat := 47

/-- The table `wifi_status_str[]`. -/
def wifi_status_str : wifi_status_t → List Nat
  | wifi_status_t.WIFI_STATUS_UNKNOWN => [85, 78, 75, 78, 79, 87, 78]
  | wifi_status_t.WIFI_STATUS_OK => [87, 73, 70, 73, 95, 79, 75]
  | wifi_status_t.WIFI_STATUS_SCAN_OK => [87, 73, 70, 73, 95, 83, 67, 65, 78, 95, 79, 75]
  | wifi_status_t.WIFI_STATUS_FAIL => [87, 73, 70, 73, 95, 70, 65, 73, 76]

/-! ## Advertising -/

/-- Unrestricted advertising: `adv_params.filter_policy = 0`. -/
def startAdvertising (env : env_t) (w : world_t) : world_t :=
  let w1 := w.log ext_call.ble_gap_adv_set_fields
  if env.ble_gap_adv_set_fields_rc ≠ 0 then w1
  else
    let w2 := w1.log ext_call.ble_gap_adv_rsp_set_fields
    if env.ble_gap_adv_rsp_set_fields_rc ≠ 0 then w2
    else w2.log (ext_call.ble_gap_adv_start 0)

/-- Restricted advertising: `adv_params.filter_policy = 3`, the allow-list
filter. -/
def start_bonded_advertising (env : env_t) (w : world_t) : world_t :=
  let w0 := w.log ext_call.ble_gap_adv_stop
  let w1 := w0.log ext_call.ble_gap_adv_set_fields
  if env.ble_gap_adv_set_fields_rc ≠ 0 then w1
  else
    let w2 := w1.log ext_call.ble_gap_adv_rsp_set_fields
    if env.ble_gap_adv_rsp_set_fields_rc ≠ 0 then w2
    else w2.log (ext_call.ble_gap_adv_start 3)

def update_ble_whitelist (w : world_t) : world_t :=
  let w1 := w.log (ext_call.ble_gap_wl_set [])
  if w.ble_state.bonded_count > 0 then
    w1.log (ext_call.ble_gap_wl_set
      ((w.ble_state.bonded_devices.take w.ble_state.bonded_count).map (fun d => d.addr)))
  else w1

def display_qr_code_callback (w : world_t) : world_t :=
  (w.log ext_call.qrcode_display_init).log ext_call.qrcode_display_generate_and_show

def on_boot_button_pressed (env : env_t) (w : world_t) : world_t :=
  startAdvertising env
    ({ w with ble_state := { w.ble_state with allow_new_bonding := true } }.log
      ext_call.ble_gap_adv_stop)

/-! ## Notifications and the fragment transport -/

def ble_manager_is_connected (w : world_t) : Bool := w.ble_state.is_connected

def ble_manager_get_mtu (w : world_t) : Nat := w.ble_state.mtu_size

/-- The chunk primitive: `data` is what the pointer points at, `length` the
`uint16_t` count of bytes handed to the transport. -/
def ble_manager_send_wifi_scan_result_chunk (env : env_t) (w : world_t) (data : List Nat)
    (length : Nat) : Bool × world_t :=
  if !w.ble_state.is_connected || !w.wifi_scan_notify_enabled then (false, w)
  else if !env.ble_hs_mbuf_from_flat_ok then (false, w)
  else
    let w1 := w.log (ext_call.ble_gatts_notify_custom w.connection_handle
      w.wifi_scan_chr_handle (data.take length))
    if env.ble_gatts_notify_custom_rc ≠ 0 then (false, w1) else (true, w1)

def ble_manager_send_status_notification (env : env_t) (w : world_t) (status : List Nat) :
    world_t :=
  if !w.status_notify_enabled || !w.ble_state.is_connected then w
  else if !env.ble_hs_mbuf_from_flat_ok then w
  else
    w.log (ext_call.ble_gatts_notify_custom w.connection_handle w.status_chr_handle
      (status.take (strlen status)))

def update_wifi_status_notify (env : env_t) (w : world_t) (status : wifi_status_t) : world_t :=
  ble_manager_send_status_notification env
    { w.log (ext_call.update_wifi_status_notify status) with current_wifi_status := status }
    (wifi_status_str status)

/-- The `while (offset < len)` loop of `send_wifi_scan_results`.  `fuel`
bounds the number of iterations, `k` counts the chunk calls made so far and
selects the environment of the next one.  The result lists, in call order,
the byte strings passed to `ble_manager_send_wifi_scan_result_chunk`
(pointer `scan_results + offset`, length `send_size` cut to 16 bits). -/
def send_loop (envs : Nat → env_t) (chunk_size len : Nat) (scan_results : List Nat) :
    Nat → Nat → Nat → world_t → List (List Nat) × world_t
  | 0, _, _, w => ([], w)
  | fuel + 1, offset, k, w =>
    if offset < len then
      let remaining := len - offset
      let send_size := if remaining > chunk_size then chunk_size else remaining
      let r := ble_manager_send_wifi_scan_result_chunk (envs k) w (scan_results.drop offset)
        (send_size % 2 ^ 16)
      let arg := (scan_results.drop offset).take (send_size % 2 ^ 16)
      if !r.1 then ([arg], r.2)
      else
        let rest := send_loop envs chunk_size len scan_results fuel (offset + send_size) (k + 1)
          (r.2.log (ext_call.vTaskDelay 20))
        (arg :: rest.1, rest.2)
    else ([], w)

/-- The body of `send_wifi_scan_results`; `chunk_size` is the `size_t` value of
the `int` expression `ble_manager_get_mtu() - 3`. -/
def send_wifi_scan_results (fuel : Nat) (envs : Nat → env_t) (w : world_t)
    (scan_results : List Nat) : List (List Nat) × world_t :=
  if ble_manager_is_connected w then
    send_loop envs ((ble_manager_get_mtu w + 2 ^ 32 - 3) % 2 ^ 32) (strlen scan_results)
      scan_results fuel 0 0 w
  else ([], w)

/-! ## Reconnection -/

def start_active_scan_for_bonded_devices (env : env_t) (w : world_t) : world_t :=
  if w.ble_state.active_scan_mode || w.ble_state.is_connected then w
  else
    let w1 := { w with ble_state := { w.ble_state with active_scan_mode := true } }.log
      (ext_call.ble_gap_disc 5000 1)
    if env.ble_gap_disc_rc ≠ 0 then
      { w1 with ble_state := { w1.ble_state with active_scan_mode := false } }
    else w1

def connect_to_preferred_device (env : env_t) (w : world_t) : Bool × world_t :=
  if w.ble_state.bonded_count = 0 || w.ble_state.is_connected then (false, w)
  else
    let w1 := (sort_bonded_devices_by_priority w).log ext_call.ble_gap_adv_stop
    let w2 := w1.log (ext_call.ble_gap_connect
      (w1.ble_state.bonded_devices.headD bonded_device_zero).addr 10000)
    if env.ble_gap_connect_rc ≠ 0 then
      if w2.ble_state.is_bonded then (false, start_bonded_advertising env w2)
      else (false, startAdvertising env w2)
    else (true, w2)

def reconnect_to_last_device (env : env_t) (w : world_t) : world_t :=
  if w.ble_state.is_connected || w.ble_state.bonded_count = 0 then w
  else
    let w1 := { w with ble_state := { w.ble_state with reconnect_mode := true } }
    let r := connect_to_preferred_device env w1
    if !r.1 then start_active_scan_for_bonded_devices env r.2 else r.2

def ble_manager_disconnect (w : world_t) : world_t :=
  let w1 :=
    if w.ble_state.is_connected then
      w.log (ext_call.ble_gap_terminate w.connection_handle BLE_ERR_REM_USER_CONN_TERM)
    else w
  let w2 := w1.log ext_call.ble_gap_adv_stop
  { w2 with ble_state := { w2.ble_state with is_connected := false } }

/-! ## Station network manager -/

def wifi_manager_start_scan (env : env_t) (w0 : world_t) : world_t :=
  let w := w0.log ext_call.wifi_manager_start_scan
  if w.wifi_scan_running then w
  else if !w.wifi_station_started then
    update_wifi_status_notify env w wifi_status_t.WIFI_STATUS_FAIL
  else w.log ext_call.xTaskCreate_wifi_scan_task

/-- The function `wifi_manager_connect`; `none` is the abort of
`ESP_ERROR_CHECK`.  The saved strings are kept as their bytes before the
terminator: `strncpy` into a 33-byte and a 64-byte buffer whose last byte is
then set to NUL. -/
def wifi_manager_connect (env : env_t) (w0 : world_t) (credentials : List Nat) :
    Option world_t :=
  let w := w0.log (ext_call.wifi_manager_connect (cstr credentials))
  if !w.wifi_station_started then
    some (update_wifi_status_notify env w wifi_status_t.WIFI_STATUS_FAIL)
  else
    match env.cJSON_Parse (cstr credentials) with
    | none => some (update_wifi_status_notify env w wifi_status_t.WIFI_STATUS_FAIL)
    | some root =>
      match root.ssid with
      | none => some (update_wifi_status_notify env w wifi_status_t.WIFI_STATUS_FAIL)
      | some none => some (update_wifi_status_notify env w wifi_status_t.WIFI_STATUS_FAIL)
      | some (some ssid) =>
        if strlen ssid = 0 then
          some (update_wifi_status_notify env w wifi_status_t.WIFI_STATUS_FAIL)
        else
          let w1 := { w with saved_ssid := (cstr ssid).take 32 }
          let w2 : world_t :=
            match root.password with
            | some (some password) => { w1 with saved_password := (cstr password).take 63 }
            | _ => { w1 with saved_password := [] }
          let w3 :=
            if env.nvs_open_ok then
              ((w2.log (ext_call.nvs_set_str_ssid w2.saved_ssid)).log
                (ext_call.nvs_set_str_password w2.saved_password)).log ext_call.nvs_commit
            else w2
          let w4 := w3.log ext_call.esp_wifi_disconnect
          let w5 := w4.log (ext_call.esp_wifi_set_config (w4.saved_ssid.take 31)
            (w4.saved_password.take 63) (decide (w4.saved_password.length = 0)))
          if !env.esp_wifi_set_config_ok then none
          else
            let w6 := update_wifi_status_notify env { w5 with wifi_is_connected := false }
              wifi_status_t.WIFI_STATUS_UNKNOWN
            let w7 := w6.log ext_call.esp_wifi_connect
            if env.esp_wifi_connect_rc ≠ 0 then
              some (update_wifi_status_notify env w7 wifi_status_t.WIFI_STATUS_FAIL)
            else some w7

/-! ## GAP event handler -/

/-- The events of the transport that `bleprph_gap_event` distinguishes. -/
inductive ble_gap_event where
  | connect (status : Nat) (conn_handle : Nat)
  | disconnect (reason : Nat)
  | disc (addr : ble_addr_t)
  | disc_complete
  | enc_change (status : Nat) (conn_handle : Nat)
  | mtu (value : Nat)
  | subscribe (attr_handle : Nat) (cur_notify : Bool)
  | repeat_pairing (conn_handle : Nat)
  | other
deriving DecidableEq, Repr

def BLE_GAP_REPEAT_PAIRING_RETRY : Nat := 1
def BLE_GAP_REPEAT_PAIRING_IGNORE : Nat := 2

/-- The case `BLE_GAP_EVENT_CONNECT`. -/
def gap_event_connect (env : env_t) (w : world_t) (status conn_handle : Nat) : Nat × world_t :=
  match env.ble_gap_conn_find with
  | none => (0, w)
  | some desc =>
    let w1 := { w with connection_handle := conn_handle }
    if status = 0 then
      let w2 := { w1 with ble_state := { w1.ble_state with
        is_connected := true, active_scan_mode := false, reconnect_mode := false } }.log
          ext_call.ble_gap_adv_stop
      let is_already_bonded := is_bonded_device w2 desc.peer_id_addr desc.peer_id_addr.type
      if !is_already_bonded && w2.ble_state.allow_new_bonding then
        let w3 := w2.log (ext_call.ble_gap_security_initiate conn_handle)
        if env.ble_gap_security_initiate_rc ≠ 0 then
          (0, w3.log (ext_call.ble_gap_terminate conn_handle BLE_ERR_REM_USER_CONN_TERM))
        else (0, w3)
      else if is_already_bonded then
        let w3 := update_device_connection_info env w2 desc.peer_id_addr desc.peer_id_addr.type
        (0, w3.log (ext_call.ble_gap_security_initiate conn_handle))
      else if !w2.ble_state.allow_new_bonding then
        (0, w2.log (ext_call.ble_gap_terminate conn_handle BLE_ERR_REM_USER_CONN_TERM))
      else (0, w2)
    else (0, w1)

/-- The case `BLE_GAP_EVENT_DISCONNECT`. -/
def gap_event_disconnect (env : env_t) (w : world_t) : Nat × world_t :=
  let w1 := { w with
    connection_handle := BLE_HS_CONN_HANDLE_NONE,
    ble_state := { w.ble_state with
      is_connected := false,
      bonded_devices :=
        (w.ble_state.bonded_devices.take w.ble_state.bonded_count).map
            (fun (d : bonded_device_t) => { d with is_active := false }) ++
          w.ble_state.bonded_devices.drop w.ble_state.bonded_count } }
  if w1.ble_state.is_bonded then
    (0, reconnect_to_last_device env (w1.log (ext_call.vTaskDelay 100)))
  else
    (0, startAdvertising env (w1.log (ext_call.vTaskDelay 100)))

/-- The case `BLE_GAP_EVENT_DISC`. -/
def gap_event_disc (env : env_t) (w : world_t) (addr : ble_addr_t) : Nat × world_t :=
  if w.ble_state.active_scan_mode && !w.ble_state.is_connected then
    if (w.ble_state.bonded_devices.take w.ble_state.bonded_count).any
        (fun d => same_peer d addr addr.type) then
      let w1 := w.log ext_call.ble_gap_disc_cancel
      let w2 := { w1 with ble_state := { w1.ble_state with active_scan_mode := false } }
      let w3 := w2.log (ext_call.ble_gap_connect addr 5000)
      if env.ble_gap_connect_rc ≠ 0 then (0, start_active_scan_for_bonded_devices env w3)
      else (0, w3)
    else (0, w)
  else (0, w)

/-- The case `BLE_GAP_EVENT_DISC_COMPLETE`. -/
def gap_event_disc_complete (env : env_t) (w : world_t) : Nat × world_t :=
  let w1 := { w with ble_state := { w.ble_state with active_scan_mode := false } }
  if w1.ble_state.reconnect_mode && !w1.ble_state.is_connected then
    (0, start_active_scan_for_bonded_devices env (w1.log (ext_call.vTaskDelay 5000)))
  else if !w1.ble_state.is_connected then
    if w1.ble_state.is_bonded then (0, start_bonded_advertising env w1)
    else (0, startAdvertising env w1)
  else (0, w1)

/-- The case `BLE_GAP_EVENT_ENC_CHANGE`; `none` is the failed `assert`. -/
def gap_event_enc_change (env : env_t) (w : world_t) : Option (Nat × world_t) :=
  match env.ble_gap_conn_find with
  | none => none
  | some desc =>
    if desc.sec_state_bonded then
      let w1 :=
        if !is_bonded_device w desc.peer_id_addr desc.peer_id_addr.type then
          update_ble_whitelist
            (add_bonded_device env w desc.peer_id_addr desc.peer_id_addr.type).2
        else w
      let w2 := { w1 with ble_state := { w1.ble_state with
        is_bonded := true, allow_new_bonding := false } }
      some (0, update_device_connection_info env w2 desc.peer_id_addr desc.peer_id_addr.type)
    else some (0, w)

/-- The case `BLE_GAP_EVENT_SUBSCRIBE`. -/
def gap_event_subscribe (env : env_t) (w : world_t) (attr_handle : Nat) (cur_notify : Bool) :
    Nat × world_t :=
  if attr_handle = w.wifi_scan_chr_handle then
    let w1 := { w with wifi_scan_notify_enabled := cur_notify }
    if w1.wifi_scan_notify_enabled then (0, wifi_manager_start_scan env w1) else (0, w1)
  else if attr_handle = w.status_chr_handle then
    (0, { w with status_notify_enabled := cur_notify })
  else (0, w)

/-- The case `BLE_GAP_EVENT_REPEAT_PAIRING`; `none` is the failed `assert`. -/
def gap_event_repeat_pairing (env : env_t) (w : world_t) : Option (Nat × world_t) :=
  match env.ble_gap_conn_find with
  | none => none
  | some desc =>
    if is_bonded_device w desc.peer_id_addr desc.peer_id_addr.type then
      some (BLE_GAP_REPEAT_PAIRING_IGNORE, w)
    else some (BLE_GAP_REPEAT_PAIRING_RETRY, w)

/-- The handler `bleprph_gap_event`: return value and the world after it;
`none` when an `assert` fails. -/
def bleprph_gap_event (env : env_t) (w : world_t) : ble_gap_event → Option (Nat × world_t)
  | ble_gap_event.connect status conn_handle => some (gap_event_connect env w status conn_handle)
  | ble_gap_event.disconnect _ => some (gap_event_disconnect env w)
  | ble_gap_event.disc addr => some (gap_event_disc env w addr)
  | ble_gap_event.disc_complete => some (gap_event_disc_complete env w)
  | ble_gap_event.enc_change _ _ => gap_event_enc_change env w
  | ble_gap_event.mtu value =>
    some (0, { w with ble_state := { w.ble_state with mtu_size := value } })
  | ble_gap_event.subscribe attr_handle cur_notify =>
    some (gap_event_subscribe env w attr_handle cur_notify)
  | ble_gap_event.repeat_pairing _ => gap_event_repeat_pairing env w
  | ble_gap_event.other => some (0, w)

/-! ## Access gate: `gatt_svc_access` -/

def BLE_ATT_ERR_INVALID_HANDLE : Nat := 0x01
def BLE_ATT_ERR_READ_NOT_PERMITTED : Nat := 0x02
def BLE_ATT_ERR_WRITE_NOT_PERMITTED : Nat := 0x03
def BLE_ATT_ERR_REQ_NOT_SUPPORTED : Nat := 0x06
def BLE_ATT_ERR_ATTR_NOT_FOUND : Nat := 0x0a
def BLE_ATT_ERR_INVALID_ATTR_VALUE_LEN : Nat := 0x0d
def BLE_ATT_ERR_UNLIKELY : Nat := 0x0e
def BLE_ATT_ERR_INSUFFICIENT_RES : Nat := 0x11

inductive gatt_access_op where
  | READ_CHR
  | WRITE_CHR
  | READ_DSC
  | WRITE_DSC
  | other
deriving DecidableEq, Repr

/-- The access context: the operation, the 16-bit UUID of the characteristic
and of the descriptor (`none` for a NULL pointer), and the bytes of the
request buffer `om`. -/
structure ble_gatt_access_ctxt where
  op : gatt_access_op
  chr : Option Nat
  dsc : Option Nat
  om : List Nat
deriving DecidableEq, Repr

/-- The helper `write_flat_buffer`: return code, destination buffer and
`*len` after the call. -/
def write_flat_buffer (om : List Nat) (max_len : Nat) (dst : List Nat) (len : Nat) :
    Nat × List Nat × Nat :=
  if om.length > max_len then (BLE_ATT_ERR_INVALID_ATTR_VALUE_LEN, dst, len)
  else (0, om ++ dst.drop om.length, om.length)

/-- The branch of `gatt_svc_access` that opens the pairing window on the
command `PAIR`. -/
def gatt_cmd_pair (env : env_t) (w : world_t) : world_t :=
  let w1 := { w with ble_state := { w.ble_state with allow_new_bonding := true } }.log
    ext_call.ble_gap_adv_stop
  let w2 := startAdvertising env w1
  let w3 := { w2 with
    allow_new_bonding_timeout_active := true,
    allow_new_bonding_start_time := env.xTaskGetTickCount }
  ble_manager_send_status_notification env w3 str_PAIRING_MODE

/-- The handling of a write to the credential characteristic, after the
request has been copied into `wifi_cred_buf`. -/
def gatt_cred_dispatch (env : env_t) (w : world_t) : Option (Nat × world_t) :=
  if w.wifi_cred_len = 4 ∧ cstr w.wifi_cred_buf = str_SCAN then
    some (0, wifi_manager_start_scan env w)
  else if w.wifi_cred_len = 4 ∧ cstr w.wifi_cred_buf = str_PAIR then
    some (0, gatt_cmd_pair env w)
  else if w.wifi_cred_len > 0 ∧ chr_slash ∈ w.wifi_cred_buf.take w.wifi_cred_len then
    (wifi_manager_connect env w w.wifi_cred_buf).map (fun w1 => (0, w1))
  else some (0, update_wifi_status_notify env w wifi_status_t.WIFI_STATUS_FAIL)

/-- The callback `gatt_svc_access`: ATT return code and the world after it;
`none` when `wifi_manager_connect` aborts. -/
def gatt_svc_access (env : env_t) (w : world_t) (ctxt : ble_gatt_access_ctxt) :
    Option (Nat × world_t) :=
  let uuid_or_rc : Nat ⊕ Nat :=
    match ctxt.op with
    | gatt_access_op.READ_CHR | gatt_access_op.WRITE_CHR =>
      match ctxt.chr with
      | none => Sum.inr BLE_ATT_ERR_INVALID_HANDLE
      | some u => Sum.inl u
    | gatt_access_op.READ_DSC | gatt_access_op.WRITE_DSC =>
      match ctxt.dsc, ctxt.chr with
      | some u, some _ => Sum.inl u
      | _, _ => Sum.inr BLE_ATT_ERR_INVALID_HANDLE
    | gatt_access_op.other => Sum.inr BLE_ATT_ERR_UNLIKELY
  match uuid_or_rc with
  | Sum.inr rc => some (rc, w)
  | Sum.inl uuid =>
    if uuid = BLE_GATT_DSC_CLT_CFG_UUID16 then
      match ctxt.op with
      | gatt_access_op.WRITE_DSC =>
        if ctxt.om.length < 2 then some (BLE_ATT_ERR_UNLIKELY, w)
        else if ctxt.chr = some WIFI_SCAN_CHR_UUID then
          let cccd_value := ctxt.om.headD 0 + 256 * (ctxt.om.tail.headD 0)
          some (0, { w with wifi_scan_notify_enabled := decide (cccd_value % 2 = 1) })
        else some (0, w)
      | gatt_access_op.READ_DSC =>
        if ctxt.chr = some WIFI_SCAN_CHR_UUID then
          let w1 := w.log (ext_call.os_mbuf_append
            [if w.wifi_scan_notify_enabled then 1 else 0, 0])
          some (if env.os_mbuf_append_rc = 0 then 0 else BLE_ATT_ERR_INSUFFICIENT_RES, w1)
        else some (0, w)
      | _ => some (0, w)
    else if uuid = WIFI_SCAN_CHR_UUID then
      match ctxt.op with
      | gatt_access_op.READ_CHR => some (BLE_ATT_ERR_READ_NOT_PERMITTED, w)
      | gatt_access_op.WRITE_CHR => some (BLE_ATT_ERR_WRITE_NOT_PERMITTED, w)
      | _ => some (BLE_ATT_ERR_REQ_NOT_SUPPORTED, w)
    else if uuid = WIFI_CRED_CHR_UUID then
      match ctxt.op with
      | gatt_access_op.WRITE_CHR =>
        let r := write_flat_buffer ctxt.om (WIFI_CRED_MAX_LEN - 1) w.wifi_cred_buf
          w.wifi_cred_len
        if r.1 = 0 then
          gatt_cred_dispatch env
            { w with wifi_cred_buf := r.2.1.set r.2.2 0, wifi_cred_len := r.2.2 }
        else some (BLE_ATT_ERR_UNLIKELY, w)
      | _ => some (BLE_ATT_ERR_REQ_NOT_SUPPORTED, w)
    else if uuid = STATUS_CHR_UUID then
      match ctxt.op with
      | gatt_access_op.READ_CHR => some (BLE_ATT_ERR_READ_NOT_PERMITTED, w)
      | gatt_access_op.WRITE_CHR => some (BLE_ATT_ERR_WRITE_NOT_PERMITTED, w)
      | _ => some (BLE_ATT_ERR_REQ_NOT_SUPPORTED, w)
    else some (BLE_ATT_ERR_ATTR_NOT_FOUND, w)

/-! ## Pairing window: the blocks of `button_task` -/

/-- The time-out check at the top of the `button_task` loop.  Ticks are
32-bit: the difference and the product wrap. -/
def button_task_timeout_check (env : env_t) (w : world_t) : world_t :=
  if w.allow_new_bonding_timeout_active then
    let current_time := env.xTaskGetTickCount
    let elapsed_ms :=
      (((current_time + 2 ^ 32 - w.allow_new_bonding_start_time) % 2 ^ 32) *
        env.portTICK_PERIOD_MS) % 2 ^ 32
    if elapsed_ms ≥ ALLOW_NEW_BONDING_TIMEOUT_MS then
      let w1 := { w with allow_new_bonding_timeout_active := false }
      if w1.ble_state.is_bonded then
        start_bonded_advertising env
          (update_ble_whitelist
            ({ w1 with ble_state := { w1.ble_state with allow_new_bonding := false } }.log
              ext_call.ble_gap_adv_stop))
      else w1
    else w
  else w

/-- The block of `button_task` run once when the button has been held for
2 s (and less than 5 s). -/
def button_task_medium_press (env : env_t) (w : world_t) : world_t :=
  let w1 := { w with ble_state := { w.ble_state with allow_new_bonding := true } }.log
    ext_call.ble_gap_adv_stop
  let w2 := startAdvertising env w1
  { w2 with
    allow_new_bonding_timeout_active := true,
    allow_new_bonding_start_time := env.xTaskGetTickCount }

/-! ## Store invariant and observers -/

/-- The data-model invariant of the bonded peer store: the array has its
eight slots, the count stays within it, and the records in use carry
pairwise different (address, type) keys. -/
def store_ok (w : world_t) : Prop :=
  w.ble_state.bonded_devices.length = MAX_BONDED_DEVICES ∧
    w.ble_state.bonded_count ≤ MAX_BONDED_DEVICES ∧
    ((w.ble_state.bonded_devices.take w.ble_state.bonded_count).map peer_key).Nodup

instance (w : world_t) : Decidable (store_ok w) := by
  unfold store_ok; infer_instance

/-- One call of the store interface, with the environment it runs in. -/
inductive store_call where
  | add (env : env_t) (addr : ble_addr_t) (addr_type : Nat)
  | touch (env : env_t) (addr : ble_addr_t) (addr_type : Nat)

def run_store_call (w : world_t) : store_call → world_t
  | store_call.add env addr addr_type => (add_bonded_device env w addr addr_type).2
  | store_call.touch env addr addr_type => update_device_connection_info env w addr addr_type

/-- The priority of the record a lookup by (address, type) finds, if any. -/
def peer_priority (w : world_t) (addr : ble_addr_t) (addr_type : Nat) : Option Nat :=
  ((w.ble_state.bonded_devices.take w.ble_state.bonded_count).find?
    (fun d => same_peer d addr addr_type)).map (fun d => d.priority)


/-- A sample peer record. -/
def sample_peer (b : Nat) (prio ts : Nat) : bonded_device_t :=
  { bonded_device_zero with
    addr := { type := 0, val := [b, 2, 3, 4, 5, 6] }, addr_type := 0,
    priority := prio, last_connected_timestamp := ts }

/-- A sample world with three bonded peers, not in sorted order. -/
def world_three_peers : world_t :=
  { world_init with
    ble_state :=
      { world_init.ble_state with
        is_bonded := true,
        bonded_devices :=
          [sample_peer 1 1 5, sample_peer 2 3 2, sample_peer 3 1 9] ++
            List.replicate 5 bonded_device_zero,
        bonded_count := 3 } }

/-- A sample world: connected, both channels subscribed, transfer unit 7. -/
def world_linked : world_t :=
  { world_init with
    ble_state := { world_init.ble_state with is_connected := true, mtu_size := 7 },
    connection_handle := 1,
    wifi_scan_chr_handle := 11, wifi_cred_chr_handle := 13, status_chr_handle := 15,
    wifi_scan_notify_enabled := true, status_notify_enabled := true,
    wifi_station_started := true }

/-- A sample world: three bonded peers, the pairing window closed. -/
def world_closed : world_t :=
  { world_three_peers with
    ble_state := { world_three_peers.ble_state with allow_new_bonding := false } }

/-- A sample environment: the connection descriptor names a peer that is not
in `world_three_peers`. -/
def env_stranger : env_t :=
  { env_ok with
    ble_gap_conn_find := some { peer_id_addr := ⟨0, [9, 9, 9, 9, 9, 9]⟩, sec_state_bonded := false } }

/-- A write request to the credential characteristic carrying `payload`. -/
def cred_write (payload : List Nat) : ble_gatt_access_ctxt :=
  { op := gatt_access_op.WRITE_CHR, chr := some WIFI_CRED_CHR_UUID, dsc := none, om := payload }

/-- The world once `payload` has been copied into `wifi_cred_buf` and
terminated, as `gatt_svc_access` does before it looks at the command. -/
def cred_buffered (w : world_t) (payload : List Nat) : world_t :=
  { w with
    wifi_cred_buf := (payload ++ w.wifi_cred_buf.drop payload.length).set payload.length 0,
    wifi_cred_len := payload.length }

/-- The text `myssid/mypassword`. -/
def str_myssid_mypassword : List Nat :=
  [109, 121, 115, 115, 105, 100, 47, 109, 121, 112, 97, 115, 115, 119, 111, 114, 100]

/-- The text `garbage`. -/
def str_garbage : List Nat := [103, 97, 114, 98, 97, 103, 101]

/-- A sample world: the status channel is subscribed, but the link is not
flagged connected. -/
def world_flag_down : world_t :=
  { world_linked with ble_state := { world_linked.ble_state with is_connected := false } }

/-- The transport calls `startAdvertising` makes, by the answers it gets. -/
def startAdvertising_calls (env : env_t) : List ext_call :=
  if env.ble_gap_adv_set_fields_rc ≠ 0 then [ext_call.ble_gap_adv_set_fields]
  else if env.ble_gap_adv_rsp_set_fields_rc ≠ 0 then
    [ext_call.ble_gap_adv_set_fields, ext_call.ble_gap_adv_rsp_set_fields]
  else
    [ext_call.ble_gap_adv_set_fields, ext_call.ble_gap_adv_rsp_set_fields,
      ext_call.ble_gap_adv_start 0]

/-- The transport calls `ble_manager_send_status_notification` makes: one
notification, or none. -/
def status_notification_calls (env : env_t) (w : world_t) (status : List Nat) :
    List ext_call :=
  if w.status_notify_enabled && w.ble_state.is_connected && env.ble_hs_mbuf_from_flat_ok then
    [ext_call.ble_gatts_notify_custom w.connection_handle w.status_chr_handle
      (status.take (strlen status))]
  else []

/-! ## The remaining blocks of `button_task` -/

def BUTTON_DEBOUNCE_MS : Nat := 50

/-- The block of `button_task` run once when the button has been held for
5 s: the full reset.  Everything after the erase is skipped when
`nvs_flash_erase` fails. -/
def button_task_long_press (env : env_t) (w : world_t) : world_t :=
  let w0 := w.log ext_call.nvs_flash_erase
  if env.nvs_flash_erase_ok then
    let w1 := w0.log ext_call.nvs_flash_init
    let w2 := { w1 with ble_state := { w1.ble_state with
      is_bonded := false, has_irk := false, allow_new_bonding := true, bonded_count := 0,
      bonded_devices := List.replicate MAX_BONDED_DEVICES bonded_device_zero } }
    let w3 := (w2.log (ext_call.ble_gap_wl_set [])).log ext_call.ble_gap_adv_stop
    let w4 := startAdvertising env w3
    display_qr_code_callback { w4 with allow_new_bonding_timeout_active := false }
  else w0

/-- The local variables of `button_task`. -/
structure button_locals where
  last_state : Nat
  stable_state : Nat
  last_change : Nat
  press_start_time : Nat
  medium_press_detected : Bool
  long_press_detected : Bool
deriving DecidableEq, Repr

/-- One pass through the `while (1)` loop of `button_task`, `level` being the
sample `gpio_get_level` returns.  The tick counter is read as one value for
the whole pass; tick differences and their products with the tick period are
32-bit. -/
def button_task_iteration (env : env_t) (level : Nat) (w : world_t) (loc : button_locals) :
    world_t × button_locals :=
  let w1 := button_task_timeout_check env w
  let tick := env.xTaskGetTickCount
  let loc1 : button_locals :=
    if level ≠ loc.last_state then { loc with last_change := tick, last_state := level }
    else loc
  if ((tick + 2 ^ 32 - loc1.last_change) % 2 ^ 32 * env.portTICK_PERIOD_MS) % 2 ^ 32
      > BUTTON_DEBOUNCE_MS then
    let loc2 : button_locals :=
      if loc1.stable_state ≠ level then
        if level = 0 then
          { loc1 with
            stable_state := level, press_start_time := tick,
            medium_press_detected := false, long_press_detected := false }
        else { loc1 with stable_state := level }
      else loc1
    if loc2.stable_state = 0 then
      let held_ms :=
        ((tick + 2 ^ 32 - loc2.press_start_time) % 2 ^ 32 * env.portTICK_PERIOD_MS) % 2 ^ 32
      let r2 : world_t × button_locals :=
        if !loc2.medium_press_detected ∧ held_ms ≥ 2000 ∧ held_ms < 5000 then
          (button_task_medium_press env w1, { loc2 with medium_press_detected := true })
        else (w1, loc2)
      let r3 : world_t × button_locals :=
        if !r2.2.long_press_detected ∧ held_ms ≥ 5000 then
          (button_task_long_press env r2.1, { r2.2 with long_press_detected := true })
        else r2
      (r3.1.log (ext_call.vTaskDelay 10), r3.2)
    else (w1.log (ext_call.vTaskDelay 10), loc2)
  else (w1.log (ext_call.vTaskDelay 10), loc1)

/-! ## Link flags and runs of the link state machine -/

/-- The three link flags: `is_connected`, `active_scan_mode`, `reconnect_mode`. -/
def link_flags (w : world_t) : Bool × Bool × Bool :=
  (w.ble_state.is_connected, w.ble_state.active_scan_mode, w.ble_state.reconnect_mode)

/-- The link-state invariant of the data model on a triple of flags. -/
def flags_ok (f : Bool × Bool × Bool) : Prop :=
  ¬(f.1 = true ∧ f.2.1 = true) ∧ (f.2.2 = true → f.1 = false)

/-- One step of the link state machine: a transport event delivered to the
handler, or one of the four operations called directly. -/
inductive link_step where
  | gap_event (env : env_t) (ev : ble_gap_event)
  | reconnect_to_last_device (env : env_t)
  | connect_to_preferred_device (env : env_t)
  | start_active_scan_for_bonded_devices (env : env_t)
  | ble_manager_disconnect

/-- The world after one step; `none` when an `assert` of the handler fails. -/
def run_link_step (w : world_t) : link_step → Option world_t
  | link_step.gap_event env ev => (bleprph_gap_event env w ev).map (fun r => r.2)
  | link_step.reconnect_to_last_device env => some (reconnect_to_last_device env w)
  | link_step.connect_to_preferred_device env => some (connect_to_preferred_device env w).2
  | link_step.start_active_scan_for_bonded_devices env =>
    some (start_active_scan_for_bonded_devices env w)
  | link_step.ble_manager_disconnect => some (ble_manager_disconnect w)

/-- The world after a sequence of steps. -/
def run_link_steps : world_t → List link_step → Option world_t
  | w, [] => some w
  | w, s :: ss =>
    match run_link_step w s with
    | none => none
    | some w1 => run_link_steps w1 ss

/-- A sample environment: the connection descriptor names the first peer of
`world_three_peers` and reports the link as bonded. -/
def env_peer_one : env_t :=
  { env_ok with
    esp_timer_get_time := 42000000,
    ble_gap_conn_find := some { peer_id_addr := ⟨0, [1, 2, 3, 4, 5, 6]⟩, sec_state_bonded := true } }

/-- A sample run from boot: a first peer connects and bonds, then the link is
lost. -/
def steps_sample : List link_step :=
  [link_step.gap_event env_peer_one (ble_gap_event.connect 0 1),
    link_step.gap_event env_peer_one (ble_gap_event.enc_change 0 1),
    link_step.gap_event env_ok (ble_gap_event.disconnect 19)]

/-- The transport calls `start_bonded_advertising` makes, by the answers it
gets. -/
def start_bonded_advertising_calls (env : env_t) : List ext_call :=
  if env.ble_gap_adv_set_fields_rc ≠ 0 then
    [ext_call.ble_gap_adv_stop, ext_call.ble_gap_adv_set_fields]
  else if env.ble_gap_adv_rsp_set_fields_rc ≠ 0 then
    [ext_call.ble_gap_adv_stop, ext_call.ble_gap_adv_set_fields,
      ext_call.ble_gap_adv_rsp_set_fields]
  else
    [ext_call.ble_gap_adv_stop, ext_call.ble_gap_adv_set_fields,
      ext_call.ble_gap_adv_rsp_set_fields, ext_call.ble_gap_adv_start 3]

/-- The calls `connect_to_preferred_device` makes after its connect call, by
the answer to that call. -/
def preferred_fallback_calls (env : env_t) (w : world_t) : List ext_call :=
  if env.ble_gap_connect_rc ≠ 0 then
    if w.ble_state.is_bonded then start_bonded_advertising_calls env
    else startAdvertising_calls env
  else []

/-- The calls `start_active_scan_for_bonded_devices` makes. -/
def active_scan_calls (w : world_t) : List ext_call :=
  if w.ble_state.active_scan_mode || w.ble_state.is_connected then []
  else [ext_call.ble_gap_disc 5000 1]

/-- A sample world: three bonded peers, the link up and the first peer active. -/
def world_three_linked : world_t :=
  { world_three_peers with
    ble_state := { world_three_peers.ble_state with
      is_connected := true,
      bonded_devices :=
        [{ sample_peer 1 1 5 with is_active := true }, sample_peer 2 3 2, sample_peer 3 1 9] ++
          List.replicate 5 bonded_device_zero },
    connection_handle := 1 }

/-- A sample world: the link to three bonded peers has just been lost and the
direct connection attempt to the preferred peer is under way. -/
def world_reconnecting : world_t :=
  (gap_event_disconnect env_ok world_three_linked).2

def BLE_HS_ETIMEOUT : Nat := 13

/-- The storage calls `save_bonded_devices_to_nvs` makes for a given array and
count. -/
def nvs_save_calls (env : env_t) (devs : List bonded_device_t) (count : Nat) : List ext_call :=
  if env.nvs_open_ok then
    [ext_call.nvs_set_blob_bonded_list devs, ext_call.nvs_set_u8_bonded_count count,
      ext_call.nvs_commit]
  else []

/-- A sample environment: the connection descriptor names a peer that is not
in `world_three_peers` and reports the link as bonded. -/
def env_new_bond : env_t :=
  { env_ok with
    esp_timer_get_time := 42000000,
    ble_gap_conn_find := some { peer_id_addr := ⟨0, [9, 9, 9, 9, 9, 9]⟩, sec_state_bonded := true } }

/-- The transport calls `update_ble_whitelist` makes. -/
def whitelist_calls (w : world_t) : List ext_call :=
  if w.ble_state.bonded_count > 0 then
    [ext_call.ble_gap_wl_set [],
      ext_call.ble_gap_wl_set
        ((w.ble_state.bonded_devices.take w.ble_state.bonded_count).map (fun d => d.addr))]
  else [ext_call.ble_gap_wl_set []]

/-- A sample world: nothing bonded, the pairing window opened at tick 0 by the
`PAIR` command. -/
def world_window_open : world_t := gatt_cmd_pair env_ok world_linked

/-- A sample environment: the direct connect call is refused. -/
def env_refused : env_t := { env_ok with ble_gap_connect_rc := 5 }

/-- A sample world: the link to three bonded peers was lost, the direct
connection attempt was refused and the active scan is running. -/
def world_scanning : world_t := (gap_event_disconnect env_refused world_three_linked).2

/-! ## Sample button holds -/

/-- An environment in which the tick counter reads 250: 2.5 s at 10 ms a tick. -/
def env_tick_250 : env_t := { env_ok with xTaskGetTickCount := 250 }

/-- An environment in which the tick counter reads 600: 6 s at 10 ms a tick. -/
def env_tick_600 : env_t := { env_ok with xTaskGetTickCount := 600 }

/-- The locals of `button_task` with the button down and stable since tick 0,
no hold handled yet. -/
def locals_pressed : button_locals :=
  { last_state := 0, stable_state := 0, last_change := 0, press_start_time := 0,
    medium_press_detected := false, long_press_detected := false }

/-- The locals of `button_task` with the button down and stable since tick 0,
the 2 s hold already handled. -/
def locals_held : button_locals :=
  { last_state := 0, stable_state := 0, last_change := 0, press_start_time := 0,
    medium_press_detected := true, long_press_detected := false }

/-! ## Boot: `load_bonded_devices_from_nvs` and `bleprph_on_sync` -/

/-- The content of the namespace `ble_bond` of the persistent store as the two
reads of `load_bonded_devices_from_nvs` find it: the blob `bonded_list`, taken
in whole records, and the byte `bonded_count`; `none` for a key that is
missing. -/
structure nvs_ble_bond where
  bonded_list : Option (List bonded_device_t)
  bonded_count : Option Nat
deriving DecidableEq, Repr

/-- The call `nvs_get_blob(nvs, "bonded_list", ble_state.bonded_devices, &size)`
with `size = sizeof(ble_state.bonded_devices)`: a blob that fits is copied over
the start of the array, a longer one is refused, a missing one leaves the
array as it is. -/
def nvs_get_blob_bonded_list (nvs : nvs_ble_bond) (devs : List bonded_device_t) :
    List bonded_device_t :=
  match nvs.bonded_list with
  | none => devs
  | some blob =>
    if blob.length ≤ MAX_BONDED_DEVICES then blob ++ devs.drop blob.length else devs

/-- The call `nvs_get_u8(nvs, "bonded_count", &ble_state.bonded_count)`. -/
def nvs_get_u8_bonded_count (nvs : nvs_ble_bond) (count : Nat) : Nat :=
  match nvs.bonded_count with
  | none => count
  | some c => c % 2 ^ 8

/-- The reads of `load_bonded_devices_from_nvs` and the assignment of
`is_bonded` that follows them: the function up to its sort. -/
def load_bonded_devices_read (env : env_t) (nvs : nvs_ble_bond) (w : world_t) : world_t :=
  let w1 : world_t :=
    if env.nvs_open_ok then
      { w with ble_state := { w.ble_state with
          bonded_devices := nvs_get_blob_bonded_list nvs w.ble_state.bonded_devices,
          bonded_count := nvs_get_u8_bonded_count nvs w.ble_state.bonded_count } }
    else w
  { w1 with ble_state := { w1.ble_state with
      is_bonded := decide (w1.ble_state.bonded_count > 0) } }

/-- The function `load_bonded_devices_from_nvs`.  The result is `none` when the
sort is entered with more records than the array has slots: its inner loop
then compares and swaps `bonded_devices[7]` with `bonded_devices[8]`, outside
the array, and what the program does from there on is undefined. -/
def load_bonded_devices_from_nvs (env : env_t) (nvs : nvs_ble_bond) (w : world_t) :
    Option world_t :=
  let w2 := load_bonded_devices_read env nvs w
  if w2.ble_state.bonded_count > 0 then
    if w2.ble_state.bonded_count ≤ MAX_BONDED_DEVICES then
      some (sort_bonded_devices_by_priority w2)
    else none
  else some w2

/-- What `bleprph_on_sync` gets from its collaborators: the persisted store and
the return codes of `ble_hs_id_infer_auto` and `ble_hs_util_ensure_addr`. -/
structure sync_env_t where
  nvs : nvs_ble_bond
  ble_hs_id_infer_auto_rc : Nat
  ble_hs_util_ensure_addr_rc : Nat
deriving DecidableEq, Repr

/-- The callback `bleprph_on_sync`; `none` is a load that leaves the array
(see `load_bonded_devices_from_nvs`) or a failed `assert`. -/
def bleprph_on_sync (env : env_t) (sync : sync_env_t) (w : world_t) : Option world_t :=
  match load_bonded_devices_from_nvs env sync.nvs w with
  | none => none
  | some w1 =>
    if sync.ble_hs_id_infer_auto_rc ≠ 0 then none
    else if sync.ble_hs_util_ensure_addr_rc ≠ 0 then none
    else
      let w2 := (w1.log (ext_call.ble_att_set_preferred_mtu 247)).log (ext_call.vTaskDelay 100)
      let w3 :=
        if w2.ble_state.is_bonded then start_bonded_advertising env (update_ble_whitelist w2)
        else startAdvertising env w2
      some (display_qr_code_callback w3)

/-- A persistent store without the namespace content: first boot. -/
def nvs_blank : nvs_ble_bond := { bonded_list := none, bonded_count := none }

/-- A persistent store as `save_bonded_devices_to_nvs` leaves it for
`world_three_peers`. -/
def nvs_three_peers : nvs_ble_bond :=
  { bonded_list := some world_three_peers.ble_state.bonded_devices, bonded_count := some 3 }

/-- A persistent store whose count byte is 9, one more than the array holds. -/
def nvs_count_nine : nvs_ble_bond :=
  { bonded_list := some world_three_peers.ble_state.bonded_devices, bonded_count := some 9 }

/-- A persistent store whose blob holds the same peer twice. -/
def nvs_repeated : nvs_ble_bond :=
  { bonded_list := some ([sample_peer 1 1 5, sample_peer 1 3 2] ++
      List.replicate 6 bonded_device_zero),
    bonded_count := some 2 }

/-- The host stack answers with success; the persistent store is `nvs`. -/
def sync_ok (nvs : nvs_ble_bond) : sync_env_t :=
  { nvs := nvs, ble_hs_id_infer_auto_rc := 0, ble_hs_util_ensure_addr_rc := 0 }

/-! ## The end of `wifi_scan_task` -/

/-- The text `WIFI_SCAN_OK`. -/
def str_WIFI_SCAN_OK : List Nat := [87, 73, 70, 73, 95, 83, 67, 65, 78, 95, 79, 75]

/-- The end of `wifi_scan_task` once the result text `json_str` is built: the
send over the link when it is connected, then the status
`WIFI_STATUS_SCAN_OK`, then the label `cleanup`. -/
def wifi_scan_task_send (fuel : Nat) (envs : Nat → env_t) (env : env_t) (w : world_t)
    (json_str : List Nat) : world_t :=
  let w1 :=
    if ble_manager_is_connected w then (send_wifi_scan_results fuel envs w json_str).2 else w
  let w2 := update_wifi_status_notify env w1 wifi_status_t.WIFI_STATUS_SCAN_OK
  { w2 with wifi_scan_running := false }

/-- A sample world: connected, the status channel subscribed, the scan-result
channel not. -/
def world_scan_unsubscribed : world_t := { world_linked with wifi_scan_notify_enabled := false }

/-! ## Runs of the operations that write `is_bonded` and `bonded_count` -/

/-- One operation on the bonded flag and the count: the load at boot, a direct
call of `add_bonded_device` or of `update_device_connection_info`, an
encryption-change event delivered to `bleprph_gap_event`, or the 5 s block of
`button_task`. -/
inductive bond_step where
  | load (env : env_t) (nvs : nvs_ble_bond)
  | add_bonded_device (env : env_t) (addr : ble_addr_t) (addr_type : Nat)
  | update_device_connection_info (env : env_t) (addr : ble_addr_t) (addr_type : Nat)
  | enc_change (env : env_t) (status conn_handle : Nat)
  | full_reset (env : env_t)

/-- The world after one such operation; `none` when the load leaves the array
or the `assert` of the encryption-change handler fails. -/
def run_bond_step (w : world_t) : bond_step → Option world_t
  | bond_step.load env nvs => load_bonded_devices_from_nvs env nvs w
  | bond_step.add_bonded_device env addr addr_type =>
    some (add_bonded_device env w addr addr_type).2
  | bond_step.update_device_connection_info env addr addr_type =>
    some (update_device_connection_info env w addr addr_type)
  | bond_step.enc_change env status conn_handle =>
    (bleprph_gap_event env w (ble_gap_event.enc_change status conn_handle)).map (fun r => r.2)
  | bond_step.full_reset env => some (button_task_long_press env w)

/-- The world after a sequence of such operations. -/
def run_bond_steps : world_t → List bond_step → Option world_t
  | w, [] => some w
  | w, s :: ss =>
    match run_bond_step w s with
    | none => none
    | some w1 => run_bond_steps w1 ss

/-- Whether the step is a direct call of `add_bonded_device`, outside the
encryption-change handler. -/
def direct_call_of_add : bond_step → Bool
  | bond_step.add_bonded_device _ _ _ => true
  | _ => false

/-- A sample run: boot on the store of three peers, a fourth peer bonds, full
reset, the first peer bonds again. -/
def bond_steps_sample : List bond_step :=
  [bond_step.load env_ok nvs_three_peers,
    bond_step.enc_change env_new_bond 0 1,
    bond_step.full_reset env_ok,
    bond_step.enc_change env_peer_one 0 1]

/-! ## Theorems: the sort -/

theorem in_order_refl (a : bonded_device_t) : in_order a a := ⟨le_refl _, fun _ => le_refl _⟩

theorem in_order_trans {a b c : bonded_device_t} (h1 : in_order a b) (h2 : in_order b c) :
    in_order a c := by
  obtain ⟨p1, t1⟩ := h1
  obtain ⟨p2, t2⟩ := h2
  refine ⟨le_trans p2 p1, fun h => ?_⟩
  have hab : a.priority = b.priority := by omega
  have hbc : b.priority = c.priority := by omega
  exact le_trans (t2 hbc) (t1 hab)

theorem sort_inner_length (m : Nat) (l : List bonded_device_t) :
    (sort_inner m l).length = l.length := by
  induction m generalizing l with
  | zero => simp [sort_inner]
  | succ m ih =>
    match l with
    | [] => simp [sort_inner]
    | [a] => simp [sort_inner]
    | a :: b :: rest =>
      simp only [sort_inner]
      split_ifs <;> simp [ih]

theorem sort_inner_append (m : Nat) (l rest : List bonded_device_t) (h : l.length = m + 1) :
    sort_inner m (l ++ rest) = sort_inner m l ++ rest := by
  induction m generalizing l with
  | zero => simp [sort_inner]
  | succ m ih =>
    match l, h with
    | a :: b :: tl, h =>
      have hl : (b :: tl).length = m + 1 := by simpa using h
      have hl2 : (a :: tl).length = m + 1 := by simpa using h
      have e1 := ih _ hl
      have e2 := ih _ hl2
      simp only [List.cons_append] at e1 e2
      simp only [sort_inner, List.cons_append]
      split_ifs
      · exact congrArg (List.cons b) e2
      · exact congrArg (List.cons b) e2
      · exact congrArg (List.cons a) e1

theorem sort_inner_spec (m : Nat) (l : List bonded_device_t) (h : l.length = m + 1) :
    ∃ init last, sort_inner m l = init ++ [last] ∧ List.Perm (init ++ [last]) l ∧
      ∀ x ∈ init, in_order x last := by
  induction m generalizing l with
  | zero =>
    match l, h with
    | [a], _ => exact ⟨[], a, by simp [sort_inner], by simp, by simp⟩
  | succ m ih =>
    match l, h with
    | a :: b :: tl, h =>
      have hl : (b :: tl).length = m + 1 := by simpa using h
      have hl2 : (a :: tl).length = m + 1 := by simpa using h
      have key : ∀ (x y : bonded_device_t), in_order y x →
          ∃ init last, y :: sort_inner m (x :: tl) = init ++ [last] ∧
            List.Perm (init ++ [last]) (y :: x :: tl) ∧ ∀ z ∈ init, in_order z last := by
        intro x y hyx
        obtain ⟨init, last, e, p, o⟩ := ih (x :: tl) (by simpa using h)
        refine ⟨y :: init, last, by simp [e], by simpa using p, ?_⟩
        intro z hz
        rcases List.mem_cons.1 hz with rfl | hz
        · have hx : x ∈ init ++ [last] := p.symm.subset (List.mem_cons_self _ _)
          rcases List.mem_append.1 hx with hx | hx
          · exact in_order_trans hyx (o x hx)
          · have : x = last := by simpa using hx
            exact this ▸ hyx
        · exact o z hz
      simp only [sort_inner]
      split_ifs with c1 c2
      · obtain ⟨init, last, e, p, o⟩ := key a b ⟨le_of_lt c1, fun hh => by omega⟩
        exact ⟨init, last, e, p.trans (List.Perm.swap _ _ _), o⟩
      · obtain ⟨init, last, e, p, o⟩ := key a b ⟨le_of_eq c2.1, fun _ => le_of_lt c2.2⟩
        exact ⟨init, last, e, p.trans (List.Perm.swap _ _ _), o⟩
      · exact key b a ⟨by omega, fun hh => by
          by_contra hlt
          exact c2 ⟨hh, by omega⟩⟩

theorem sort_passes_spec (n : Nat) (devs : List bonded_device_t) (hn : n ≤ devs.length) :
    ∀ k, k ≤ n - 1 → ∃ front back,
      (List.range k).foldl (fun l i => sort_inner (n - i - 1) l) devs
          = front ++ back ++ devs.drop n ∧
        front.length = n - k ∧ back.length = k ∧ List.Perm (front ++ back) (devs.take n) ∧
        List.Pairwise in_order back ∧ ∀ x ∈ front, ∀ y ∈ back, in_order x y := by
  intro k
  induction k with
  | zero =>
    intro _
    refine ⟨devs.take n, [], by simp, by simp [hn], rfl, by simp, List.Pairwise.nil, ?_⟩
    intro x _ y hy
    cases hy
  | succ k ih =>
    intro hk
    obtain ⟨front, back, e, hf, hb, p, pw, cr⟩ := ih (by omega)
    have hfl : front.length = (n - k - 1) + 1 := by omega
    obtain ⟨init, last, e2, p2, o⟩ := sort_inner_spec (n - k - 1) front hfl
    have hlast : last ∈ front := p2.subset (by simp)
    have hinit : ∀ x ∈ init, x ∈ front := fun x hx => p2.subset (by simp [hx])
    refine ⟨init, last :: back, ?_, ?_, by simp [hb], ?_, ?_, ?_⟩
    · rw [List.range_succ, List.foldl_append, e]
      simp only [List.foldl_cons, List.foldl_nil]
      rw [List.append_assoc, sort_inner_append _ _ _ hfl, e2]
      simp
    · have := p2.length_eq
      simp at this
      omega
    · have h1 : List.Perm (init ++ [last] ++ back) (front ++ back) := p2.append_right back
      have h2 : init ++ last :: back = init ++ [last] ++ back := by simp
      rw [h2]
      exact h1.trans p
    · exact List.Pairwise.cons (fun y hy => cr last hlast y hy) pw
    · intro x hx y hy
      rcases List.mem_cons.1 hy with rfl | hy
      · exact o x hx
      · exact cr x (hinit x hx) y hy

/-- What the bubble sort does to the array: the `count` records in use are
rearranged into an order in which no record is followed by one that outranks
it; the slots behind them are not touched. -/
theorem sort_slots_spec (n : Nat) (devs : List bonded_device_t) (hn : n ≤ devs.length) :
    ∃ sorted, sort_slots n devs = sorted ++ devs.drop n ∧ sorted.length = n ∧
      List.Perm sorted (devs.take n) ∧ List.Pairwise in_order sorted := by
  obtain ⟨front, back, e, hf, hb, p, pw, cr⟩ := sort_passes_spec n devs hn (n - 1) (le_refl _)
  refine ⟨front ++ back, e, by simp [hf, hb], p, ?_⟩
  rw [List.pairwise_append]
  refine ⟨?_, pw, cr⟩
  match front, hf with
  | [], _ => exact List.Pairwise.nil
  | [a], _ => simp
  | a :: b :: tl, hf => simp at hf; omega

/-! ## Theorems: the store -/

theorem same_peer_iff (d : bonded_device_t) (addr : ble_addr_t) (addr_type : Nat) :
    same_peer d addr addr_type = true ↔ peer_key d = (addr.val, addr_type) := by
  simp [same_peer, peer_key]

theorem touch_record_key (sec : Nat) (d : bonded_device_t) :
    peer_key (touch_record sec d) = peer_key d := rfl

theorem touch_slots_length (sec : Nat) (addr : ble_addr_t) (addr_type : Nat) (n : Nat)
    (l : List bonded_device_t) : (touch_slots sec addr addr_type n l).2.length = l.length := by
  induction n generalizing l with
  | zero => simp [touch_slots]
  | succ n ih =>
    cases l with
    | nil => simp [touch_slots]
    | cons d ds =>
      simp only [touch_slots]
      split_ifs <;> simp [ih]

theorem touch_slots_keys (sec : Nat) (addr : ble_addr_t) (addr_type : Nat) (n : Nat)
    (l : List bonded_device_t) :
    (touch_slots sec addr addr_type n l).2.map peer_key = l.map peer_key := by
  induction n generalizing l with
  | zero => simp [touch_slots]
  | succ n ih =>
    cases l with
    | nil => simp [touch_slots]
    | cons d ds =>
      simp only [touch_slots]
      split_ifs
      · simp [touch_record_key]
      · simp [ih]

theorem touch_slots_found_eq (sec : Nat) (addr : ble_addr_t) (addr_type : Nat) (n : Nat)
    (l : List bonded_device_t) :
    (touch_slots sec addr addr_type n l).1 = (l.take n).any (fun d => same_peer d addr addr_type) := by
  induction n generalizing l with
  | zero => simp [touch_slots]
  | succ n ih =>
    cases l with
    | nil => simp [touch_slots]
    | cons d ds =>
      simp only [touch_slots]
      split_ifs with h
      · simp [h]
      · simp [h, ih]

theorem touch_slots_mem (sec : Nat) (addr : ble_addr_t) (addr_type : Nat) (n : Nat)
    (l : List bonded_device_t) (d : bonded_device_t)
    (h : (l.take n).find? (fun d => same_peer d addr addr_type) = some d) :
    touch_record sec d ∈ (touch_slots sec addr addr_type n l).2.take n := by
  induction n generalizing l with
  | zero => simp at h
  | succ n ih =>
    cases l with
    | nil => simp at h
    | cons x xs =>
      simp only [touch_slots]
      simp only [List.take_succ_cons, List.find?_cons] at h
      split_ifs with hx
      · simp only [hx] at h
        have : x = d := by simpa using h
        simp [this]
      · simp only [hx] at h
        simp only [List.take_succ_cons, List.mem_cons]
        exact Or.inr (ih xs h)

theorem find_unique (addr : ble_addr_t) (addr_type : Nat) (l : List bonded_device_t)
    (d : bonded_device_t) (hn : (l.map peer_key).Nodup) (hd : d ∈ l)
    (hm : same_peer d addr addr_type = true) :
    l.find? (fun d => same_peer d addr addr_type) = some d := by
  induction l with
  | nil => cases hd
  | cons x xs ih =>
    simp only [List.map_cons, List.nodup_cons] at hn
    simp only [List.find?_cons]
    by_cases hx : same_peer x addr addr_type = true
    · simp only [hx]
      rcases List.mem_cons.1 hd with rfl | hd
      · rfl
      · exfalso
        apply hn.1
        rw [(same_peer_iff x addr addr_type).1 hx, ← (same_peer_iff d addr addr_type).1 hm]
        exact List.mem_map_of_mem _ hd
    · have hx2 : same_peer x addr addr_type = false := by simpa using hx
      simp only [hx2]
      rcases List.mem_cons.1 hd with rfl | hd
      · rw [hm] at hx2; cases hx2
      · exact ih hn.2 hd

theorem write_slot_length (f : bonded_device_t → bonded_device_t) (i : Nat)
    (l : List bonded_device_t) : (write_slot f i l).length = l.length := by
  induction i generalizing l with
  | zero => cases l <;> simp [write_slot]
  | succ i ih => cases l <;> simp [write_slot, ih]

theorem write_slot_spec (f : bonded_device_t → bonded_device_t) (i : Nat)
    (l : List bonded_device_t) (h : i < l.length) :
    ∃ d, l[i]? = some d ∧ write_slot f i l = l.take i ++ f d :: l.drop (i + 1) := by
  induction i generalizing l with
  | zero =>
    cases l with
    | nil => simp at h
    | cons x xs => exact ⟨x, by simp, by simp [write_slot]⟩
  | succ i ih =>
    cases l with
    | nil => simp at h
    | cons x xs =>
      obtain ⟨d, h1, h2⟩ := ih xs (by simpa using h)
      exact ⟨d, by simpa using h1, by simp [write_slot, h2]⟩

/-- The world-level reading of `sort_slots_spec`. -/
theorem sort_world_spec (w : world_t)
    (hc : w.ble_state.bonded_count ≤ w.ble_state.bonded_devices.length) :
    ∃ sorted,
      (sort_bonded_devices_by_priority w).ble_state.bonded_devices
          = sorted ++ w.ble_state.bonded_devices.drop w.ble_state.bonded_count ∧
        sorted.length = w.ble_state.bonded_count ∧
        List.Perm sorted (w.ble_state.bonded_devices.take w.ble_state.bonded_count) ∧
        List.Pairwise in_order sorted ∧
        (sort_bonded_devices_by_priority w).ble_state.bonded_count = w.ble_state.bonded_count := by
  obtain ⟨sorted, e, hl, p, pw⟩ := sort_slots_spec _ _ hc
  exact ⟨sorted, e, hl, p, pw, rfl⟩

theorem save_ble_state (env : env_t) (w : world_t) :
    (save_bonded_devices_to_nvs env w).ble_state = w.ble_state := by
  unfold save_bonded_devices_to_nvs
  split_ifs <;> rfl

theorem touch_slots_drop (sec : Nat) (addr : ble_addr_t) (addr_type : Nat) (n : Nat)
    (l : List bonded_device_t) :
    (touch_slots sec addr addr_type n l).2.drop n = l.drop n := by
  induction n generalizing l with
  | zero => simp [touch_slots]
  | succ n ih =>
    cases l with
    | nil => simp [touch_slots]
    | cons d ds =>
      simp only [touch_slots]
      split_ifs <;> simp [ih]

/-- The two ways `update_device_connection_info` can go. -/
theorem update_cases (env : env_t) (w : world_t) (addr : ble_addr_t) (addr_type : Nat)
    (hc : w.ble_state.bonded_count ≤ w.ble_state.bonded_devices.length) :
    (is_bonded_device w addr addr_type = false ∧
        update_device_connection_info env w addr addr_type = w) ∨
      (is_bonded_device w addr addr_type = true ∧ ∃ sorted,
        (update_device_connection_info env w addr addr_type).ble_state.bonded_devices
            = sorted ++ w.ble_state.bonded_devices.drop w.ble_state.bonded_count ∧
          sorted.length = w.ble_state.bonded_count ∧
          List.Perm sorted
            ((touch_slots ((env.esp_timer_get_time / 1000000) % 2 ^ 32) addr addr_type
              w.ble_state.bonded_count w.ble_state.bonded_devices).2.take
                w.ble_state.bonded_count) ∧
          List.Pairwise in_order sorted ∧
          (update_device_connection_info env w addr addr_type).ble_state.bonded_count
            = w.ble_state.bonded_count) := by
  have hf := touch_slots_found_eq ((env.esp_timer_get_time / 1000000) % 2 ^ 32) addr addr_type
    w.ble_state.bonded_count w.ble_state.bonded_devices
  by_cases hb : is_bonded_device w addr addr_type = true
  · right
    refine ⟨hb, ?_⟩
    have hf1 : (touch_slots ((env.esp_timer_get_time / 1000000) % 2 ^ 32) addr addr_type
        w.ble_state.bonded_count w.ble_state.bonded_devices).1 = true := by
      rw [hf]; exact hb
    obtain ⟨sorted, e, hl, p, pw, hcnt⟩ := sort_world_spec
      (save_bonded_devices_to_nvs env
        { w with ble_state := { w.ble_state with bonded_devices :=
          (touch_slots ((env.esp_timer_get_time / 1000000) % 2 ^ 32) addr addr_type
            w.ble_state.bonded_count w.ble_state.bonded_devices).2 } })
      (by rw [save_ble_state]; simpa [touch_slots_length] using hc)
    rw [save_ble_state] at e hl p hcnt
    simp only [touch_slots_drop] at e
    refine ⟨sorted, ?_, hl, p, pw, ?_⟩
    · unfold update_device_connection_info
      simp only [hf1, if_true]
      exact e
    · unfold update_device_connection_info
      simp only [hf1, if_true]
      exact hcnt
  · left
    have hb2 : is_bonded_device w addr addr_type = false := by simpa using hb
    refine ⟨hb2, ?_⟩
    have hf1 : (touch_slots ((env.esp_timer_get_time / 1000000) % 2 ^ 32) addr addr_type
        w.ble_state.bonded_count w.ble_state.bonded_devices).1 = false := by
      rw [hf]; exact hb2
    unfold update_device_connection_info
    simp only [hf1, Bool.false_eq_true, if_false]

theorem update_store_ok (env : env_t) (w : world_t) (addr : ble_addr_t) (addr_type : Nat)
    (h : store_ok w) : store_ok (update_device_connection_info env w addr addr_type) := by
  obtain ⟨hlen, hcnt, hnd⟩ := h
  rcases update_cases env w addr addr_type (by omega) with ⟨_, e⟩ | ⟨_, sorted, e, hl, p, _, ec⟩
  · rw [e]; exact ⟨hlen, hcnt, hnd⟩
  · refine ⟨?_, ?_, ?_⟩
    · rw [e]; simp [hl, hlen]; omega
    · rw [ec]; exact hcnt
    · rw [ec, e, List.take_left' hl]
      rw [(p.map peer_key).nodup_iff, List.map_take, touch_slots_keys, ← List.map_take]
      exact hnd

/-- The two ways `add_bonded_device` can go on a store whose count is within
the array. -/
theorem add_cases (env : env_t) (w : world_t) (addr : ble_addr_t) (addr_type : Nat)
    (hlen : w.ble_state.bonded_devices.length = MAX_BONDED_DEVICES)
    (hcnt : w.ble_state.bonded_count ≤ MAX_BONDED_DEVICES) :
    ((is_bonded_device w addr addr_type = true ∨ w.ble_state.bonded_count = MAX_BONDED_DEVICES) ∧
        add_bonded_device env w addr addr_type = (false, w)) ∨
      ((is_bonded_device w addr addr_type = false ∧
          w.ble_state.bonded_count < MAX_BONDED_DEVICES) ∧
        (add_bonded_device env w addr addr_type).1 = true ∧
        ∃ d, w.ble_state.bonded_devices[w.ble_state.bonded_count]? = some d ∧
          (add_bonded_device env w addr addr_type).2.ble_state.bonded_devices
            = w.ble_state.bonded_devices.take w.ble_state.bonded_count ++
              { d with addr := addr, addr_type := addr_type } ::
                w.ble_state.bonded_devices.drop (w.ble_state.bonded_count + 1) ∧
          (add_bonded_device env w addr addr_type).2.ble_state.bonded_count
            = w.ble_state.bonded_count + 1) := by
  by_cases hb : is_bonded_device w addr addr_type = true
  · left
    exact ⟨Or.inl hb, by simp [add_bonded_device, hb]⟩
  · have hb2 : is_bonded_device w addr addr_type = false := by simpa using hb
    by_cases hfull : w.ble_state.bonded_count < MAX_BONDED_DEVICES
    · right
      obtain ⟨d, h1, h2⟩ := write_slot_spec
        (fun d => { d with addr := addr, addr_type := addr_type })
        w.ble_state.bonded_count w.ble_state.bonded_devices (by omega)
      refine ⟨⟨hb2, hfull⟩, by simp [add_bonded_device, hb2, hfull], d, h1, ?_, ?_⟩
      · simp only [add_bonded_device, hb2, hfull, if_true, Bool.false_eq_true, if_false,
          save_ble_state]
        exact h2
      · simp only [add_bonded_device, hb2, hfull, if_true, Bool.false_eq_true, if_false,
          save_ble_state]
    · left
      exact ⟨Or.inr (by omega), by simp [add_bonded_device, hb2, hfull]⟩

theorem add_store_ok (env : env_t) (w : world_t) (addr : ble_addr_t) (addr_type : Nat)
    (h : store_ok w) : store_ok (add_bonded_device env w addr addr_type).2 := by
  obtain ⟨hlen, hcnt, hnd⟩ := h
  rcases add_cases env w addr addr_type hlen hcnt with ⟨_, e⟩ | ⟨⟨hb, hlt⟩, _, d, hd, e, ec⟩
  · rw [e]; exact ⟨hlen, hcnt, hnd⟩
  · have htl : (w.ble_state.bonded_devices.take w.ble_state.bonded_count).length
        = w.ble_state.bonded_count := by simp; omega
    refine ⟨?_, ?_, ?_⟩
    · rw [e]; simp; omega
    · rw [ec]; omega
    · rw [ec, e]
      have : (w.ble_state.bonded_devices.take w.ble_state.bonded_count ++
          { d with addr := addr, addr_type := addr_type } ::
            w.ble_state.bonded_devices.drop (w.ble_state.bonded_count + 1)).take
              (w.ble_state.bonded_count + 1)
          = w.ble_state.bonded_devices.take w.ble_state.bonded_count ++
            [{ d with addr := addr, addr_type := addr_type }] := by
        rw [← List.singleton_append, ← List.append_assoc]
        exact List.take_left' (by simp [htl])
      rw [this, List.map_append, List.nodup_append]
      refine ⟨hnd, by simp, ?_⟩
      intro k hk1 hk2
      obtain ⟨x, hx, rfl⟩ := List.mem_map.1 hk1
      have hk3 : peer_key x = (addr.val, addr_type) := by
        simpa [peer_key] using hk2
      have hx2 : same_peer x addr addr_type = true := (same_peer_iff x addr addr_type).2 hk3
      have : is_bonded_device w addr addr_type = true := by
        unfold is_bonded_device
        exact List.any_eq_true.2 ⟨x, hx, hx2⟩
      rw [hb] at this
      cases this

theorem run_store_call_ok (w : world_t) (c : store_call) (h : store_ok w) :
    store_ok (run_store_call w c) := by
  cases c with
  | add env addr addr_type => exact add_store_ok env w addr addr_type h
  | touch env addr addr_type => exact update_store_ok env w addr addr_type h

theorem foldl_store_ok (calls : List store_call) (w : world_t) (h : store_ok w) :
    store_ok (calls.foldl run_store_call w) := by
  induction calls generalizing w with
  | nil => exact h
  | cons c cs ih => exact ih _ (run_store_call_ok w c h)

/-- C1: starting from an empty store (count 0, eight slots), after any finite
sequence of `add_bonded_device` and `update_device_connection_info` calls with
arbitrary arguments, `bonded_count` is at most 8 and the first `bonded_count`
records carry pairwise different (6-byte address, address type) pairs. -/
theorem store_bounded_and_duplicate_free (w0 : world_t)
    (hlen : w0.ble_state.bonded_devices.length = MAX_BONDED_DEVICES)
    (hempty : w0.ble_state.bonded_count = 0) (calls : List store_call) :
    (calls.foldl run_store_call w0).ble_state.bonded_count ≤ 8 ∧
      (((calls.foldl run_store_call w0).ble_state.bonded_devices.take
          (calls.foldl run_store_call w0).ble_state.bonded_count).map
        (fun d => (d.addr.val, d.addr_type))).Nodup := by
  have h0 : store_ok w0 := ⟨hlen, by rw [hempty]; exact Nat.zero_le _, by simp [hempty]⟩
  obtain ⟨_, h2, h3⟩ := foldl_store_ok calls w0 h0
  exact ⟨h2, h3⟩

theorem store_bounded_and_duplicate_free_witness :
    world_init.ble_state.bonded_devices.length = MAX_BONDED_DEVICES ∧
      world_init.ble_state.bonded_count = 0 ∧
      (([store_call.add env_ok ⟨0, [1, 2, 3, 4, 5, 6]⟩ 0,
          store_call.add env_ok ⟨0, [1, 2, 3, 4, 5, 6]⟩ 0,
          store_call.touch env_ok ⟨0, [1, 2, 3, 4, 5, 6]⟩ 0].foldl run_store_call
            world_init).ble_state.bonded_count ≤ 8 ∧
        ((([store_call.add env_ok ⟨0, [1, 2, 3, 4, 5, 6]⟩ 0,
          store_call.add env_ok ⟨0, [1, 2, 3, 4, 5, 6]⟩ 0,
          store_call.touch env_ok ⟨0, [1, 2, 3, 4, 5, 6]⟩ 0].foldl run_store_call
            world_init).ble_state.bonded_devices.take
          ([store_call.add env_ok ⟨0, [1, 2, 3, 4, 5, 6]⟩ 0,
          store_call.add env_ok ⟨0, [1, 2, 3, 4, 5, 6]⟩ 0,
          store_call.touch env_ok ⟨0, [1, 2, 3, 4, 5, 6]⟩ 0].foldl run_store_call
            world_init).ble_state.bonded_count).map
        (fun d => (d.addr.val, d.addr_type))).Nodup) :=
  ⟨by decide, rfl, store_bounded_and_duplicate_free world_init (by decide) rfl _⟩

/-- C2: on a store with `bonded_count <= 8`, after `update_device_connection_info`
has updated a present peer (and so has run the sort), every adjacent pair
`i`, `i + 1` of the first `bonded_count` records has
`priority[i] >= priority[i+1]`, and when the two priorities are equal,
`last_connected_timestamp[i] >= last_connected_timestamp[i+1]`. -/
theorem touch_leaves_records_ordered (env : env_t) (w : world_t) (addr : ble_addr_t)
    (addr_type : Nat)
    (hlen : w.ble_state.bonded_devices.length = MAX_BONDED_DEVICES)
    (hcnt : w.ble_state.bonded_count ≤ 8)
    (hpresent : is_bonded_device w addr addr_type = true) :
    ∀ i, i + 1 < (update_device_connection_info env w addr addr_type).ble_state.bonded_count →
      ∃ x y,
        (update_device_connection_info env w addr addr_type).ble_state.bonded_devices[i]?
            = some x ∧
          (update_device_connection_info env w addr addr_type).ble_state.bonded_devices[i + 1]?
            = some y ∧
          x.priority ≥ y.priority ∧
          (x.priority = y.priority →
            x.last_connected_timestamp ≥ y.last_connected_timestamp) := by
  intro i hi
  have hc : w.ble_state.bonded_count ≤ w.ble_state.bonded_devices.length := by
    rw [hlen]; exact hcnt
  rcases update_cases env w addr addr_type hc with ⟨hb, _⟩ | ⟨_, sorted, e, hl, _, pw, ec⟩
  · rw [hpresent] at hb; cases hb
  · rw [ec] at hi
    have hi0 : i < sorted.length := by omega
    have hi1 : i + 1 < sorted.length := by omega
    refine ⟨sorted[i], sorted[i + 1], ?_, ?_, ?_⟩
    · rw [e, List.getElem?_append_left hi0, List.getElem?_eq_getElem hi0]
    · rw [e, List.getElem?_append_left hi1, List.getElem?_eq_getElem hi1]
    · exact (List.pairwise_iff_getElem.1 pw) i (i + 1) hi0 hi1 (Nat.lt_succ_self i)

theorem touch_leaves_records_ordered_witness :
    world_three_peers.ble_state.bonded_devices.length = MAX_BONDED_DEVICES ∧
      world_three_peers.ble_state.bonded_count ≤ 8 ∧
      is_bonded_device world_three_peers ⟨0, [1, 2, 3, 4, 5, 6]⟩ 0 = true ∧
      ∀ i, i + 1 < (update_device_connection_info env_ok world_three_peers
          ⟨0, [1, 2, 3, 4, 5, 6]⟩ 0).ble_state.bonded_count →
        ∃ x y,
          (update_device_connection_info env_ok world_three_peers
            ⟨0, [1, 2, 3, 4, 5, 6]⟩ 0).ble_state.bonded_devices[i]? = some x ∧
          (update_device_connection_info env_ok world_three_peers
            ⟨0, [1, 2, 3, 4, 5, 6]⟩ 0).ble_state.bonded_devices[i + 1]? = some y ∧
          x.priority ≥ y.priority ∧
          (x.priority = y.priority →
            x.last_connected_timestamp ≥ y.last_connected_timestamp) :=
  ⟨by decide, by decide, by decide,
    touch_leaves_records_ordered env_ok world_three_peers ⟨0, [1, 2, 3, 4, 5, 6]⟩ 0
      (by decide) (by decide) (by decide)⟩

/-- A concrete run: touching the first of three peers raises its priority to 2
and the sort puts it between the other two. -/
theorem touch_three_peers_run : ((update_device_connection_info env_ok world_three_peers
    ⟨0, [1, 2, 3, 4, 5, 6]⟩ 0).ble_state.bonded_devices.take 3).map
      (fun d => (d.addr.val.head!, d.priority, d.last_connected_timestamp))
    = [(2, 3, 2), (1, 2, 0), (3, 1, 9)] := by decide

/-- One touch of a present peer on a well-formed store: the lookup then
finds the touched record. -/
theorem touch_priority_step (env : env_t) (w : world_t) (addr : ble_addr_t) (addr_type : Nat)
    (p : Nat) (hok : store_ok w) (hp : peer_priority w addr addr_type = some p) :
    peer_priority (update_device_connection_info env w addr addr_type) addr addr_type
      = some (if p < 10 then p + 1 else p) := by
  obtain ⟨hlen, hcnt, hnd⟩ := hok
  unfold peer_priority at hp
  obtain ⟨d, hd, hdp⟩ := Option.map_eq_some'.1 hp
  have hm : same_peer d addr addr_type = true := by
    have := List.find?_some hd
    simpa using this
  have hbonded : is_bonded_device w addr addr_type = true := by
    unfold is_bonded_device
    exact List.any_eq_true.2 ⟨d, List.mem_of_find?_eq_some hd, hm⟩
  rcases update_cases env w addr addr_type (by omega) with ⟨hb, _⟩ | ⟨_, sorted, e, hl, pm, _, ec⟩
  · rw [hbonded] at hb; cases hb
  · have hmem := touch_slots_mem ((env.esp_timer_get_time / 1000000) % 2 ^ 32) addr addr_type
      w.ble_state.bonded_count w.ble_state.bonded_devices d hd
    have hmem2 : touch_record ((env.esp_timer_get_time / 1000000) % 2 ^ 32) d ∈ sorted :=
      pm.symm.subset hmem
    have hnd2 : (sorted.map peer_key).Nodup := by
      rw [(pm.map peer_key).nodup_iff, List.map_take, touch_slots_keys, ← List.map_take]
      exact hnd
    have hm2 : same_peer (touch_record ((env.esp_timer_get_time / 1000000) % 2 ^ 32) d)
        addr addr_type = true := by
      rw [same_peer_iff, touch_record_key]
      exact (same_peer_iff d addr addr_type).1 hm
    have hfind := find_unique addr addr_type sorted _ hnd2 hmem2 hm2
    unfold peer_priority
    rw [ec, e, List.take_left' hl, hfind]
    simp [touch_record, hdp]

theorem touch_priority_iter (w : world_t) (addr : ble_addr_t) (addr_type : Nat)
    (envs : List env_t) : ∀ (p : Nat), store_ok w → peer_priority w addr addr_type = some p →
      p ≤ 10 →
      peer_priority
        (envs.foldl (fun w env => update_device_connection_info env w addr addr_type) w)
        addr addr_type = some (min (p + envs.length) 10) := by
  induction envs generalizing w with
  | nil =>
    intro p _ hp hp10
    simp only [List.foldl_nil, List.length_nil, Nat.add_zero]
    rw [hp, Nat.min_eq_left hp10]
  | cons env envs ih =>
    intro p hok hp hp10
    have h1 := touch_priority_step env w addr addr_type p hok hp
    have h2 := ih (update_device_connection_info env w addr addr_type)
      (if p < 10 then p + 1 else p) (update_store_ok env w addr addr_type hok) h1
      (by split_ifs <;> omega)
    simp only [List.foldl_cons, List.length_cons]
    rw [h2]
    congr 1
    split_ifs <;> omega

/-- C3: on a well-formed store, for a present peer with priority `p <= 10`,
one call of `update_device_connection_info` on that peer never lowers its
priority, and after `k` such calls (the peer looked up by address and type
after each re-sort) its priority is `min (p + k) 10`. -/
theorem touch_priority_saturates (w : world_t) (addr : ble_addr_t) (addr_type : Nat)
    (p : Nat) (hok : store_ok w) (hp : peer_priority w addr addr_type = some p)
    (hp10 : p ≤ 10) :
    (∀ env, ∃ q,
        peer_priority (update_device_connection_info env w addr addr_type) addr addr_type
          = some q ∧ p ≤ q) ∧
      ∀ envs : List env_t,
        peer_priority
          (envs.foldl (fun w env => update_device_connection_info env w addr addr_type) w)
          addr addr_type = some (min (p + envs.length) 10) := by
  refine ⟨fun env => ⟨_, touch_priority_step env w addr addr_type p hok hp, ?_⟩,
    fun envs => touch_priority_iter w addr addr_type envs p hok hp hp10⟩
  split_ifs <;> omega

theorem touch_priority_saturates_witness :
    store_ok world_three_peers ∧
      peer_priority world_three_peers ⟨0, [1, 2, 3, 4, 5, 6]⟩ 0 = some 1 ∧ 1 ≤ 10 ∧
      ((∀ env, ∃ q,
        peer_priority (update_device_connection_info env world_three_peers
          ⟨0, [1, 2, 3, 4, 5, 6]⟩ 0) ⟨0, [1, 2, 3, 4, 5, 6]⟩ 0 = some q ∧ 1 ≤ q) ∧
      ∀ envs : List env_t,
        peer_priority
          (envs.foldl (fun w env => update_device_connection_info env w
            ⟨0, [1, 2, 3, 4, 5, 6]⟩ 0) world_three_peers)
          ⟨0, [1, 2, 3, 4, 5, 6]⟩ 0 = some (min (1 + envs.length) 10)) :=
  ⟨by decide, by decide, by decide,
    touch_priority_saturates world_three_peers ⟨0, [1, 2, 3, 4, 5, 6]⟩ 0 1
      (by decide) (by decide) (by decide)⟩

/-- C10: on a store whose count is within its eight slots,
`add_bonded_device(a, t)` returns false and leaves the whole state unchanged
when a record with the same (address, type) is among the first `bonded_count`
records or when `bonded_count = 8`; in every other case it returns true,
`bonded_count` grows by exactly one, the new last record has address `a` and
type `t`, and all earlier records are unchanged. -/
theorem add_bonded_device_contract (env : env_t) (w : world_t) (addr : ble_addr_t)
    (addr_type : Nat)
    (hlen : w.ble_state.bonded_devices.length = MAX_BONDED_DEVICES)
    (hcnt : w.ble_state.bonded_count ≤ MAX_BONDED_DEVICES) :
    ((is_bonded_device w addr addr_type = true ∨ w.ble_state.bonded_count = 8) →
        add_bonded_device env w addr addr_type = (false, w)) ∧
      (¬(is_bonded_device w addr addr_type = true ∨ w.ble_state.bonded_count = 8) →
        (add_bonded_device env w addr addr_type).1 = true ∧
        (add_bonded_device env w addr addr_type).2.ble_state.bonded_count
          = w.ble_state.bonded_count + 1 ∧
        (∃ d, (add_bonded_device env w addr addr_type).2.ble_state.bonded_devices[
              w.ble_state.bonded_count]? = some d ∧ d.addr = addr ∧ d.addr_type = addr_type) ∧
        ∀ i, i < w.ble_state.bonded_count →
          (add_bonded_device env w addr addr_type).2.ble_state.bonded_devices[i]?
            = w.ble_state.bonded_devices[i]?) := by
  have htl : (w.ble_state.bonded_devices.take w.ble_state.bonded_count).length
      = w.ble_state.bonded_count := by simp; omega
  rcases add_cases env w addr addr_type hlen hcnt with ⟨hc, e⟩ | ⟨⟨hb, hlt⟩, h1, d, _, e, ec⟩
  · refine ⟨fun _ => e, fun hn => ?_⟩
    exact absurd hc hn
  · refine ⟨fun hc => ?_, fun _ => ⟨h1, ec, ?_, ?_⟩⟩
    · rcases hc with hc | hc
      · rw [hb] at hc; cases hc
      · simp [MAX_BONDED_DEVICES] at hlt; omega
    · refine ⟨{ d with addr := addr, addr_type := addr_type }, ?_, rfl, rfl⟩
      rw [e, List.getElem?_append_right (by omega), htl]
      simp
    · intro i hi
      rw [e, List.getElem?_append_left (by omega), List.getElem?_take_of_lt hi]

theorem add_bonded_device_contract_witness :
    world_three_peers.ble_state.bonded_devices.length = MAX_BONDED_DEVICES ∧
      world_three_peers.ble_state.bonded_count ≤ MAX_BONDED_DEVICES ∧
      (((is_bonded_device world_three_peers ⟨0, [9, 2, 3, 4, 5, 6]⟩ 0 = true ∨
          world_three_peers.ble_state.bonded_count = 8) →
        add_bonded_device env_ok world_three_peers ⟨0, [9, 2, 3, 4, 5, 6]⟩ 0
          = (false, world_three_peers)) ∧
      (¬(is_bonded_device world_three_peers ⟨0, [9, 2, 3, 4, 5, 6]⟩ 0 = true ∨
          world_three_peers.ble_state.bonded_count = 8) →
        (add_bonded_device env_ok world_three_peers ⟨0, [9, 2, 3, 4, 5, 6]⟩ 0).1 = true ∧
        (add_bonded_device env_ok world_three_peers
          ⟨0, [9, 2, 3, 4, 5, 6]⟩ 0).2.ble_state.bonded_count
          = world_three_peers.ble_state.bonded_count + 1 ∧
        (∃ d, (add_bonded_device env_ok world_three_peers
            ⟨0, [9, 2, 3, 4, 5, 6]⟩ 0).2.ble_state.bonded_devices[
              world_three_peers.ble_state.bonded_count]? = some d ∧
            d.addr = ⟨0, [9, 2, 3, 4, 5, 6]⟩ ∧ d.addr_type = 0) ∧
        ∀ i, i < world_three_peers.ble_state.bonded_count →
          (add_bonded_device env_ok world_three_peers
            ⟨0, [9, 2, 3, 4, 5, 6]⟩ 0).2.ble_state.bonded_devices[i]?
            = world_three_peers.ble_state.bonded_devices[i]?)) :=
  ⟨by decide, by decide,
    add_bonded_device_contract env_ok world_three_peers ⟨0, [9, 2, 3, 4, 5, 6]⟩ 0
      (by decide) (by decide)⟩

/-! ## Theorems: the fragment transport -/

theorem chunk_send_ok (env : env_t) (w : world_t) (data : List Nat) (length : Nat)
    (hc : w.ble_state.is_connected = true) (hs : w.wifi_scan_notify_enabled = true)
    (h1 : env.ble_hs_mbuf_from_flat_ok = true) (h2 : env.ble_gatts_notify_custom_rc = 0) :
    ble_manager_send_wifi_scan_result_chunk env w data length
      = (true, w.log (ext_call.ble_gatts_notify_custom w.connection_handle
          w.wifi_scan_chr_handle (data.take length))) := by
  simp [ble_manager_send_wifi_scan_result_chunk, hc, hs, h1, h2]

theorem take_drop_split (s : List Nat) (offset n len : Nat) (h : offset + n ≤ len) :
    (s.drop offset).take n ++ (s.take len).drop (offset + n) = (s.take len).drop offset := by
  have h1 : ((s.take len).drop offset).take n = (s.drop offset).take n := by
    rw [List.drop_take, List.take_take, Nat.min_eq_left (by omega)]
  have h2 : ((s.take len).drop offset).drop n = (s.take len).drop (offset + n) := by
    rw [List.drop_drop, Nat.add_comm]
  rw [← h1, ← h2, List.take_append_drop]

theorem send_loop_complete (envs : Nat → env_t) (chunk_size len : Nat) (s : List Nat)
    (hcs : 0 < chunk_size) (hcs16 : chunk_size < 2 ^ 16)
    (hok : ∀ k, (envs k).ble_hs_mbuf_from_flat_ok = true ∧
      (envs k).ble_gatts_notify_custom_rc = 0) :
    ∀ (fuel offset k : Nat) (w : world_t), offset ≤ len → len - offset ≤ fuel →
      w.ble_state.is_connected = true → w.wifi_scan_notify_enabled = true →
      (send_loop envs chunk_size len s fuel offset k w).1.flatten = (s.take len).drop offset ∧
        (send_loop envs chunk_size len s fuel offset k w).1.length
          = (len - offset + chunk_size - 1) / chunk_size := by
  have hdone : ∀ offset, offset ≤ len → ¬ offset < len →
      ([] : List (List Nat)).flatten = (s.take len).drop offset ∧
        ([] : List (List Nat)).length = (len - offset + chunk_size - 1) / chunk_size := by
    intro offset h1 h2
    have e : len - offset = 0 := by omega
    refine ⟨?_, ?_⟩
    · rw [List.flatten_nil, eq_comm, List.drop_eq_nil_iff]
      simp; omega
    · rw [e, List.length_nil, eq_comm]
      exact Nat.div_eq_of_lt (by omega)
  intro fuel
  induction fuel with
  | zero =>
    intro offset k w h1 h2 _ _
    simp only [send_loop]
    exact hdone offset h1 (by omega)
  | succ fuel ih =>
    intro offset k w h1 h2 hc hs
    by_cases hlt : offset < len
    · obtain ⟨ss, hss, hss1, hss2, hss3⟩ : ∃ ss,
          (if len - offset > chunk_size then chunk_size else len - offset) = ss ∧ 0 < ss ∧
            ss ≤ chunk_size ∧ ss ≤ len - offset := by
        refine ⟨_, rfl, ?_, ?_, ?_⟩ <;> split_ifs <;> omega
      have hmod : ss % 2 ^ 16 = ss := Nat.mod_eq_of_lt (by omega)
      have hchunk := chunk_send_ok (envs k) w (s.drop offset) ss hc hs (hok k).1 (hok k).2
      have hrec := ih (offset + ss) (k + 1)
        ((w.log (ext_call.ble_gatts_notify_custom w.connection_handle
          w.wifi_scan_chr_handle ((s.drop offset).take ss))).log (ext_call.vTaskDelay 20))
        (by omega) (by omega) hc hs
      have hunf : send_loop envs chunk_size len s (fuel + 1) offset k w
          = ((s.drop offset).take ss ::
              (send_loop envs chunk_size len s fuel (offset + ss) (k + 1)
                ((w.log (ext_call.ble_gatts_notify_custom w.connection_handle
                  w.wifi_scan_chr_handle ((s.drop offset).take ss))).log
                    (ext_call.vTaskDelay 20))).1,
              (send_loop envs chunk_size len s fuel (offset + ss) (k + 1)
                ((w.log (ext_call.ble_gatts_notify_custom w.connection_handle
                  w.wifi_scan_chr_handle ((s.drop offset).take ss))).log
                    (ext_call.vTaskDelay 20))).2) := by
        simp only [send_loop, hlt, if_true, hss, hmod, hchunk, Bool.not_true,
          Bool.false_eq_true, if_false]
      rw [hunf]
      refine ⟨?_, ?_⟩
      · rw [List.flatten_cons, hrec.1]
        exact take_drop_split s offset ss len (by omega)
      · rw [List.length_cons, hrec.2]
        by_cases hbig : len - offset > chunk_size
        · have e1 : ss = chunk_size := by rw [← hss, if_pos hbig]
          have e2 : len - offset + chunk_size - 1
              = (len - (offset + ss) + chunk_size - 1) + chunk_size := by omega
          rw [e2, Nat.add_div_right _ hcs]
        · have e1 : ss = len - offset := by rw [← hss, if_neg hbig]
          have e2 : len - (offset + ss) + chunk_size - 1 = chunk_size - 1 := by omega
          rw [e2, Nat.div_eq_of_lt (by omega)]
          exact (Nat.div_eq_of_lt_le (by omega) (by omega)).symm
    · have hunf : send_loop envs chunk_size len s (fuel + 1) offset k w = ([], w) := by
        simp only [send_loop, hlt, if_false]
      rw [hunf]
      exact hdone offset h1 hlt

theorem cstr_of_no_nul (l : List Nat) (h : ∀ b ∈ l, b ≠ 0) : cstr l = l := by
  unfold cstr
  rw [List.takeWhile_eq_self_iff]
  intro b hb
  simpa using h b hb

/-- C4: with the link connected, the scan-result channel subscribed, every
chunk notification succeeding and a transfer unit `U >= 4` (a 16-bit value),
`send_wifi_scan_results` on a payload of length `L` (a C string: no NUL byte
inside) calls `ble_manager_send_wifi_scan_result_chunk` exactly
`ceil (L / (U - 3))` times, and the chunks concatenated in call order are the
payload, byte for byte.  Any fuel of at least `L` iterations is enough for the
loop to run to its end. -/
theorem send_wifi_scan_results_chunking (fuel : Nat) (envs : Nat → env_t) (w : world_t)
    (payload : List Nat)
    (hconn : w.ble_state.is_connected = true)
    (hsub : w.wifi_scan_notify_enabled = true)
    (hsucc : ∀ k, (envs k).ble_hs_mbuf_from_flat_ok = true ∧
      (envs k).ble_gatts_notify_custom_rc = 0)
    (hU : 4 ≤ w.ble_state.mtu_size) (hU16 : w.ble_state.mtu_size < 2 ^ 16)
    (hstr : ∀ b ∈ payload, b ≠ 0)
    (hfuel : payload.length ≤ fuel) :
    (send_wifi_scan_results fuel envs w payload).1.length
        = (payload.length + (w.ble_state.mtu_size - 3) - 1) / (w.ble_state.mtu_size - 3) ∧
      (send_wifi_scan_results fuel envs w payload).1.flatten = payload := by
  have hcs : (w.ble_state.mtu_size + 2 ^ 32 - 3) % 2 ^ 32 = w.ble_state.mtu_size - 3 := by
    omega
  have hlen : strlen payload = payload.length := by
    unfold strlen; rw [cstr_of_no_nul payload hstr]
  have h := send_loop_complete envs (w.ble_state.mtu_size - 3) payload.length payload
    (by omega) (by omega) hsucc fuel 0 0 w (Nat.zero_le _) (by omega) hconn hsub
  simp only [send_wifi_scan_results, ble_manager_is_connected, hconn, if_true,
    ble_manager_get_mtu, hcs, hlen]
  refine ⟨by simpa using h.2, ?_⟩
  rw [h.1]
  simp

theorem send_wifi_scan_results_chunking_witness :
    world_linked.ble_state.is_connected = true ∧
      world_linked.wifi_scan_notify_enabled = true ∧
      (∀ k : Nat, ((fun _ => env_ok) k).ble_hs_mbuf_from_flat_ok = true ∧
        ((fun _ => env_ok) k).ble_gatts_notify_custom_rc = 0) ∧
      4 ≤ world_linked.ble_state.mtu_size ∧ world_linked.ble_state.mtu_size < 2 ^ 16 ∧
      (∀ b ∈ [1, 2, 3, 4, 5, 6, 7, 8, 9, 10], b ≠ 0) ∧
      [1, 2, 3, 4, 5, 6, 7, 8, 9, 10].length ≤ 10 ∧
      (send_wifi_scan_results 10 (fun _ => env_ok) world_linked
          [1, 2, 3, 4, 5, 6, 7, 8, 9, 10]).1.length
        = ([1, 2, 3, 4, 5, 6, 7, 8, 9, 10].length + (world_linked.ble_state.mtu_size - 3) - 1)
          / (world_linked.ble_state.mtu_size - 3) ∧
      (send_wifi_scan_results 10 (fun _ => env_ok) world_linked
          [1, 2, 3, 4, 5, 6, 7, 8, 9, 10]).1.flatten = [1, 2, 3, 4, 5, 6, 7, 8, 9, 10] :=
  ⟨rfl, rfl, fun _ => ⟨rfl, rfl⟩, by decide, by decide, by decide, by decide,
    send_wifi_scan_results_chunking 10 (fun _ => env_ok) world_linked
      [1, 2, 3, 4, 5, 6, 7, 8, 9, 10] rfl rfl (fun _ => ⟨rfl, rfl⟩) (by decide) (by decide)
      (by decide) (by decide)⟩

/-- A concrete run: ten bytes over a transfer unit of 7 go out as chunks of
4, 4 and 2 bytes. -/
theorem send_ten_bytes_run :
    (send_wifi_scan_results 10 (fun _ => env_ok) world_linked
      [1, 2, 3, 4, 5, 6, 7, 8, 9, 10]).1 = [[1, 2, 3, 4], [5, 6, 7, 8], [9, 10]] := by
  decide

/-! ## Theorems: the pairing window -/

theorem status_notification_frame (env : env_t) (w : world_t) (status : List Nat) :
    (ble_manager_send_status_notification env w status).allow_new_bonding_timeout_active
        = w.allow_new_bonding_timeout_active ∧
      (ble_manager_send_status_notification env w status).allow_new_bonding_start_time
        = w.allow_new_bonding_start_time ∧
      (ble_manager_send_status_notification env w status).ble_state = w.ble_state := by
  unfold ble_manager_send_status_notification
  split_ifs <;> exact ⟨rfl, rfl, rfl⟩

theorem start_bonded_advertising_window (env : env_t) (w : world_t) :
    (start_bonded_advertising env w).allow_new_bonding_timeout_active
      = w.allow_new_bonding_timeout_active := by
  unfold start_bonded_advertising
  dsimp only
  split_ifs <;> rfl

theorem update_ble_whitelist_window (w : world_t) :
    (update_ble_whitelist w).allow_new_bonding_timeout_active
      = w.allow_new_bonding_timeout_active := by
  unfold update_ble_whitelist
  dsimp only
  split_ifs <;> rfl

/-- C5: the pairing window is opened at tick `T` by the `PAIR` command and by
the 2 s button hold (both set the timer flag and record `T`); on a window
opened at `T`, the periodic check made `d` ticks later closes the window
(clears `allow_new_bonding_timeout_active`) when the elapsed time
`d * portTICK_PERIOD_MS` is exactly 60000 ms, and leaves the whole state as it
is, the window open, whenever the elapsed time is below 60000 ms. -/
theorem pairing_window_timeout (env_open env : env_t) (w0 w : world_t) (d : Nat)
    (hT : env_open.xTaskGetTickCount < 2 ^ 32) (hd : d < 2 ^ 32)
    (hnow : env.xTaskGetTickCount = (env_open.xTaskGetTickCount + d) % 2 ^ 32)
    (hopen : w.allow_new_bonding_timeout_active = true)
    (hstart : w.allow_new_bonding_start_time = env_open.xTaskGetTickCount) :
    ((gatt_cmd_pair env_open w0).allow_new_bonding_timeout_active = true ∧
        (gatt_cmd_pair env_open w0).allow_new_bonding_start_time
          = env_open.xTaskGetTickCount) ∧
      ((button_task_medium_press env_open w0).allow_new_bonding_timeout_active = true ∧
        (button_task_medium_press env_open w0).allow_new_bonding_start_time
          = env_open.xTaskGetTickCount) ∧
      (d * env.portTICK_PERIOD_MS = 60000 →
        (button_task_timeout_check env w).allow_new_bonding_timeout_active = false) ∧
      (d * env.portTICK_PERIOD_MS < 60000 →
        button_task_timeout_check env w = w ∧
          (button_task_timeout_check env w).allow_new_bonding_timeout_active = true) := by
  have hel : (env.xTaskGetTickCount + 2 ^ 32 - w.allow_new_bonding_start_time) % 2 ^ 32 = d := by
    rw [hnow, hstart]; omega
  refine ⟨?_, ⟨rfl, rfl⟩, ?_, ?_⟩
  · unfold gatt_cmd_pair
    obtain ⟨h1, h2, _⟩ := status_notification_frame env_open
      { startAdvertising env_open
          ({ w0 with ble_state := { w0.ble_state with allow_new_bonding := true } }.log
            ext_call.ble_gap_adv_stop) with
        allow_new_bonding_timeout_active := true,
        allow_new_bonding_start_time := env_open.xTaskGetTickCount } str_PAIRING_MODE
    exact ⟨h1, h2⟩
  · intro h60
    have hge : ((env.xTaskGetTickCount + 2 ^ 32 - w.allow_new_bonding_start_time) % 2 ^ 32 *
        env.portTICK_PERIOD_MS) % 2 ^ 32 ≥ ALLOW_NEW_BONDING_TIMEOUT_MS := by
      rw [hel, h60]; decide
    unfold button_task_timeout_check
    simp only [hopen, if_true, hge]
    split_ifs
    · rw [start_bonded_advertising_window, update_ble_whitelist_window]; rfl
    · rfl
  · intro hlt
    have hnge : ¬ ((env.xTaskGetTickCount + 2 ^ 32 - w.allow_new_bonding_start_time) % 2 ^ 32 *
        env.portTICK_PERIOD_MS) % 2 ^ 32 ≥ ALLOW_NEW_BONDING_TIMEOUT_MS := by
      rw [hel, Nat.mod_eq_of_lt (by omega)]
      simp only [ALLOW_NEW_BONDING_TIMEOUT_MS]; omega
    have e : button_task_timeout_check env w = w := by
      unfold button_task_timeout_check
      simp only [hopen, if_true, hnge, if_false]
    exact ⟨e, by rw [e]; exact hopen⟩

theorem pairing_window_timeout_witness :
    ({ env_ok with xTaskGetTickCount := 4294967000 } : env_t).xTaskGetTickCount < 2 ^ 32 ∧
      6000 < 2 ^ 32 ∧
      ({ env_ok with xTaskGetTickCount := 5704 } : env_t).xTaskGetTickCount
        = (({ env_ok with xTaskGetTickCount := 4294967000 } : env_t).xTaskGetTickCount + 6000)
            % 2 ^ 32 ∧
      (gatt_cmd_pair { env_ok with xTaskGetTickCount := 4294967000 }
        world_linked).allow_new_bonding_timeout_active = true ∧
      (gatt_cmd_pair { env_ok with xTaskGetTickCount := 4294967000 }
        world_linked).allow_new_bonding_start_time
          = ({ env_ok with xTaskGetTickCount := 4294967000 } : env_t).xTaskGetTickCount ∧
      (button_task_timeout_check { env_ok with xTaskGetTickCount := 5704 }
        (gatt_cmd_pair { env_ok with xTaskGetTickCount := 4294967000 }
          world_linked)).allow_new_bonding_timeout_active = false :=
  ⟨by decide, by decide, by decide, by decide, by decide,
    (pairing_window_timeout { env_ok with xTaskGetTickCount := 4294967000 }
      { env_ok with xTaskGetTickCount := 5704 } world_linked
      (gatt_cmd_pair { env_ok with xTaskGetTickCount := 4294967000 } world_linked) 6000
      (by decide) (by decide) (by decide) (by decide) (by decide)).2.2.1 (by decide)⟩

/-- A concrete run with a 10 ms tick: 5990 ticks (59.9 s) after the opening
the window is still open, 6000 ticks (60 s) after it the window is closed. -/
theorem pairing_window_run :
    (button_task_timeout_check { env_ok with xTaskGetTickCount := 5990 }
        (gatt_cmd_pair env_ok world_linked)).allow_new_bonding_timeout_active = true ∧
      (button_task_timeout_check { env_ok with xTaskGetTickCount := 6000 }
        (gatt_cmd_pair env_ok world_linked)).allow_new_bonding_timeout_active = false := by
  decide

/-! ## Theorems: the connect handler -/

/-- C6: for every state and every peer whose (address, type) is not in the
store, handling a successful connect event while `allow_new_bonding` is false
requests termination of that link within the same handler invocation (the
calls made are `ble_gap_adv_stop` and `ble_gap_terminate` on the event's
handle), initiates no pairing, and leaves `bonded_count` and every bonded
record unchanged. -/
theorem unknown_peer_is_terminated (env : env_t) (w : world_t) (conn_handle : Nat)
    (desc : ble_gap_conn_desc)
    (hfind : env.ble_gap_conn_find = some desc)
    (hunknown : is_bonded_device w desc.peer_id_addr desc.peer_id_addr.type = false)
    (hclosed : w.ble_state.allow_new_bonding = false) :
    ∃ w', bleprph_gap_event env w (ble_gap_event.connect 0 conn_handle) = some (0, w') ∧
      w'.calls = w.calls ++ [ext_call.ble_gap_adv_stop,
        ext_call.ble_gap_terminate conn_handle BLE_ERR_REM_USER_CONN_TERM] ∧
      (∀ h, ext_call.ble_gap_security_initiate h ∉ w'.calls.drop w.calls.length) ∧
      w'.ble_state.bonded_count = w.ble_state.bonded_count ∧
      w'.ble_state.bonded_devices = w.ble_state.bonded_devices := by
  have key : gap_event_connect env w 0 conn_handle
      = (0, ({ w with
          connection_handle := conn_handle,
          ble_state := { w.ble_state with
            is_connected := true, active_scan_mode := false, reconnect_mode := false },
          calls := w.calls ++ [ext_call.ble_gap_adv_stop,
            ext_call.ble_gap_terminate conn_handle BLE_ERR_REM_USER_CONN_TERM] } : world_t)) := by
    unfold is_bonded_device at hunknown
    simp [gap_event_connect, hfind, is_bonded_device, world_t.log, hunknown, hclosed]
  refine ⟨(gap_event_connect env w 0 conn_handle).2, ?_, ?_, ?_, ?_, ?_⟩
  · simp only [bleprph_gap_event, key]
  · rw [key]
  · intro h
    rw [key]
    simp
  · rw [key]
  · rw [key]

theorem unknown_peer_is_terminated_witness :
    env_stranger.ble_gap_conn_find
        = some { peer_id_addr := ⟨0, [9, 9, 9, 9, 9, 9]⟩, sec_state_bonded := false } ∧
      is_bonded_device world_closed ⟨0, [9, 9, 9, 9, 9, 9]⟩ 0 = false ∧
      world_closed.ble_state.allow_new_bonding = false ∧
      ∃ w', bleprph_gap_event env_stranger world_closed (ble_gap_event.connect 0 7)
          = some (0, w') ∧
        w'.calls = world_closed.calls ++ [ext_call.ble_gap_adv_stop,
          ext_call.ble_gap_terminate 7 BLE_ERR_REM_USER_CONN_TERM] ∧
        (∀ h, ext_call.ble_gap_security_initiate h ∉ w'.calls.drop world_closed.calls.length) ∧
        w'.ble_state.bonded_count = world_closed.ble_state.bonded_count ∧
        w'.ble_state.bonded_devices = world_closed.ble_state.bonded_devices :=
  ⟨rfl, by decide, rfl,
    unknown_peer_is_terminated env_stranger world_closed 7
      { peer_id_addr := ⟨0, [9, 9, 9, 9, 9, 9]⟩, sec_state_bonded := false } rfl (by decide) rfl⟩

/-! ## Theorems: the credential channel -/

theorem takeWhile_append_stop (p : Nat → Bool) (l r : List Nat) (x : Nat) (hx : p x = false) :
    (l ++ x :: r).takeWhile p = l.takeWhile p := by
  induction l with
  | nil => simp [List.takeWhile_cons, hx]
  | cons a l ih =>
    simp only [List.cons_append, List.takeWhile_cons]
    split_ifs
    · rw [ih]
    · rfl

theorem cred_buffer_shape (w : world_t) (payload : List Nat)
    (hbuf : w.wifi_cred_buf.length = WIFI_CRED_MAX_LEN)
    (hlen : payload.length ≤ WIFI_CRED_MAX_LEN - 1) :
    (cred_buffered w payload).wifi_cred_buf
      = payload ++ 0 :: w.wifi_cred_buf.drop (payload.length + 1) := by
  have hlt : payload.length < w.wifi_cred_buf.length := by
    rw [hbuf]; simp only [WIFI_CRED_MAX_LEN] at hlen ⊢; omega
  simp only [cred_buffered]
  rw [List.set_append_right _ _ (le_refl _), Nat.sub_self, List.drop_eq_getElem_cons hlt]
  rfl

theorem cred_buffer_cstr (w : world_t) (payload : List Nat)
    (hbuf : w.wifi_cred_buf.length = WIFI_CRED_MAX_LEN)
    (hlen : payload.length ≤ WIFI_CRED_MAX_LEN - 1) :
    cstr (cred_buffered w payload).wifi_cred_buf = cstr payload ∧
      (cred_buffered w payload).wifi_cred_buf.take (cred_buffered w payload).wifi_cred_len
        = payload := by
  rw [cred_buffer_shape w payload hbuf hlen]
  refine ⟨takeWhile_append_stop _ _ _ _ (by decide), ?_⟩
  exact List.take_left' rfl

theorem cstr_full (payload target : List Nat) (hl : payload.length = target.length)
    (h : cstr payload = target) : payload = target := by
  have hp : cstr payload <+: payload := List.takeWhile_prefix _
  have := hp.eq_of_length (by rw [h, hl])
  rw [← this, h]

/-- A write of at most 127 bytes to the credential characteristic is copied
into the buffer and dispatched. -/
theorem gatt_cred_write_eq (env : env_t) (w : world_t) (payload : List Nat)
    (hlen : payload.length ≤ WIFI_CRED_MAX_LEN - 1) :
    gatt_svc_access env w (cred_write payload) = gatt_cred_dispatch env (cred_buffered w payload) := by
  have h1 : ¬ payload.length > WIFI_CRED_MAX_LEN - 1 := by omega
  simp only [gatt_svc_access, cred_write, write_flat_buffer, h1, if_false, if_true]
  simp [WIFI_CRED_CHR_UUID, BLE_GATT_DSC_CLT_CFG_UUID16, WIFI_SCAN_CHR_UUID, cred_buffered]

theorem status_notification_eq (env : env_t) (w : world_t) (status : List Nat) :
    ble_manager_send_status_notification env w status
      = { w with calls := w.calls ++ status_notification_calls env w status } := by
  cases w
  simp only [ble_manager_send_status_notification, status_notification_calls, world_t.log]
  split_ifs <;> simp_all

theorem update_wifi_status_notify_eq (env : env_t) (w : world_t) (status : wifi_status_t) :
    update_wifi_status_notify env w status
      = { w with
          current_wifi_status := status,
          calls := w.calls ++ ext_call.update_wifi_status_notify status ::
            status_notification_calls env w (wifi_status_str status) } := by
  unfold update_wifi_status_notify
  rw [status_notification_eq]
  simp [world_t.log, status_notification_calls]

theorem startAdvertising_eq (env : env_t) (w : world_t) :
    startAdvertising env w = { w with calls := w.calls ++ startAdvertising_calls env } := by
  unfold startAdvertising startAdvertising_calls
  by_cases h1 : env.ble_gap_adv_set_fields_rc = 0 <;>
    by_cases h2 : env.ble_gap_adv_rsp_set_fields_rc = 0 <;> simp [world_t.log, h1, h2]

theorem gatt_cmd_pair_eq (env : env_t) (w : world_t) :
    gatt_cmd_pair env w
      = { w with
          ble_state := { w.ble_state with allow_new_bonding := true },
          allow_new_bonding_timeout_active := true,
          allow_new_bonding_start_time := env.xTaskGetTickCount,
          calls := w.calls ++ ext_call.ble_gap_adv_stop ::
            (startAdvertising_calls env ++ status_notification_calls env w str_PAIRING_MODE) } := by
  unfold gatt_cmd_pair
  simp only [status_notification_eq, startAdvertising_eq]
  simp [world_t.log, status_notification_calls]

theorem wifi_manager_start_scan_calls (env : env_t) (w : world_t) :
    (wifi_manager_start_scan env w).calls
      = w.calls ++ ext_call.wifi_manager_start_scan ::
        (if w.wifi_scan_running then []
          else if !w.wifi_station_started then
            ext_call.update_wifi_status_notify wifi_status_t.WIFI_STATUS_FAIL ::
              status_notification_calls env w (wifi_status_str wifi_status_t.WIFI_STATUS_FAIL)
          else [ext_call.xTaskCreate_wifi_scan_task]) := by
  cases w
  simp only [wifi_manager_start_scan, update_wifi_status_notify_eq, world_t.log]
  split_ifs <;> simp_all [status_notification_calls]

theorem no_connect_in_advertising (env : env_t) (c : List Nat) :
    ext_call.wifi_manager_connect c ∉ startAdvertising_calls env := by
  unfold startAdvertising_calls
  split_ifs <;> simp

theorem no_connect_in_notification (env : env_t) (w : world_t) (status c : List Nat) :
    ext_call.wifi_manager_connect c ∉ status_notification_calls env w status := by
  unfold status_notification_calls
  split_ifs <;> simp

theorem world_linked_buf : world_linked.wifi_cred_buf.length = WIFI_CRED_MAX_LEN := by
  simp [world_linked, world_init]

/-- The command dispatch, read off the payload that was written. -/
theorem gatt_cred_dispatch_cases (env : env_t) (w : world_t) (payload : List Nat)
    (hbuf : w.wifi_cred_buf.length = WIFI_CRED_MAX_LEN)
    (hlen : payload.length ≤ WIFI_CRED_MAX_LEN - 1) :
    gatt_svc_access env w (cred_write payload)
      = if payload = str_SCAN then
          some (0, wifi_manager_start_scan env (cred_buffered w payload))
        else if payload = str_PAIR then some (0, gatt_cmd_pair env (cred_buffered w payload))
        else if chr_slash ∈ payload then
          (wifi_manager_connect env (cred_buffered w payload)
            (cred_buffered w payload).wifi_cred_buf).map (fun w1 => (0, w1))
        else
          some (0, update_wifi_status_notify env (cred_buffered w payload)
            wifi_status_t.WIFI_STATUS_FAIL) := by
  obtain ⟨hc, ht⟩ := cred_buffer_cstr w payload hbuf hlen
  have hl : (cred_buffered w payload).wifi_cred_len = payload.length := rfl
  have i1 : ((cred_buffered w payload).wifi_cred_len = 4 ∧
      cstr (cred_buffered w payload).wifi_cred_buf = str_SCAN) ↔ payload = str_SCAN := by
    rw [hc, hl]
    constructor
    · rintro ⟨h4, h⟩
      exact cstr_full payload str_SCAN h4 h
    · rintro rfl
      exact ⟨rfl, by decide⟩
  have i2 : ((cred_buffered w payload).wifi_cred_len = 4 ∧
      cstr (cred_buffered w payload).wifi_cred_buf = str_PAIR) ↔ payload = str_PAIR := by
    rw [hc, hl]
    constructor
    · rintro ⟨h4, h⟩
      exact cstr_full payload str_PAIR h4 h
    · rintro rfl
      exact ⟨rfl, by decide⟩
  have i3 : ((cred_buffered w payload).wifi_cred_len > 0 ∧
      chr_slash ∈ (cred_buffered w payload).wifi_cred_buf.take
        (cred_buffered w payload).wifi_cred_len) ↔ chr_slash ∈ payload := by
    rw [ht, hl]
    constructor
    · exact fun h => h.2
    · intro h
      exact ⟨List.length_pos_of_mem h, h⟩
  rw [gatt_cred_write_eq env w payload hlen]
  unfold gatt_cred_dispatch
  simp only [i1, i2, i3]

/-- C7, as amended: a credential-channel write whose payload is exactly the
4 bytes `PAIR` opens the pairing window (`allow_new_bonding` becomes true, the
window timer is active with start time = now), restarts advertising in
unrestricted mode (stop, then `startAdvertising`, which never asks for the
allow-list filter and reaches `ble_gap_adv_start` with filter policy 0 when
the transport accepts the advertising fields), and emits the status
notification `PAIRING_MODE` when the status channel is subscribed and the
link is flagged connected (and the transport hands out a buffer); with the
link not flagged connected nothing is emitted. -/
theorem pair_command_opens_window (env : env_t) (w : world_t)
    (hbuf : w.wifi_cred_buf.length = WIFI_CRED_MAX_LEN) :
    ∃ w', gatt_svc_access env w (cred_write str_PAIR) = some (0, w') ∧
      w'.ble_state.allow_new_bonding = true ∧
      w'.allow_new_bonding_timeout_active = true ∧
      w'.allow_new_bonding_start_time = env.xTaskGetTickCount ∧
      w'.calls = w.calls ++ ext_call.ble_gap_adv_stop ::
        (startAdvertising_calls env ++ status_notification_calls env w str_PAIRING_MODE) ∧
      (∀ p, ext_call.ble_gap_adv_start p ∈ startAdvertising_calls env → p = 0) ∧
      (env.ble_gap_adv_set_fields_rc = 0 → env.ble_gap_adv_rsp_set_fields_rc = 0 →
        ext_call.ble_gap_adv_start 0 ∈ startAdvertising_calls env) ∧
      (w.status_notify_enabled = true → w.ble_state.is_connected = true →
        env.ble_hs_mbuf_from_flat_ok = true →
        status_notification_calls env w str_PAIRING_MODE
          = [ext_call.ble_gatts_notify_custom w.connection_handle w.status_chr_handle
              str_PAIRING_MODE]) ∧
      (w.ble_state.is_connected = false →
        status_notification_calls env w str_PAIRING_MODE = []) := by
  have hd := gatt_cred_dispatch_cases env w str_PAIR hbuf (by decide)
  rw [if_neg (by decide), if_pos rfl, gatt_cmd_pair_eq] at hd
  refine ⟨_, hd, rfl, rfl, rfl, rfl, ?_, ?_, ?_, ?_⟩
  · intro p hp
    unfold startAdvertising_calls at hp
    split_ifs at hp <;> simp at hp
    exact hp
  · intro h1 h2
    simp [startAdvertising_calls, h1, h2]
  · intro h1 h2 h3
    simp only [status_notification_calls, h1, h2, h3, Bool.and_self, if_true]
    rfl
  · intro h2
    simp [status_notification_calls, h2]

theorem pair_command_opens_window_witness :
    world_linked.wifi_cred_buf.length = WIFI_CRED_MAX_LEN ∧
      ∃ w', gatt_svc_access env_ok world_linked (cred_write str_PAIR) = some (0, w') ∧
        w'.ble_state.allow_new_bonding = true ∧
        w'.allow_new_bonding_timeout_active = true ∧
        w'.allow_new_bonding_start_time = env_ok.xTaskGetTickCount ∧
        w'.calls = world_linked.calls ++ ext_call.ble_gap_adv_stop ::
          (startAdvertising_calls env_ok ++
            status_notification_calls env_ok world_linked str_PAIRING_MODE) ∧
        (∀ p, ext_call.ble_gap_adv_start p ∈ startAdvertising_calls env_ok → p = 0) ∧
        (env_ok.ble_gap_adv_set_fields_rc = 0 → env_ok.ble_gap_adv_rsp_set_fields_rc = 0 →
          ext_call.ble_gap_adv_start 0 ∈ startAdvertising_calls env_ok) ∧
        (world_linked.status_notify_enabled = true → world_linked.ble_state.is_connected = true →
          env_ok.ble_hs_mbuf_from_flat_ok = true →
          status_notification_calls env_ok world_linked str_PAIRING_MODE
            = [ext_call.ble_gatts_notify_custom world_linked.connection_handle
                world_linked.status_chr_handle str_PAIRING_MODE]) ∧
        (world_linked.ble_state.is_connected = false →
          status_notification_calls env_ok world_linked str_PAIRING_MODE = []) :=
  ⟨world_linked_buf, pair_command_opens_window env_ok world_linked world_linked_buf⟩

/-- C7, the claim as stated fails: in a world whose status channel is
subscribed but whose link is not flagged connected, the `PAIR` write is
accepted and advertising is restarted, yet no notification is handed to the
transport. -/
theorem pair_command_silent_when_flag_down :
    world_flag_down.status_notify_enabled = true ∧
      (gatt_svc_access env_ok world_flag_down (cred_write str_PAIR)).map
          (fun r => (r.1, r.2.calls))
        = some (0, [ext_call.ble_gap_adv_stop, ext_call.ble_gap_adv_set_fields,
            ext_call.ble_gap_adv_rsp_set_fields, ext_call.ble_gap_adv_start 0]) := by
  decide

/-- A concrete run of the `PAIR` command on a connected, subscribed link. -/
theorem pair_command_run :
    (gatt_svc_access env_ok world_linked (cred_write str_PAIR)).map
          (fun r => (r.1, r.2.calls))
        = some (0, [ext_call.ble_gap_adv_stop, ext_call.ble_gap_adv_set_fields,
            ext_call.ble_gap_adv_rsp_set_fields, ext_call.ble_gap_adv_start 0,
            ext_call.ble_gatts_notify_custom 1 15 str_PAIRING_MODE]) := by
  decide

/-- C8: for every accepted credential-channel write (length at most 127):
a payload that is exactly `SCAN` triggers a Wi-Fi scan (`wifi_manager_start_scan`
is entered; the scan task is created when no scan is running and the station
is started) and attempts no connect; a payload that is neither `SCAN` nor
`PAIR` and holds no `/` byte gets the status `WIFI_FAIL` (the status is set,
`update_wifi_status_notify` is entered, the notification goes out on a
subscribed, connected link) and `wifi_manager_connect` is not called; and for
no payload without a `/` byte is `wifi_manager_connect` called. -/
theorem credential_commands (env : env_t) (w : world_t) (payload : List Nat)
    (hbuf : w.wifi_cred_buf.length = WIFI_CRED_MAX_LEN)
    (hlen : payload.length ≤ 127) :
    (payload = str_SCAN →
        ∃ w' new, gatt_svc_access env w (cred_write payload) = some (0, w') ∧
          w'.calls = w.calls ++ new ∧
          ext_call.wifi_manager_start_scan ∈ new ∧
          (w.wifi_scan_running = false → w.wifi_station_started = true →
            ext_call.xTaskCreate_wifi_scan_task ∈ new) ∧
          ∀ c, ext_call.wifi_manager_connect c ∉ new) ∧
      (payload ≠ str_SCAN → payload ≠ str_PAIR → chr_slash ∉ payload →
        ∃ w' new, gatt_svc_access env w (cred_write payload) = some (0, w') ∧
          w'.calls = w.calls ++ new ∧
          w'.current_wifi_status = wifi_status_t.WIFI_STATUS_FAIL ∧
          ext_call.update_wifi_status_notify wifi_status_t.WIFI_STATUS_FAIL ∈ new ∧
          (w.status_notify_enabled = true → w.ble_state.is_connected = true →
            env.ble_hs_mbuf_from_flat_ok = true →
            ext_call.ble_gatts_notify_custom w.connection_handle w.status_chr_handle
              (wifi_status_str wifi_status_t.WIFI_STATUS_FAIL) ∈ new) ∧
          ∀ c, ext_call.wifi_manager_connect c ∉ new) ∧
      (chr_slash ∉ payload →
        ∃ w' new, gatt_svc_access env w (cred_write payload) = some (0, w') ∧
          w'.calls = w.calls ++ new ∧ ∀ c, ext_call.wifi_manager_connect c ∉ new) := by
  have hd := gatt_cred_dispatch_cases env w payload hbuf (by simpa [WIFI_CRED_MAX_LEN] using hlen)
  have hscan : payload = str_SCAN →
      ∃ w' new, gatt_svc_access env w (cred_write payload) = some (0, w') ∧
        w'.calls = w.calls ++ new ∧
        ext_call.wifi_manager_start_scan ∈ new ∧
        (w.wifi_scan_running = false → w.wifi_station_started = true →
          ext_call.xTaskCreate_wifi_scan_task ∈ new) ∧
        ∀ c, ext_call.wifi_manager_connect c ∉ new := by
    intro hp
    rw [if_pos hp] at hd
    refine ⟨_, _, hd, wifi_manager_start_scan_calls env (cred_buffered w payload), ?_, ?_, ?_⟩
    · simp
    · intro h1 h2
      have h1' : (cred_buffered w payload).wifi_scan_running = false := h1
      have h2' : (cred_buffered w payload).wifi_station_started = true := h2
      simp [h1', h2']
    · intro c
      have hn := no_connect_in_notification env (cred_buffered w payload)
        (wifi_status_str wifi_status_t.WIFI_STATUS_FAIL) c
      split_ifs <;> simp [hn]
  have hfail : payload ≠ str_SCAN → payload ≠ str_PAIR → chr_slash ∉ payload →
      ∃ w' new, gatt_svc_access env w (cred_write payload) = some (0, w') ∧
        w'.calls = w.calls ++ new ∧
        w'.current_wifi_status = wifi_status_t.WIFI_STATUS_FAIL ∧
        ext_call.update_wifi_status_notify wifi_status_t.WIFI_STATUS_FAIL ∈ new ∧
        (w.status_notify_enabled = true → w.ble_state.is_connected = true →
          env.ble_hs_mbuf_from_flat_ok = true →
          ext_call.ble_gatts_notify_custom w.connection_handle w.status_chr_handle
            (wifi_status_str wifi_status_t.WIFI_STATUS_FAIL) ∈ new) ∧
        ∀ c, ext_call.wifi_manager_connect c ∉ new := by
    intro h1 h2 h3
    rw [if_neg h1, if_neg h2, if_neg h3, update_wifi_status_notify_eq] at hd
    refine ⟨_, _, hd, rfl, rfl, ?_, ?_, ?_⟩
    · simp
    · intro e1 e2 e3
      have e1' : (cred_buffered w payload).status_notify_enabled = true := e1
      have e2' : (cred_buffered w payload).ble_state.is_connected = true := e2
      have hs : (wifi_status_str wifi_status_t.WIFI_STATUS_FAIL).take
          (strlen (wifi_status_str wifi_status_t.WIFI_STATUS_FAIL))
          = wifi_status_str wifi_status_t.WIFI_STATUS_FAIL := by decide
      simp only [status_notification_calls, e1', e2', e3, Bool.and_self, if_true, hs]
      have hh : (cred_buffered w payload).connection_handle = w.connection_handle := rfl
      have hs2 : (cred_buffered w payload).status_chr_handle = w.status_chr_handle := rfl
      simp [hh, hs2]
    · intro c
      have hn := no_connect_in_notification env (cred_buffered w payload)
        (wifi_status_str wifi_status_t.WIFI_STATUS_FAIL) c
      simp [hn]
  refine ⟨hscan, hfail, ?_⟩
  intro h3
  by_cases h1 : payload = str_SCAN
  · obtain ⟨w', new, e, ec, _, _, hn⟩ := hscan h1
    exact ⟨w', new, e, ec, hn⟩
  · by_cases h2 : payload = str_PAIR
    · rw [if_neg h1, if_pos h2, gatt_cmd_pair_eq] at hd
      refine ⟨_, _, hd, rfl, ?_⟩
      intro c
      have hn1 := no_connect_in_advertising env c
      have hn2 := no_connect_in_notification env (cred_buffered w payload) str_PAIRING_MODE c
      simp [hn1, hn2]
    · obtain ⟨w', new, e, ec, _, _, _, hn⟩ := hfail h1 h2 h3
      exact ⟨w', new, e, ec, hn⟩

theorem credential_commands_witness :
    world_linked.wifi_cred_buf.length = WIFI_CRED_MAX_LEN ∧ str_garbage.length ≤ 127 ∧
      str_garbage ≠ str_SCAN ∧ str_garbage ≠ str_PAIR ∧ chr_slash ∉ str_garbage ∧
      ∃ w' new, gatt_svc_access env_ok world_linked (cred_write str_garbage) = some (0, w') ∧
        w'.calls = world_linked.calls ++ new ∧
        w'.current_wifi_status = wifi_status_t.WIFI_STATUS_FAIL ∧
        ext_call.update_wifi_status_notify wifi_status_t.WIFI_STATUS_FAIL ∈ new ∧
        (world_linked.status_notify_enabled = true → world_linked.ble_state.is_connected = true →
          env_ok.ble_hs_mbuf_from_flat_ok = true →
          ext_call.ble_gatts_notify_custom world_linked.connection_handle
            world_linked.status_chr_handle
            (wifi_status_str wifi_status_t.WIFI_STATUS_FAIL) ∈ new) ∧
        ∀ c, ext_call.wifi_manager_connect c ∉ new :=
  ⟨world_linked_buf, by decide, by decide, by decide, by decide,
    (credential_commands env_ok world_linked str_garbage world_linked_buf (by decide)).2.1
      (by decide) (by decide) (by decide)⟩

/-- Concrete runs of the three commands of C8: `SCAN` creates the scan task,
`garbage` and the empty payload are answered with `WIFI_FAIL`. -/
theorem credential_commands_run :
    (gatt_svc_access env_ok world_linked (cred_write str_SCAN)).map
          (fun r => (r.1, r.2.calls))
        = some (0, [ext_call.wifi_manager_start_scan, ext_call.xTaskCreate_wifi_scan_task]) ∧
      (gatt_svc_access env_ok world_linked (cred_write str_garbage)).map
          (fun r => (r.1, r.2.calls))
        = some (0, [ext_call.update_wifi_status_notify wifi_status_t.WIFI_STATUS_FAIL,
            ext_call.ble_gatts_notify_custom 1 15
              (wifi_status_str wifi_status_t.WIFI_STATUS_FAIL)]) ∧
      (gatt_svc_access env_ok world_linked (cred_write [])).map
          (fun r => (r.1, r.2.calls))
        = some (0, [ext_call.update_wifi_status_notify wifi_status_t.WIFI_STATUS_FAIL,
            ext_call.ble_gatts_notify_custom 1 15
              (wifi_status_str wifi_status_t.WIFI_STATUS_FAIL)]) := by
  decide

/-- C9, the code at the failing input: a credential-channel write of
`myssid/mypassword` passes the `/` gate and reaches `wifi_manager_connect`,
which hands the text to the JSON parser; the text is not JSON, so with a
parser that rejects it the write ends in `WIFI_FAIL` and neither `saved_ssid`
nor `saved_password` is written, whatever they held before. -/
theorem ssid_slash_password_is_rejected (env : env_t) (w : world_t)
    (hbuf : w.wifi_cred_buf.length = WIFI_CRED_MAX_LEN)
    (hparse : env.cJSON_Parse str_myssid_mypassword = none) :
    ∃ w' new, gatt_svc_access env w (cred_write str_myssid_mypassword) = some (0, w') ∧
      w'.calls = w.calls ++ new ∧
      ext_call.wifi_manager_connect str_myssid_mypassword ∈ new ∧
      ext_call.update_wifi_status_notify wifi_status_t.WIFI_STATUS_FAIL ∈ new ∧
      ext_call.esp_wifi_connect ∉ new ∧
      w'.current_wifi_status = wifi_status_t.WIFI_STATUS_FAIL ∧
      w'.saved_ssid = w.saved_ssid ∧ w'.saved_password = w.saved_password := by
  have hd := gatt_cred_dispatch_cases env w str_myssid_mypassword hbuf (by decide)
  rw [if_neg (by decide), if_neg (by decide), if_pos (by decide)] at hd
  have hc : cstr (cred_buffered w str_myssid_mypassword).wifi_cred_buf
      = str_myssid_mypassword := by
    rw [(cred_buffer_cstr w str_myssid_mypassword hbuf (by decide)).1]
    decide
  have hconn : wifi_manager_connect env (cred_buffered w str_myssid_mypassword)
      (cred_buffered w str_myssid_mypassword).wifi_cred_buf
      = some (update_wifi_status_notify env
          ((cred_buffered w str_myssid_mypassword).log
            (ext_call.wifi_manager_connect str_myssid_mypassword))
          wifi_status_t.WIFI_STATUS_FAIL) := by
    unfold wifi_manager_connect
    simp only [hc, hparse]
    split_ifs <;> rfl
  rw [hconn, update_wifi_status_notify_eq] at hd
  have hn : ext_call.esp_wifi_connect ∉ status_notification_calls env
      ((cred_buffered w str_myssid_mypassword).log
        (ext_call.wifi_manager_connect str_myssid_mypassword))
      (wifi_status_str wifi_status_t.WIFI_STATUS_FAIL) := by
    unfold status_notification_calls
    split_ifs <;> simp
  refine ⟨_, ext_call.wifi_manager_connect str_myssid_mypassword ::
    ext_call.update_wifi_status_notify wifi_status_t.WIFI_STATUS_FAIL ::
      status_notification_calls env
        ((cred_buffered w str_myssid_mypassword).log
          (ext_call.wifi_manager_connect str_myssid_mypassword))
        (wifi_status_str wifi_status_t.WIFI_STATUS_FAIL), hd, ?_, ?_, ?_, ?_, rfl, rfl, rfl⟩
  · simp [world_t.log, cred_buffered]
  · simp
  · simp
  · simp [hn]

theorem ssid_slash_password_is_rejected_witness :
    world_linked.wifi_cred_buf.length = WIFI_CRED_MAX_LEN ∧
      env_ok.cJSON_Parse str_myssid_mypassword = none ∧
      ∃ w' new, gatt_svc_access env_ok world_linked (cred_write str_myssid_mypassword)
          = some (0, w') ∧
        w'.calls = world_linked.calls ++ new ∧
        ext_call.wifi_manager_connect str_myssid_mypassword ∈ new ∧
        ext_call.update_wifi_status_notify wifi_status_t.WIFI_STATUS_FAIL ∈ new ∧
        ext_call.esp_wifi_connect ∉ new ∧
        w'.current_wifi_status = wifi_status_t.WIFI_STATUS_FAIL ∧
        w'.saved_ssid = world_linked.saved_ssid ∧
        w'.saved_password = world_linked.saved_password :=
  ⟨world_linked_buf, rfl,
    ssid_slash_password_is_rejected env_ok world_linked world_linked_buf rfl⟩

/-! ## Theorems: the frame of a touch -/

theorem touch_slots_split (sec : Nat) (addr : ble_addr_t) (addr_type : Nat) (n : Nat)
    (l : List bonded_device_t) (d : bonded_device_t)
    (h : (l.take n).find? (fun d => same_peer d addr addr_type) = some d) :
    ∃ pre post, l.take n = pre ++ d :: post ∧
      (∀ x ∈ pre, same_peer x addr addr_type = false) ∧
      (touch_slots sec addr addr_type n l).2.take n = pre ++ touch_record sec d :: post := by
  induction n generalizing l with
  | zero => simp at h
  | succ n ih =>
    cases l with
    | nil => simp at h
    | cons x xs =>
      simp only [List.take_succ_cons, List.find?_cons] at h
      by_cases hx : same_peer x addr addr_type = true
      · simp only [hx] at h
        have e : x = d := by simpa using h
        subst e
        refine ⟨[], xs.take n, by simp, by simp, ?_⟩
        simp [touch_slots, hx]
      · have hx2 : same_peer x addr addr_type = false := by simpa using hx
        simp only [hx2] at h
        obtain ⟨pre, post, e1, e2, e3⟩ := ih xs h
        refine ⟨x :: pre, post, by simp [e1], ?_, ?_⟩
        · intro y hy
          rcases List.mem_cons.1 hy with rfl | hy
          · exact hx2
          · exact e2 y hy
        · simp [touch_slots, hx2, e3]

theorem bonded_find (w : world_t) (addr : ble_addr_t) (addr_type : Nat)
    (h : is_bonded_device w addr addr_type = true) :
    ∃ d, (w.ble_state.bonded_devices.take w.ble_state.bonded_count).find?
        (fun d => same_peer d addr addr_type) = some d ∧ same_peer d addr addr_type = true := by
  unfold is_bonded_device at h
  obtain ⟨x, hx, hm⟩ := List.any_eq_true.1 h
  cases hf : (w.ble_state.bonded_devices.take w.ble_state.bonded_count).find?
      (fun d => same_peer d addr addr_type) with
  | none =>
    have := List.find?_eq_none.1 hf x hx
    simp [hm] at this
  | some d =>
    exact ⟨d, rfl, by simpa using List.find?_some hf⟩

/-- C11: on a store whose count lies within its eight slots,
`update_device_connection_info(a, t)` on a present peer rewrites one record,
the first one that matches: its `last_connected_timestamp` becomes the current
time in seconds (as a 32-bit value) and its `is_active` flag true, its address,
type and name stay; every other record in use keeps all its fields and may
only move through the re-sort (the records in use afterwards are a
permutation of the old ones with the one record replaced), the slots behind
them and the count are untouched.  When `(a, t)` is not in the store the whole
state is left as it is: nothing is written, persisted or re-sorted. -/
theorem touch_frame (env : env_t) (w : world_t) (addr : ble_addr_t) (addr_type : Nat)
    (hlen : w.ble_state.bonded_devices.length = MAX_BONDED_DEVICES)
    (hcnt : w.ble_state.bonded_count ≤ MAX_BONDED_DEVICES) :
    (is_bonded_device w addr addr_type = true →
        ∃ pre d post d',
          w.ble_state.bonded_devices.take w.ble_state.bonded_count = pre ++ d :: post ∧
          same_peer d addr addr_type = true ∧
          (∀ x ∈ pre, same_peer x addr addr_type = false) ∧
          d'.last_connected_timestamp = (env.esp_timer_get_time / 1000000) % 2 ^ 32 ∧
          d'.is_active = true ∧
          d'.addr = d.addr ∧ d'.addr_type = d.addr_type ∧ d'.device_name = d.device_name ∧
          List.Perm
            ((update_device_connection_info env w addr addr_type).ble_state.bonded_devices.take
              w.ble_state.bonded_count)
            (pre ++ d' :: post) ∧
          (update_device_connection_info env w addr addr_type).ble_state.bonded_devices.drop
              w.ble_state.bonded_count
            = w.ble_state.bonded_devices.drop w.ble_state.bonded_count ∧
          (update_device_connection_info env w addr addr_type).ble_state.bonded_count
            = w.ble_state.bonded_count) ∧
      (is_bonded_device w addr addr_type = false →
        update_device_connection_info env w addr addr_type = w) := by
  have hc : w.ble_state.bonded_count ≤ w.ble_state.bonded_devices.length := by
    rw [hlen]; exact hcnt
  constructor
  · intro hb
    obtain ⟨d, hf, hm⟩ := bonded_find w addr addr_type hb
    obtain ⟨pre, post, e1, e2, e3⟩ := touch_slots_split
      ((env.esp_timer_get_time / 1000000) % 2 ^ 32) addr addr_type
      w.ble_state.bonded_count w.ble_state.bonded_devices d hf
    rcases update_cases env w addr addr_type hc with ⟨hn, _⟩ | ⟨_, sorted, e, hl, pm, _, ec⟩
    · rw [hb] at hn; cases hn
    · refine ⟨pre, d, post, touch_record ((env.esp_timer_get_time / 1000000) % 2 ^ 32) d,
        e1, hm, e2, rfl, rfl, rfl, rfl, rfl, ?_, ?_, ec⟩
      · rw [e, List.take_left' hl, ← e3]
        exact pm
      · rw [e, List.drop_left' hl]
  · intro hb
    rcases update_cases env w addr addr_type hc with ⟨_, e⟩ | ⟨hn, _⟩
    · exact e
    · rw [hb] at hn; cases hn

theorem touch_frame_witness :
    world_three_peers.ble_state.bonded_devices.length = MAX_BONDED_DEVICES ∧
      world_three_peers.ble_state.bonded_count ≤ MAX_BONDED_DEVICES ∧
      is_bonded_device world_three_peers ⟨0, [9, 9, 9, 9, 9, 9]⟩ 0 = false ∧
      update_device_connection_info env_ok world_three_peers ⟨0, [9, 9, 9, 9, 9, 9]⟩ 0
        = world_three_peers :=
  ⟨by decide, by decide, by decide,
    (touch_frame env_ok world_three_peers ⟨0, [9, 9, 9, 9, 9, 9]⟩ 0 (by decide) (by decide)).2
      (by decide)⟩

/-! ## Theorems: the link flags -/

theorem update_link_flags (env : env_t) (w : world_t) (addr : ble_addr_t) (addr_type : Nat) :
    link_flags (update_device_connection_info env w addr addr_type) = link_flags w := by
  unfold update_device_connection_info
  dsimp only
  split_ifs
  · simp only [link_flags, sort_bonded_devices_by_priority, save_ble_state]
  · rfl

theorem add_link_flags (env : env_t) (w : world_t) (addr : ble_addr_t) (addr_type : Nat) :
    link_flags (add_bonded_device env w addr addr_type).2 = link_flags w := by
  unfold add_bonded_device
  split_ifs
  · rfl
  · simp only [link_flags, save_ble_state]
  · rfl

theorem startAdvertising_link_flags (env : env_t) (w : world_t) :
    link_flags (startAdvertising env w) = link_flags w := by
  rw [startAdvertising_eq]; rfl

theorem start_bonded_advertising_link_flags (env : env_t) (w : world_t) :
    link_flags (start_bonded_advertising env w) = link_flags w := by
  unfold start_bonded_advertising
  dsimp only
  split_ifs <;> rfl

theorem update_ble_whitelist_link_flags (w : world_t) :
    link_flags (update_ble_whitelist w) = link_flags w := by
  unfold update_ble_whitelist
  dsimp only
  split_ifs <;> rfl

theorem wifi_manager_start_scan_link_flags (env : env_t) (w : world_t) :
    link_flags (wifi_manager_start_scan env w) = link_flags w := by
  unfold wifi_manager_start_scan
  dsimp only
  split_ifs
  · rfl
  · rw [update_wifi_status_notify_eq]; rfl
  · rfl

theorem start_active_scan_flags_ok (env : env_t) (w : world_t) (h : flags_ok (link_flags w)) :
    flags_ok (link_flags (start_active_scan_for_bonded_devices env w)) := by
  unfold start_active_scan_for_bonded_devices
  dsimp only
  split_ifs <;> simp_all [link_flags, flags_ok, world_t.log]

theorem connect_to_preferred_link_flags (env : env_t) (w : world_t) :
    link_flags (connect_to_preferred_device env w).2 = link_flags w := by
  unfold connect_to_preferred_device
  dsimp only
  split_ifs
  · rfl
  · rw [start_bonded_advertising_link_flags]; rfl
  · rw [startAdvertising_link_flags]; rfl
  · rfl

theorem reconnect_flags_ok (env : env_t) (w : world_t) (h : flags_ok (link_flags w)) :
    flags_ok (link_flags (reconnect_to_last_device env w)) := by
  unfold reconnect_to_last_device
  dsimp only
  have h1 : flags_ok (link_flags
      { w with ble_state := { w.ble_state with reconnect_mode := true } }) →
      flags_ok (link_flags (connect_to_preferred_device env
        { w with ble_state := { w.ble_state with reconnect_mode := true } }).2) := by
    intro hh
    rw [connect_to_preferred_link_flags]; exact hh
  split_ifs with hc hr
  · exact h
  · apply start_active_scan_flags_ok
    apply h1
    simp_all [link_flags, flags_ok]
  · apply h1
    simp_all [link_flags, flags_ok]

theorem disconnect_op_flags_ok (w : world_t) :
    flags_ok (link_flags (ble_manager_disconnect w)) := by
  unfold ble_manager_disconnect
  dsimp only
  split_ifs <;> simp [link_flags, flags_ok, world_t.log]

theorem gap_event_connect_flags_ok (env : env_t) (w : world_t) (status conn_handle : Nat)
    (h : flags_ok (link_flags w)) :
    flags_ok (link_flags (gap_event_connect env w status conn_handle).2) := by
  unfold gap_event_connect
  cases env.ble_gap_conn_find with
  | none => exact h
  | some desc =>
    dsimp only
    split_ifs
    · simp [link_flags, flags_ok, world_t.log]
    · simp [link_flags, flags_ok, world_t.log]
    · have e : link_flags ((update_device_connection_info env
          ({ { w with connection_handle := conn_handle } with
              ble_state := { w.ble_state with
                is_connected := true, active_scan_mode := false, reconnect_mode := false } }.log
            ext_call.ble_gap_adv_stop)
          desc.peer_id_addr desc.peer_id_addr.type).log
            (ext_call.ble_gap_security_initiate conn_handle))
          = link_flags (update_device_connection_info env
          ({ { w with connection_handle := conn_handle } with
              ble_state := { w.ble_state with
                is_connected := true, active_scan_mode := false, reconnect_mode := false } }.log
            ext_call.ble_gap_adv_stop)
          desc.peer_id_addr desc.peer_id_addr.type) := rfl
      rw [e, update_link_flags]
      simp [link_flags, flags_ok, world_t.log]
    · simp [link_flags, flags_ok, world_t.log]
    · simp [link_flags, flags_ok, world_t.log]
    · exact h

theorem gap_event_disconnect_flags_ok (env : env_t) (w : world_t) :
    flags_ok (link_flags (gap_event_disconnect env w).2) := by
  unfold gap_event_disconnect
  dsimp only
  split_ifs
  · apply reconnect_flags_ok
    simp [link_flags, flags_ok, world_t.log]
  · rw [startAdvertising_link_flags]
    simp [link_flags, flags_ok, world_t.log]

theorem gap_event_disc_flags_ok (env : env_t) (w : world_t) (addr : ble_addr_t)
    (h : flags_ok (link_flags w)) : flags_ok (link_flags (gap_event_disc env w addr).2) := by
  unfold gap_event_disc
  dsimp only
  split_ifs
  · apply start_active_scan_flags_ok
    simp_all [link_flags, flags_ok, world_t.log]
  · simp_all [link_flags, flags_ok, world_t.log]
  · exact h
  · exact h

theorem gap_event_disc_complete_flags_ok (env : env_t) (w : world_t)
    (h : flags_ok (link_flags w)) : flags_ok (link_flags (gap_event_disc_complete env w).2) := by
  unfold gap_event_disc_complete
  dsimp only
  split_ifs
  · apply start_active_scan_flags_ok
    simp_all [link_flags, flags_ok, world_t.log]
  · rw [start_bonded_advertising_link_flags]
    simp_all [link_flags, flags_ok]
  · rw [startAdvertising_link_flags]
    simp_all [link_flags, flags_ok]
  · simp_all [link_flags, flags_ok]

theorem gap_event_enc_change_link_flags (env : env_t) (w : world_t) (r : Nat × world_t)
    (h : gap_event_enc_change env w = some r) : link_flags r.2 = link_flags w := by
  unfold gap_event_enc_change at h
  cases hf : env.ble_gap_conn_find with
  | none => simp [hf] at h
  | some desc =>
    simp only [hf] at h
    split_ifs at h with hb hn
    · have := Option.some.inj h
      rw [← this]
      simp only [update_link_flags]
      show link_flags (update_ble_whitelist
        (add_bonded_device env w desc.peer_id_addr desc.peer_id_addr.type).2) = link_flags w
      rw [update_ble_whitelist_link_flags, add_link_flags]
    · have := Option.some.inj h
      rw [← this]
      simp only [update_link_flags]
      rfl
    · have := Option.some.inj h
      rw [← this]

theorem gap_event_flags_ok (env : env_t) (w : world_t) (ev : ble_gap_event)
    (r : Nat × world_t) (h : flags_ok (link_flags w))
    (hr : bleprph_gap_event env w ev = some r) : flags_ok (link_flags r.2) := by
  cases ev with
  | connect status conn_handle =>
    simp only [bleprph_gap_event, Option.some.injEq] at hr
    rw [← hr]; exact gap_event_connect_flags_ok env w status conn_handle h
  | disconnect reason =>
    simp only [bleprph_gap_event, Option.some.injEq] at hr
    rw [← hr]; exact gap_event_disconnect_flags_ok env w
  | disc addr =>
    simp only [bleprph_gap_event, Option.some.injEq] at hr
    rw [← hr]; exact gap_event_disc_flags_ok env w addr h
  | disc_complete =>
    simp only [bleprph_gap_event, Option.some.injEq] at hr
    rw [← hr]; exact gap_event_disc_complete_flags_ok env w h
  | enc_change status conn_handle =>
    simp only [bleprph_gap_event] at hr
    rw [gap_event_enc_change_link_flags env w r hr]; exact h
  | mtu value =>
    simp only [bleprph_gap_event, Option.some.injEq] at hr
    rw [← hr]; exact h
  | subscribe attr_handle cur_notify =>
    simp only [bleprph_gap_event, Option.some.injEq] at hr
    rw [← hr]
    unfold gap_event_subscribe
    dsimp only
    split_ifs
    · rw [wifi_manager_start_scan_link_flags]; exact h
    · exact h
    · exact h
    · exact h
  | repeat_pairing conn_handle =>
    simp only [bleprph_gap_event, gap_event_repeat_pairing] at hr
    cases hf : env.ble_gap_conn_find with
    | none => simp [hf] at hr
    | some desc =>
      simp only [hf] at hr
      split_ifs at hr <;> (rw [← Option.some.inj hr]; exact h)
  | other =>
    simp only [bleprph_gap_event, Option.some.injEq] at hr
    rw [← hr]; exact h

theorem run_link_step_flags_ok (w w1 : world_t) (s : link_step) (h : flags_ok (link_flags w))
    (hs : run_link_step w s = some w1) : flags_ok (link_flags w1) := by
  cases s with
  | gap_event env ev =>
    simp only [run_link_step, Option.map_eq_some'] at hs
    obtain ⟨r, hr, e⟩ := hs
    rw [← e]; exact gap_event_flags_ok env w ev r h hr
  | reconnect_to_last_device env =>
    simp only [run_link_step, Option.some.injEq] at hs
    rw [← hs]; exact reconnect_flags_ok env w h
  | connect_to_preferred_device env =>
    simp only [run_link_step, Option.some.injEq] at hs
    rw [← hs, connect_to_preferred_link_flags]; exact h
  | start_active_scan_for_bonded_devices env =>
    simp only [run_link_step, Option.some.injEq] at hs
    rw [← hs]; exact start_active_scan_flags_ok env w h
  | ble_manager_disconnect =>
    simp only [run_link_step, Option.some.injEq] at hs
    rw [← hs]; exact disconnect_op_flags_ok w

theorem run_link_steps_flags_ok (steps : List link_step) :
    ∀ (w0 w : world_t), flags_ok (link_flags w0) → run_link_steps w0 steps = some w →
      flags_ok (link_flags w) := by
  induction steps with
  | nil =>
    intro w0 w h hr
    simp only [run_link_steps, Option.some.injEq] at hr
    rw [← hr]; exact h
  | cons s ss ih =>
    intro w0 w h hr
    simp only [run_link_steps] at hr
    cases hs : run_link_step w0 s with
    | none => simp [hs] at hr
    | some w1 =>
      simp only [hs] at hr
      exact ih w1 w (run_link_step_flags_ok w0 w1 s h hs) hr

/-- C12: in every state reached from the initial state by any sequence of
transport events delivered to `bleprph_gap_event` (connect, disconnect,
advertisement report, scan complete, encryption change, and the other events
it handles) and of calls of `reconnect_to_last_device`,
`connect_to_preferred_device`, `start_active_scan_for_bonded_devices` and
`ble_manager_disconnect`, `is_connected` and `active_scan_mode` are not both
true, and `reconnect_mode` being true implies that `is_connected` is false. -/
theorem link_flags_invariant (steps : List link_step) (w : world_t)
    (hrun : run_link_steps world_init steps = some w) :
    ¬(w.ble_state.is_connected = true ∧ w.ble_state.active_scan_mode = true) ∧
      (w.ble_state.reconnect_mode = true → w.ble_state.is_connected = false) :=
  run_link_steps_flags_ok steps world_init w (by simp [flags_ok, link_flags, world_init]) hrun

/-- The sample run ends with the link down, a reconnection in progress and the
one bonded peer targeted. -/
theorem steps_sample_run :
    (run_link_steps world_init steps_sample).map
        (fun w => (link_flags w, w.ble_state.bonded_count, w.ble_state.is_bonded, w.calls))
      = some ((false, false, true), 1, true,
          [ext_call.ble_gap_adv_stop, ext_call.ble_gap_security_initiate 1,
            ext_call.nvs_set_blob_bonded_list
              ({ bonded_device_zero with addr := ⟨0, [1, 2, 3, 4, 5, 6]⟩ } ::
                List.replicate 7 bonded_device_zero),
            ext_call.nvs_set_u8_bonded_count 1, ext_call.nvs_commit,
            ext_call.ble_gap_wl_set [], ext_call.ble_gap_wl_set [⟨0, [1, 2, 3, 4, 5, 6]⟩],
            ext_call.nvs_set_blob_bonded_list
              ({ bonded_device_zero with
                  addr := ⟨0, [1, 2, 3, 4, 5, 6]⟩, last_connected_timestamp := 42,
                  priority := 1, is_active := true } ::
                List.replicate 7 bonded_device_zero),
            ext_call.nvs_set_u8_bonded_count 1, ext_call.nvs_commit,
            ext_call.vTaskDelay 100, ext_call.ble_gap_adv_stop,
            ext_call.ble_gap_connect ⟨0, [1, 2, 3, 4, 5, 6]⟩ 10000]) := by
  decide

theorem link_flags_invariant_witness :
    run_link_steps world_init steps_sample
        = some ((run_link_steps world_init steps_sample).getD world_init) ∧
      (¬(((run_link_steps world_init steps_sample).getD world_init).ble_state.is_connected = true ∧
          ((run_link_steps world_init steps_sample).getD world_init).ble_state.active_scan_mode
            = true) ∧
        (((run_link_steps world_init steps_sample).getD world_init).ble_state.reconnect_mode = true →
          ((run_link_steps world_init steps_sample).getD world_init).ble_state.is_connected
            = false)) :=
  ⟨by decide, link_flags_invariant steps_sample
    ((run_link_steps world_init steps_sample).getD world_init) (by decide)⟩

/-! ## Theorems: link loss and the preferred peer -/

theorem start_bonded_advertising_eq (env : env_t) (w : world_t) :
    start_bonded_advertising env w
      = { w with calls := w.calls ++ start_bonded_advertising_calls env } := by
  unfold start_bonded_advertising start_bonded_advertising_calls
  by_cases h1 : env.ble_gap_adv_set_fields_rc = 0 <;>
    by_cases h2 : env.ble_gap_adv_rsp_set_fields_rc = 0 <;> simp [world_t.log, h1, h2]

theorem start_active_scan_frame (env : env_t) (w : world_t) :
    (start_active_scan_for_bonded_devices env w).calls = w.calls ++ active_scan_calls w ∧
      (start_active_scan_for_bonded_devices env w).ble_state.bonded_devices
        = w.ble_state.bonded_devices ∧
      (start_active_scan_for_bonded_devices env w).ble_state.bonded_count
        = w.ble_state.bonded_count ∧
      (start_active_scan_for_bonded_devices env w).ble_state.is_connected
        = w.ble_state.is_connected ∧
      (start_active_scan_for_bonded_devices env w).ble_state.reconnect_mode
        = w.ble_state.reconnect_mode := by
  unfold start_active_scan_for_bonded_devices active_scan_calls
  dsimp only
  split_ifs <;> simp [world_t.log]

theorem connect_to_preferred_frame (env : env_t) (w : world_t)
    (hcount : w.ble_state.bonded_count ≠ 0) (hnc : w.ble_state.is_connected = false) :
    (connect_to_preferred_device env w).2.calls
        = w.calls ++ ext_call.ble_gap_adv_stop ::
          ext_call.ble_gap_connect
            ((sort_slots w.ble_state.bonded_count w.ble_state.bonded_devices).headD
              bonded_device_zero).addr 10000 :: preferred_fallback_calls env w ∧
      (connect_to_preferred_device env w).2.ble_state
        = (sort_bonded_devices_by_priority w).ble_state := by
  unfold connect_to_preferred_device preferred_fallback_calls
  simp only [hcount, hnc, decide_False, Bool.or_self, Bool.false_eq_true, if_false,
    start_bonded_advertising_eq, startAdvertising_eq]
  split_ifs <;> simp_all [world_t.log, sort_bonded_devices_by_priority]

/-- The head of the sorted array outranks every record in use. -/
theorem sort_slots_head (n : Nat) (devs : List bonded_device_t) (hn : n ≤ devs.length)
    (h1 : 1 ≤ n) :
    ∃ d, (sort_slots n devs)[0]? = some d ∧
      (sort_slots n devs).headD bonded_device_zero = d ∧
      d ∈ devs.take n ∧ ∀ x ∈ devs.take n, in_order d x := by
  obtain ⟨sorted, e, hl, p, pw⟩ := sort_slots_spec n devs hn
  match sorted, hl, p, pw, e with
  | [], hl, _, _, _ => simp at hl; omega
  | d :: rest, _, p, pw, e =>
    refine ⟨d, by rw [e]; simp, by rw [e]; rfl, p.subset (List.mem_cons_self _ _), ?_⟩
    intro x hx
    have hx2 : x ∈ d :: rest := p.symm.subset hx
    rcases List.mem_cons.1 hx2 with rfl | hx2
    · exact in_order_refl _
    · exact (List.pairwise_cons.1 pw).1 x hx2

/-- C14: for every non-empty store (`bonded_count` between 1 and 8) on a link
that is not connected, `connect_to_preferred_device` issues its connect call
(10000 ms) to the address of the record at index 0 after its sort; that record
is one of the bonded records, has the maximal priority among all of them and,
among the records with that priority, the maximal `last_connected_timestamp`. -/
theorem preferred_device_is_best (env : env_t) (w : world_t)
    (hlen : w.ble_state.bonded_devices.length = MAX_BONDED_DEVICES)
    (h1 : 1 ≤ w.ble_state.bonded_count) (h8 : w.ble_state.bonded_count ≤ 8)
    (hnc : w.ble_state.is_connected = false) :
    ∃ d, (connect_to_preferred_device env w).2.ble_state.bonded_devices[0]? = some d ∧
      (connect_to_preferred_device env w).2.calls
        = w.calls ++ ext_call.ble_gap_adv_stop :: ext_call.ble_gap_connect d.addr 10000 ::
          preferred_fallback_calls env w ∧
      d ∈ w.ble_state.bonded_devices.take w.ble_state.bonded_count ∧
      ∀ x ∈ w.ble_state.bonded_devices.take w.ble_state.bonded_count,
        x.priority ≤ d.priority ∧
          (x.priority = d.priority →
            x.last_connected_timestamp ≤ d.last_connected_timestamp) := by
  obtain ⟨d, hd0, hdh, hmem, hbest⟩ := sort_slots_head w.ble_state.bonded_count
    w.ble_state.bonded_devices (by rw [hlen]; exact h8) h1
  obtain ⟨hcalls, hstate⟩ := connect_to_preferred_frame env w (by omega) hnc
  refine ⟨d, ?_, ?_, hmem, ?_⟩
  · rw [hstate]; exact hd0
  · rw [hcalls, hdh]
  · intro x hx
    obtain ⟨hp, ht⟩ := hbest x hx
    exact ⟨hp, fun e => ht e.symm⟩

theorem preferred_device_is_best_witness :
    world_three_peers.ble_state.bonded_devices.length = MAX_BONDED_DEVICES ∧
      1 ≤ world_three_peers.ble_state.bonded_count ∧
      world_three_peers.ble_state.bonded_count ≤ 8 ∧
      world_three_peers.ble_state.is_connected = false ∧
      ∃ d, (connect_to_preferred_device env_ok world_three_peers).2.ble_state.bonded_devices[0]?
          = some d ∧
        (connect_to_preferred_device env_ok world_three_peers).2.calls
          = world_three_peers.calls ++ ext_call.ble_gap_adv_stop ::
            ext_call.ble_gap_connect d.addr 10000 ::
              preferred_fallback_calls env_ok world_three_peers ∧
        d ∈ world_three_peers.ble_state.bonded_devices.take
          world_three_peers.ble_state.bonded_count ∧
        ∀ x ∈ world_three_peers.ble_state.bonded_devices.take
            world_three_peers.ble_state.bonded_count,
          x.priority ≤ d.priority ∧
            (x.priority = d.priority →
              x.last_connected_timestamp ≤ d.last_connected_timestamp) :=
  ⟨by decide, by decide, by decide, rfl,
    preferred_device_is_best env_ok world_three_peers (by decide) (by decide) (by decide) rfl⟩

/-- A concrete run: of the three sample peers the one with priority 3 is
targeted. -/
theorem preferred_device_run :
    (connect_to_preferred_device env_ok world_three_peers).2.calls
      = [ext_call.ble_gap_adv_stop, ext_call.ble_gap_connect ⟨0, [2, 2, 3, 4, 5, 6]⟩ 10000] := by
  decide

theorem reconnect_frame (env : env_t) (w : world_t)
    (hcount : w.ble_state.bonded_count ≠ 0) (hnc : w.ble_state.is_connected = false) :
    ∃ new, (reconnect_to_last_device env w).calls
        = w.calls ++ ext_call.ble_gap_adv_stop ::
          ext_call.ble_gap_connect
            ((sort_slots w.ble_state.bonded_count w.ble_state.bonded_devices).headD
              bonded_device_zero).addr 10000 :: new ∧
      (reconnect_to_last_device env w).ble_state.bonded_devices
        = sort_slots w.ble_state.bonded_count w.ble_state.bonded_devices ∧
      (reconnect_to_last_device env w).ble_state.bonded_count = w.ble_state.bonded_count ∧
      (reconnect_to_last_device env w).ble_state.is_connected = false ∧
      (reconnect_to_last_device env w).ble_state.reconnect_mode = true := by
  obtain ⟨hcalls, hstate⟩ := connect_to_preferred_frame env
    { w with ble_state := { w.ble_state with reconnect_mode := true } } hcount hnc
  obtain ⟨s1, s2, s3, s4, s5⟩ := start_active_scan_frame env
    (connect_to_preferred_device env
      { w with ble_state := { w.ble_state with reconnect_mode := true } }).2
  have key : reconnect_to_last_device env w
      = if !(connect_to_preferred_device env
            { w with ble_state := { w.ble_state with reconnect_mode := true } }).1 then
          start_active_scan_for_bonded_devices env
            (connect_to_preferred_device env
              { w with ble_state := { w.ble_state with reconnect_mode := true } }).2
        else
          (connect_to_preferred_device env
            { w with ble_state := { w.ble_state with reconnect_mode := true } }).2 := by
    unfold reconnect_to_last_device
    simp only [hcount, hnc, decide_False, Bool.or_self, Bool.false_eq_true, if_false]
  rw [key]
  split_ifs
  · refine ⟨preferred_fallback_calls env
        { w with ble_state := { w.ble_state with reconnect_mode := true } } ++
      active_scan_calls (connect_to_preferred_device env
        { w with ble_state := { w.ble_state with reconnect_mode := true } }).2, ?_, ?_, ?_, ?_, ?_⟩
    · rw [s1, hcalls]; simp
    · rw [s2, hstate]; rfl
    · rw [s3, hstate]; rfl
    · rw [s4, hstate]; exact hnc
    · rw [s5, hstate]; rfl
  · refine ⟨preferred_fallback_calls env
        { w with ble_state := { w.ble_state with reconnect_mode := true } }, ?_, ?_, ?_, ?_, ?_⟩
    · rw [hcalls]
    · rw [hstate]; rfl
    · rw [hstate]; rfl
    · rw [hstate]; exact hnc
    · rw [hstate]; rfl

/-- C13: after a disconnect event is handled (on a store within its eight
slots whose `is_bonded` flag says whether it holds a record), `is_connected`
is false and `is_active` is false for every bonded record; if at least one
peer is bonded, `reconnect_mode` is true and, after the 100 ms delay and the
stop of advertising, a direct connection attempt with a 10000 ms timeout is
issued to the record at store index 0; if no peer is bonded, unrestricted
advertising is started and `reconnect_mode` is left as it was. -/
theorem link_lost (env : env_t) (w : world_t) (reason : Nat)
    (hlen : w.ble_state.bonded_devices.length = MAX_BONDED_DEVICES)
    (hcnt : w.ble_state.bonded_count ≤ MAX_BONDED_DEVICES)
    (hflag : w.ble_state.is_bonded = true ↔ 0 < w.ble_state.bonded_count) :
    ∃ w', bleprph_gap_event env w (ble_gap_event.disconnect reason) = some (0, w') ∧
      w'.ble_state.is_connected = false ∧
      (∀ d ∈ w'.ble_state.bonded_devices.take w'.ble_state.bonded_count, d.is_active = false) ∧
      (0 < w.ble_state.bonded_count →
        w'.ble_state.reconnect_mode = true ∧
        ∃ d new, w'.ble_state.bonded_devices[0]? = some d ∧
          w'.calls = w.calls ++ ext_call.vTaskDelay 100 :: ext_call.ble_gap_adv_stop ::
            ext_call.ble_gap_connect d.addr 10000 :: new) ∧
      (w.ble_state.bonded_count = 0 →
        w'.ble_state.reconnect_mode = w.ble_state.reconnect_mode ∧
        w'.calls = w.calls ++ ext_call.vTaskDelay 100 :: startAdvertising_calls env) := by
  have hfst : (gap_event_disconnect env w).1 = 0 := by
    unfold gap_event_disconnect
    dsimp only
    split_ifs <;> rfl
  have hev : bleprph_gap_event env w (ble_gap_event.disconnect reason)
      = some (0, (gap_event_disconnect env w).2) := by
    simp only [bleprph_gap_event, ← hfst]
  refine ⟨(gap_event_disconnect env w).2, hev, ?_⟩
  by_cases hz : w.ble_state.bonded_count = 0
  · have hb : w.ble_state.is_bonded = false := by
      cases h : w.ble_state.is_bonded with
      | false => rfl
      | true => have := hflag.1 h; omega
    have e : (gap_event_disconnect env w).2
        = startAdvertising env
          (({ w with
            connection_handle := BLE_HS_CONN_HANDLE_NONE,
            ble_state := { w.ble_state with
              is_connected := false,
              bonded_devices :=
                (w.ble_state.bonded_devices.take w.ble_state.bonded_count).map
                    (fun (d : bonded_device_t) => { d with is_active := false }) ++
                  w.ble_state.bonded_devices.drop w.ble_state.bonded_count } } : world_t).log
            (ext_call.vTaskDelay 100)) := by
      simp only [gap_event_disconnect, hb, Bool.false_eq_true, if_false]
    rw [e, startAdvertising_eq]
    refine ⟨rfl, ?_, fun h => by omega, fun _ => ⟨rfl, by simp [world_t.log]⟩⟩
    intro d hd
    change d ∈ List.take w.ble_state.bonded_count _ at hd
    rw [hz] at hd
    simp at hd
  · have hb : w.ble_state.is_bonded = true := hflag.2 (by omega)
    have e : (gap_event_disconnect env w).2
        = reconnect_to_last_device env
          (({ w with
            connection_handle := BLE_HS_CONN_HANDLE_NONE,
            ble_state := { w.ble_state with
              is_connected := false,
              bonded_devices :=
                (w.ble_state.bonded_devices.take w.ble_state.bonded_count).map
                    (fun (d : bonded_device_t) => { d with is_active := false }) ++
                  w.ble_state.bonded_devices.drop w.ble_state.bonded_count } } : world_t).log
            (ext_call.vTaskDelay 100)) := by
      simp only [gap_event_disconnect, hb, if_true]
    obtain ⟨new, r1, r2, r3, r4, r5⟩ := reconnect_frame env
      (({ w with
        connection_handle := BLE_HS_CONN_HANDLE_NONE,
        ble_state := { w.ble_state with
          is_connected := false,
          bonded_devices :=
            (w.ble_state.bonded_devices.take w.ble_state.bonded_count).map
                (fun (d : bonded_device_t) => { d with is_active := false }) ++
              w.ble_state.bonded_devices.drop w.ble_state.bonded_count } } : world_t).log
        (ext_call.vTaskDelay 100)) hz rfl
    have hl1 : ((w.ble_state.bonded_devices.take w.ble_state.bonded_count).map
        (fun (d : bonded_device_t) => { d with is_active := false })).length
          = w.ble_state.bonded_count := by
      simp; omega
    have hn : w.ble_state.bonded_count ≤
        ((w.ble_state.bonded_devices.take w.ble_state.bonded_count).map
              (fun (d : bonded_device_t) => { d with is_active := false }) ++
            w.ble_state.bonded_devices.drop w.ble_state.bonded_count).length := by
      simp; omega
    obtain ⟨sorted, se, sl, sp, _⟩ := sort_slots_spec w.ble_state.bonded_count _ hn
    obtain ⟨d, hd0, hdh, _, _⟩ := sort_slots_head w.ble_state.bonded_count _ hn (by omega)
    rw [List.take_left' hl1] at sp
    rw [e]
    refine ⟨r4, ?_, fun _ => ⟨r5, d, new, ?_, ?_⟩, fun h => absurd h hz⟩
    · intro x hx
      rw [r2, r3] at hx
      simp only [world_t.log] at hx
      rw [se, List.take_left' sl] at hx
      obtain ⟨y, _, rfl⟩ := List.mem_map.1 (sp.subset hx)
      rfl
    · rw [r2]; exact hd0
    · rw [r1]
      simp only [world_t.log] at hdh ⊢
      rw [hdh]
      simp

theorem link_lost_witness :
    world_three_linked.ble_state.bonded_devices.length = MAX_BONDED_DEVICES ∧
      world_three_linked.ble_state.bonded_count ≤ MAX_BONDED_DEVICES ∧
      (world_three_linked.ble_state.is_bonded = true ↔
        0 < world_three_linked.ble_state.bonded_count) ∧
      ∃ w', bleprph_gap_event env_ok world_three_linked (ble_gap_event.disconnect 19)
          = some (0, w') ∧
        w'.ble_state.is_connected = false ∧
        (∀ d ∈ w'.ble_state.bonded_devices.take w'.ble_state.bonded_count,
          d.is_active = false) ∧
        (0 < world_three_linked.ble_state.bonded_count →
          w'.ble_state.reconnect_mode = true ∧
          ∃ d new, w'.ble_state.bonded_devices[0]? = some d ∧
            w'.calls = world_three_linked.calls ++ ext_call.vTaskDelay 100 ::
              ext_call.ble_gap_adv_stop :: ext_call.ble_gap_connect d.addr 10000 :: new) ∧
        (world_three_linked.ble_state.bonded_count = 0 →
          w'.ble_state.reconnect_mode = world_three_linked.ble_state.reconnect_mode ∧
          w'.calls = world_three_linked.calls ++ ext_call.vTaskDelay 100 ::
            startAdvertising_calls env_ok) :=
  ⟨by decide, by decide, by decide,
    link_lost env_ok world_three_linked 19 (by decide) (by decide) (by decide)⟩

/-- A concrete run of the disconnect handler on the three sample peers. -/
theorem link_lost_run :
    (bleprph_gap_event env_ok world_three_linked (ble_gap_event.disconnect 19)).map
        (fun r => (r.1, link_flags r.2, r.2.calls,
          (r.2.ble_state.bonded_devices.take 3).map (fun d => d.is_active)))
      = some (0, (false, false, true),
          [ext_call.vTaskDelay 100, ext_call.ble_gap_adv_stop,
            ext_call.ble_gap_connect ⟨0, [2, 2, 3, 4, 5, 6]⟩ 10000],
          [false, false, false]) := by
  decide

/-! ## Theorems: a failed reconnection -/

/-- C15, the code on the path the claim gets wrong: a connect event that
reports a non-zero status (for instance the time-out of the direct connection
attempt) changes nothing but the stored connection handle, whatever the flags
are: no call is made, `start_active_scan_for_bonded_devices` is not reached and
`active_scan_mode`, `reconnect_mode` and `is_connected` stay as they were. -/
theorem failed_connect_event_starts_no_scan (env : env_t) (w : world_t)
    (status conn_handle : Nat) (hst : status ≠ 0) :
    ∃ w', bleprph_gap_event env w (ble_gap_event.connect status conn_handle) = some (0, w') ∧
      w'.calls = w.calls ∧ w'.ble_state = w.ble_state := by
  have key : gap_event_connect env w status conn_handle = (0, w) ∨
      gap_event_connect env w status conn_handle
        = (0, { w with connection_handle := conn_handle }) := by
    unfold gap_event_connect
    cases env.ble_gap_conn_find with
    | none => exact Or.inl rfl
    | some desc => exact Or.inr (by simp only [hst, if_false])
  rcases key with e | e
  · exact ⟨w, by simp only [bleprph_gap_event, e], rfl, rfl⟩
  · exact ⟨{ w with connection_handle := conn_handle },
      by simp only [bleprph_gap_event, e], rfl, rfl⟩

theorem failed_connect_event_starts_no_scan_witness :
    BLE_HS_ETIMEOUT ≠ 0 ∧
      world_reconnecting.ble_state.reconnect_mode = true ∧
      world_reconnecting.ble_state.is_connected = false ∧
      world_reconnecting.ble_state.active_scan_mode = false ∧
      ∃ w', bleprph_gap_event env_ok world_reconnecting
          (ble_gap_event.connect BLE_HS_ETIMEOUT BLE_HS_CONN_HANDLE_NONE) = some (0, w') ∧
        w'.calls = world_reconnecting.calls ∧ w'.ble_state = world_reconnecting.ble_state :=
  ⟨by decide, by decide, by decide, by decide,
    failed_connect_event_starts_no_scan env_ok world_reconnecting BLE_HS_ETIMEOUT
      BLE_HS_CONN_HANDLE_NONE (by decide)⟩

/-- The failing run of C15: during a reconnection the connect event reports the
time-out; afterwards no scan is running and none has been asked for. -/
theorem reconnect_timeout_run :
    (bleprph_gap_event env_ok world_reconnecting
        (ble_gap_event.connect BLE_HS_ETIMEOUT BLE_HS_CONN_HANDLE_NONE)).map
        (fun r => (link_flags r.2, r.2.calls))
      = some ((false, false, true),
          [ext_call.vTaskDelay 100, ext_call.ble_gap_adv_stop,
            ext_call.ble_gap_connect ⟨0, [2, 2, 3, 4, 5, 6]⟩ 10000]) := by
  decide

/-- The sibling path of C15: when the connect call itself is refused,
`reconnect_to_last_device` does fall back to the active scan. -/
theorem refused_connect_falls_back_to_scan (env : env_t) (w : world_t)
    (hcount : w.ble_state.bonded_count ≠ 0) (hnc : w.ble_state.is_connected = false)
    (hns : w.ble_state.active_scan_mode = false)
    (hrc : env.ble_gap_connect_rc ≠ 0) (hdisc : env.ble_gap_disc_rc = 0) :
    (reconnect_to_last_device env w).ble_state.active_scan_mode = true ∧
      ext_call.ble_gap_disc 5000 1 ∈ (reconnect_to_last_device env w).calls := by
  have hstate := (connect_to_preferred_frame env
    { w with ble_state := { w.ble_state with reconnect_mode := true } } hcount hnc).2
  have hc1 : (decide (w.ble_state.bonded_count = 0) || w.ble_state.is_connected) = false := by
    simp [hcount, hnc]
  have hc2 : (w.ble_state.is_connected || decide (w.ble_state.bonded_count = 0)) = false := by
    simp [hcount, hnc]
  have hfalse : (connect_to_preferred_device env
      { w with ble_state := { w.ble_state with reconnect_mode := true } }).1 = false := by
    unfold connect_to_preferred_device
    rw [if_neg (by rw [hc1]; simp), if_pos hrc]
    split_ifs <;> rfl
  have key : reconnect_to_last_device env w
      = start_active_scan_for_bonded_devices env
          (connect_to_preferred_device env
            { w with ble_state := { w.ble_state with reconnect_mode := true } }).2 := by
    unfold reconnect_to_last_device
    rw [if_neg (by rw [hc2]; simp)]
    dsimp only
    rw [hfalse]
    rfl
  have ha : (connect_to_preferred_device env
      { w with ble_state := { w.ble_state with reconnect_mode := true } }).2.ble_state.active_scan_mode
      = false := by rw [hstate]; exact hns
  have hc : (connect_to_preferred_device env
      { w with ble_state := { w.ble_state with reconnect_mode := true } }).2.ble_state.is_connected
      = false := by rw [hstate]; exact hnc
  rw [key]
  unfold start_active_scan_for_bonded_devices
  simp [ha, hc, hdisc, world_t.log]

/-! ## Theorems: pairing complete -/

theorem save_calls_eq (env : env_t) (w : world_t) :
    (save_bonded_devices_to_nvs env w).calls
      = w.calls ++ nvs_save_calls env w.ble_state.bonded_devices w.ble_state.bonded_count := by
  unfold save_bonded_devices_to_nvs nvs_save_calls
  split_ifs <;> simp [world_t.log]

theorem no_wl_set_in_save (env : env_t) (devs : List bonded_device_t) (count : Nat)
    (l : List ble_addr_t) : ext_call.ble_gap_wl_set l ∉ nvs_save_calls env devs count := by
  unfold nvs_save_calls
  split_ifs <;> simp

/-- The calls a successful touch makes: the write-through of the touched array. -/
theorem update_calls (env : env_t) (w : world_t) (addr : ble_addr_t) (addr_type : Nat)
    (hb : is_bonded_device w addr addr_type = true) :
    (update_device_connection_info env w addr addr_type).calls
      = w.calls ++ nvs_save_calls env
          (touch_slots ((env.esp_timer_get_time / 1000000) % 2 ^ 32) addr addr_type
            w.ble_state.bonded_count w.ble_state.bonded_devices).2
          w.ble_state.bonded_count := by
  have hf1 : (touch_slots ((env.esp_timer_get_time / 1000000) % 2 ^ 32) addr addr_type
      w.ble_state.bonded_count w.ble_state.bonded_devices).1 = true := by
    rw [touch_slots_found_eq]; exact hb
  unfold update_device_connection_info
  simp only [hf1, if_true]
  show (save_bonded_devices_to_nvs env _).calls = _
  rw [save_calls_eq]

theorem touch_slots_addrs (sec : Nat) (addr : ble_addr_t) (addr_type : Nat) (n : Nat)
    (l : List bonded_device_t) :
    (touch_slots sec addr addr_type n l).2.map (fun d => d.addr) = l.map (fun d => d.addr) := by
  induction n generalizing l with
  | zero => simp [touch_slots]
  | succ n ih =>
    cases l with
    | nil => simp [touch_slots]
    | cons d ds =>
      simp only [touch_slots]
      split_ifs
      · simp [touch_record]
      · simp [ih]

theorem is_bonded_device_iff (w : world_t) (addr : ble_addr_t) (addr_type : Nat) :
    is_bonded_device w addr addr_type = true ↔
      (addr.val, addr_type) ∈
        (w.ble_state.bonded_devices.take w.ble_state.bonded_count).map peer_key := by
  unfold is_bonded_device
  rw [List.any_eq_true, List.mem_map]
  constructor
  · rintro ⟨x, hx, hm⟩
    exact ⟨x, hx, (same_peer_iff x addr addr_type).1 hm⟩
  · rintro ⟨x, hx, hk⟩
    exact ⟨x, hx, (same_peer_iff x addr addr_type).2 hk⟩

/-- A touch keeps every key in the store. -/
theorem update_keeps_bonded (env : env_t) (w : world_t) (a b : ble_addr_t) (ta tb : Nat)
    (hc : w.ble_state.bonded_count ≤ w.ble_state.bonded_devices.length)
    (hb : is_bonded_device w b tb = true) :
    is_bonded_device (update_device_connection_info env w a ta) b tb = true := by
  rcases update_cases env w a ta hc with ⟨_, e⟩ | ⟨_, sorted, e, hl, pm, _, ec⟩
  · rw [e]; exact hb
  · rw [is_bonded_device_iff] at hb ⊢
    rw [ec, e, List.take_left' hl]
    have hp := pm.map peer_key
    rw [List.map_take, touch_slots_keys, ← List.map_take] at hp
    exact hp.symm.subset hb

theorem add_calls (env : env_t) (w : world_t) (addr : ble_addr_t) (addr_type : Nat)
    (hb : is_bonded_device w addr addr_type = false)
    (hfull : w.ble_state.bonded_count < MAX_BONDED_DEVICES) :
    (add_bonded_device env w addr addr_type).2.calls
      = w.calls ++ nvs_save_calls env
          (add_bonded_device env w addr addr_type).2.ble_state.bonded_devices
          (add_bonded_device env w addr addr_type).2.ble_state.bonded_count := by
  simp only [add_bonded_device, hb, hfull, if_true, Bool.false_eq_true, if_false,
    save_calls_eq, save_ble_state]

theorem update_ble_whitelist_state (w : world_t) :
    (update_ble_whitelist w).ble_state = w.ble_state := by
  unfold update_ble_whitelist
  dsimp only
  split_ifs <;> rfl

theorem update_ble_whitelist_calls (w : world_t) (h : 0 < w.ble_state.bonded_count) :
    (update_ble_whitelist w).calls
      = w.calls ++ [ext_call.ble_gap_wl_set [],
          ext_call.ble_gap_wl_set
            ((w.ble_state.bonded_devices.take w.ble_state.bonded_count).map (fun d => d.addr))] := by
  unfold update_ble_whitelist
  simp [h, world_t.log]

theorem update_is_bonded_flag (env : env_t) (w : world_t) (addr : ble_addr_t) (addr_type : Nat) :
    (update_device_connection_info env w addr addr_type).ble_state.is_bonded
      = w.ble_state.is_bonded := by
  unfold update_device_connection_info
  dsimp only
  split_ifs
  · simp only [sort_bonded_devices_by_priority, save_ble_state]
  · rfl

/-- C16: after an encryption-change event whose link is reported as bonded is
handled for a peer that was not in the store, with fewer than 8 records
stored: the peer is in the store (`is_bonded_device` returns true for it, the
count has grown by one), `is_bonded` is true, and the allow-list was handed to
the transport once (cleared, then set): it is the list of the addresses of all
bonded records, the new peer included. -/
theorem pairing_complete_adds_peer (env : env_t) (w : world_t) (status conn_handle : Nat)
    (desc : ble_gap_conn_desc)
    (hfind : env.ble_gap_conn_find = some desc)
    (hbonded : desc.sec_state_bonded = true)
    (hnew : is_bonded_device w desc.peer_id_addr desc.peer_id_addr.type = false)
    (hlen : w.ble_state.bonded_devices.length = MAX_BONDED_DEVICES)
    (hlt : w.ble_state.bonded_count < 8) :
    ∃ w', bleprph_gap_event env w (ble_gap_event.enc_change status conn_handle) = some (0, w') ∧
      is_bonded_device w' desc.peer_id_addr desc.peer_id_addr.type = true ∧
      w'.ble_state.bonded_count = w.ble_state.bonded_count + 1 ∧
      w'.ble_state.is_bonded = true ∧
      ∃ pre post wl,
        w'.calls = w.calls ++ pre ++
          [ext_call.ble_gap_wl_set [], ext_call.ble_gap_wl_set wl] ++ post ∧
        (∀ l, ext_call.ble_gap_wl_set l ∉ pre) ∧ (∀ l, ext_call.ble_gap_wl_set l ∉ post) ∧
        List.Perm wl
          ((w'.ble_state.bonded_devices.take w'.ble_state.bonded_count).map (fun d => d.addr)) ∧
        desc.peer_id_addr ∈ wl := by
  have hcnt : w.ble_state.bonded_count ≤ MAX_BONDED_DEVICES := by
    simp only [MAX_BONDED_DEVICES]; omega
  have hfull : w.ble_state.bonded_count < MAX_BONDED_DEVICES := hlt
  -- the store after `add_bonded_device`
  rcases add_cases env w desc.peer_id_addr desc.peer_id_addr.type hlen hcnt with
    ⟨hc, _⟩ | ⟨_, _, d, _, ea, eca⟩
  · rcases hc with hc | hc
    · rw [hnew] at hc; cases hc
    · simp only [MAX_BONDED_DEVICES] at hc; omega
  have hacalls := add_calls env w desc.peer_id_addr desc.peer_id_addr.type hnew hfull
  have htl : (w.ble_state.bonded_devices.take w.ble_state.bonded_count).length
      = w.ble_state.bonded_count := by
    simp only [MAX_BONDED_DEVICES] at hlen; simp; omega
  have htake : (add_bonded_device env w desc.peer_id_addr
        desc.peer_id_addr.type).2.ble_state.bonded_devices.take (w.ble_state.bonded_count + 1)
      = w.ble_state.bonded_devices.take w.ble_state.bonded_count ++
          [{ d with addr := desc.peer_id_addr, addr_type := desc.peer_id_addr.type }] := by
    rw [ea, ← List.singleton_append, ← List.append_assoc]
    exact List.take_left' (by simp [htl])
  -- the handler, step by step
  obtain ⟨wa, hwa⟩ : ∃ x, x = (add_bonded_device env w desc.peer_id_addr
    desc.peer_id_addr.type).2 := ⟨_, rfl⟩
  rw [← hwa] at ea eca hacalls htake
  have hev : gap_event_enc_change env w
      = some (0, update_device_connection_info env
          { update_ble_whitelist wa with
            ble_state := { (update_ble_whitelist wa).ble_state with
              is_bonded := true, allow_new_bonding := false } }
          desc.peer_id_addr desc.peer_id_addr.type) := by
    unfold gap_event_enc_change
    simp only [hfind, hbonded, if_true, hnew, Bool.not_false, hwa]
  obtain ⟨wc, hwc⟩ : ∃ x, x = ({ update_ble_whitelist wa with
      ble_state := { (update_ble_whitelist wa).ble_state with
        is_bonded := true, allow_new_bonding := false } } : world_t) := ⟨_, rfl⟩
  rw [← hwc] at hev
  have hcd : wc.ble_state.bonded_devices = wa.ble_state.bonded_devices := by
    rw [hwc]; show (update_ble_whitelist wa).ble_state.bonded_devices = _
    rw [update_ble_whitelist_state]
  have hcc : wc.ble_state.bonded_count = w.ble_state.bonded_count + 1 := by
    rw [hwc]; show (update_ble_whitelist wa).ble_state.bonded_count = _
    rw [update_ble_whitelist_state, eca]
  have hcb : wc.ble_state.is_bonded = true := by rw [hwc]
  have hccalls : wc.calls = w.calls ++
      nvs_save_calls env wa.ble_state.bonded_devices wa.ble_state.bonded_count ++
      [ext_call.ble_gap_wl_set [],
        ext_call.ble_gap_wl_set
          ((w.ble_state.bonded_devices.take w.ble_state.bonded_count ++
            [{ d with addr := desc.peer_id_addr, addr_type := desc.peer_id_addr.type }]).map
              (fun (x : bonded_device_t) => x.addr))] := by
    rw [hwc]; show (update_ble_whitelist wa).calls = _
    rw [update_ble_whitelist_calls wa (by rw [eca]; omega), hacalls, eca, htake]
  have hclen : wc.ble_state.bonded_count ≤ wc.ble_state.bonded_devices.length := by
    rw [hcc, hcd, ea]
    simp only [MAX_BONDED_DEVICES] at hlen
    simp; omega
  have hcbonded : is_bonded_device wc desc.peer_id_addr desc.peer_id_addr.type = true := by
    rw [is_bonded_device_iff, hcc, hcd, htake]
    simp [peer_key]
  -- the final touch
  rcases update_cases env wc desc.peer_id_addr desc.peer_id_addr.type hclen with
    ⟨hn, _⟩ | ⟨_, sorted, e, hl, pm, _, ec⟩
  · rw [hcbonded] at hn; cases hn
  refine ⟨update_device_connection_info env wc desc.peer_id_addr desc.peer_id_addr.type,
    by simp only [bleprph_gap_event, hev],
    update_keeps_bonded env wc _ _ _ _ hclen hcbonded, by rw [ec, hcc],
    by rw [update_is_bonded_flag, hcb], ?_⟩
  refine ⟨nvs_save_calls env wa.ble_state.bonded_devices wa.ble_state.bonded_count,
    nvs_save_calls env
      (touch_slots ((env.esp_timer_get_time / 1000000) % 2 ^ 32) desc.peer_id_addr
        desc.peer_id_addr.type wc.ble_state.bonded_count wc.ble_state.bonded_devices).2
      wc.ble_state.bonded_count,
    (w.ble_state.bonded_devices.take w.ble_state.bonded_count ++
        [{ d with addr := desc.peer_id_addr, addr_type := desc.peer_id_addr.type }]).map
      (fun (x : bonded_device_t) => x.addr), ?_, ?_, ?_, ?_, ?_⟩
  · rw [update_calls env wc _ _ hcbonded, hccalls]
  · exact fun l => no_wl_set_in_save env _ _ l
  · exact fun l => no_wl_set_in_save env _ _ l
  · rw [ec, e, List.take_left' hl]
    have hp := pm.map (fun (x : bonded_device_t) => x.addr)
    rw [List.map_take, touch_slots_addrs, ← List.map_take, hcc, hcd, htake] at hp
    exact hp.symm
  · simp

theorem pairing_complete_adds_peer_witness :
    env_new_bond.ble_gap_conn_find
        = some { peer_id_addr := ⟨0, [9, 9, 9, 9, 9, 9]⟩, sec_state_bonded := true } ∧
      is_bonded_device world_three_peers ⟨0, [9, 9, 9, 9, 9, 9]⟩ 0 = false ∧
      world_three_peers.ble_state.bonded_devices.length = MAX_BONDED_DEVICES ∧
      world_three_peers.ble_state.bonded_count < 8 ∧
      ∃ w', bleprph_gap_event env_new_bond world_three_peers (ble_gap_event.enc_change 0 1)
          = some (0, w') ∧
        is_bonded_device w' ⟨0, [9, 9, 9, 9, 9, 9]⟩ 0 = true ∧
        w'.ble_state.bonded_count = world_three_peers.ble_state.bonded_count + 1 ∧
        w'.ble_state.is_bonded = true ∧
        ∃ pre post wl,
          w'.calls = world_three_peers.calls ++ pre ++
            [ext_call.ble_gap_wl_set [], ext_call.ble_gap_wl_set wl] ++ post ∧
          (∀ l, ext_call.ble_gap_wl_set l ∉ pre) ∧ (∀ l, ext_call.ble_gap_wl_set l ∉ post) ∧
          List.Perm wl
            ((w'.ble_state.bonded_devices.take w'.ble_state.bonded_count).map
              (fun d => d.addr)) ∧
          (⟨0, [9, 9, 9, 9, 9, 9]⟩ : ble_addr_t) ∈ wl :=
  ⟨rfl, by decide, by decide, by decide,
    pairing_complete_adds_peer env_new_bond world_three_peers 0 1
      { peer_id_addr := ⟨0, [9, 9, 9, 9, 9, 9]⟩, sec_state_bonded := true }
      rfl rfl (by decide) (by decide) (by decide)⟩

/-! ## Theorems: what a reconnection does to the priority -/

theorem peer_priority_congr (w1 w2 : world_t) (addr : ble_addr_t) (addr_type : Nat)
    (hd : w1.ble_state.bonded_devices = w2.ble_state.bonded_devices)
    (hc : w1.ble_state.bonded_count = w2.ble_state.bonded_count) :
    peer_priority w1 addr addr_type = peer_priority w2 addr addr_type := by
  unfold peer_priority
  rw [hd, hc]

theorem is_bonded_device_congr (w1 w2 : world_t) (addr : ble_addr_t) (addr_type : Nat)
    (hd : w1.ble_state.bonded_devices = w2.ble_state.bonded_devices)
    (hc : w1.ble_state.bonded_count = w2.ble_state.bonded_count) :
    is_bonded_device w1 addr addr_type = is_bonded_device w2 addr addr_type := by
  unfold is_bonded_device
  rw [hd, hc]

theorem store_ok_congr (w1 w2 : world_t)
    (hd : w1.ble_state.bonded_devices = w2.ble_state.bonded_devices)
    (hc : w1.ble_state.bonded_count = w2.ble_state.bonded_count) (h : store_ok w2) :
    store_ok w1 := by
  unfold store_ok at h ⊢
  rw [hd, hc]; exact h

/-- The store a touch leaves depends on the store it finds only. -/
theorem update_store_congr (env : env_t) (w1 w2 : world_t) (addr : ble_addr_t)
    (addr_type : Nat)
    (hd : w1.ble_state.bonded_devices = w2.ble_state.bonded_devices)
    (hc : w1.ble_state.bonded_count = w2.ble_state.bonded_count) :
    (update_device_connection_info env w1 addr addr_type).ble_state.bonded_devices
        = (update_device_connection_info env w2 addr addr_type).ble_state.bonded_devices ∧
      (update_device_connection_info env w1 addr addr_type).ble_state.bonded_count
        = (update_device_connection_info env w2 addr addr_type).ble_state.bonded_count := by
  unfold update_device_connection_info
  dsimp only
  rw [hd, hc]
  split_ifs
  · simp only [sort_bonded_devices_by_priority, save_ble_state]
    exact ⟨trivial, trivial⟩
  · exact ⟨hd, hc⟩

theorem priority_implies_bonded (w : world_t) (addr : ble_addr_t) (addr_type : Nat) (p : Nat)
    (hp : peer_priority w addr addr_type = some p) :
    is_bonded_device w addr addr_type = true := by
  unfold peer_priority at hp
  obtain ⟨d, hd, _⟩ := Option.map_eq_some'.1 hp
  unfold is_bonded_device
  exact List.any_eq_true.2 ⟨d, List.mem_of_find?_eq_some hd, by simpa using List.find?_some hd⟩

theorem gap_event_connect_bonded (env : env_t) (w : world_t) (conn_handle : Nat)
    (desc : ble_gap_conn_desc) (hfind : env.ble_gap_conn_find = some desc)
    (hb : is_bonded_device w desc.peer_id_addr desc.peer_id_addr.type = true) :
    ∃ w1, gap_event_connect env w 0 conn_handle = (0, w1) ∧
      w1.ble_state.bonded_devices
        = (update_device_connection_info env w desc.peer_id_addr
            desc.peer_id_addr.type).ble_state.bonded_devices ∧
      w1.ble_state.bonded_count
        = (update_device_connection_info env w desc.peer_id_addr
            desc.peer_id_addr.type).ble_state.bonded_count := by
  obtain ⟨w2, hw2⟩ : ∃ x, x = ({ { w with connection_handle := conn_handle } with
      ble_state := { w.ble_state with
        is_connected := true, active_scan_mode := false, reconnect_mode := false } }.log
    ext_call.ble_gap_adv_stop : world_t) := ⟨_, rfl⟩
  have hd2 : w2.ble_state.bonded_devices = w.ble_state.bonded_devices := by rw [hw2]; rfl
  have hc2 : w2.ble_state.bonded_count = w.ble_state.bonded_count := by rw [hw2]; rfl
  have hb2 : is_bonded_device w2 desc.peer_id_addr desc.peer_id_addr.type = true := by
    rw [is_bonded_device_congr w2 w _ _ hd2 hc2]; exact hb
  have key : gap_event_connect env w 0 conn_handle
      = (0, (update_device_connection_info env w2 desc.peer_id_addr
          desc.peer_id_addr.type).log (ext_call.ble_gap_security_initiate conn_handle)) := by
    unfold gap_event_connect
    simp only [hfind, if_true, ← hw2, hb2, Bool.not_true, Bool.false_and, Bool.false_eq_true,
      if_false]
  obtain ⟨e1, e2⟩ := update_store_congr env w2 w desc.peer_id_addr desc.peer_id_addr.type hd2 hc2
  exact ⟨_, key, e1, e2⟩

theorem gap_event_enc_change_bonded (env : env_t) (w : world_t)
    (desc : ble_gap_conn_desc) (hfind : env.ble_gap_conn_find = some desc)
    (hbonded : desc.sec_state_bonded = true)
    (hb : is_bonded_device w desc.peer_id_addr desc.peer_id_addr.type = true) :
    ∃ w1, gap_event_enc_change env w = some (0, w1) ∧
      w1.ble_state.bonded_devices
        = (update_device_connection_info env w desc.peer_id_addr
            desc.peer_id_addr.type).ble_state.bonded_devices ∧
      w1.ble_state.bonded_count
        = (update_device_connection_info env w desc.peer_id_addr
            desc.peer_id_addr.type).ble_state.bonded_count := by
  obtain ⟨w2, hw2⟩ : ∃ x, x = ({ w with ble_state := { w.ble_state with
      is_bonded := true, allow_new_bonding := false } } : world_t) := ⟨_, rfl⟩
  have hd2 : w2.ble_state.bonded_devices = w.ble_state.bonded_devices := by rw [hw2]
  have hc2 : w2.ble_state.bonded_count = w.ble_state.bonded_count := by rw [hw2]
  have key : gap_event_enc_change env w
      = some (0, update_device_connection_info env w2 desc.peer_id_addr
          desc.peer_id_addr.type) := by
    unfold gap_event_enc_change
    simp only [hfind, hbonded, if_true, hb, Bool.not_true, Bool.false_eq_true, if_false, ← hw2]
  obtain ⟨e1, e2⟩ := update_store_congr env w2 w desc.peer_id_addr desc.peer_id_addr.type hd2 hc2
  exact ⟨_, key, e1, e2⟩

theorem gap_event_enc_change_new (env : env_t) (w : world_t)
    (desc : ble_gap_conn_desc) (hfind : env.ble_gap_conn_find = some desc)
    (hbonded : desc.sec_state_bonded = true)
    (hb : is_bonded_device w desc.peer_id_addr desc.peer_id_addr.type = false) :
    ∃ w1, gap_event_enc_change env w = some (0, w1) ∧
      w1.ble_state.bonded_devices
        = (update_device_connection_info env
            (add_bonded_device env w desc.peer_id_addr desc.peer_id_addr.type).2
            desc.peer_id_addr desc.peer_id_addr.type).ble_state.bonded_devices ∧
      w1.ble_state.bonded_count
        = (update_device_connection_info env
            (add_bonded_device env w desc.peer_id_addr desc.peer_id_addr.type).2
            desc.peer_id_addr desc.peer_id_addr.type).ble_state.bonded_count := by
  obtain ⟨wa, hwa⟩ : ∃ x, x = (add_bonded_device env w desc.peer_id_addr
    desc.peer_id_addr.type).2 := ⟨_, rfl⟩
  obtain ⟨w2, hw2⟩ : ∃ x, x = ({ update_ble_whitelist wa with
      ble_state := { (update_ble_whitelist wa).ble_state with
        is_bonded := true, allow_new_bonding := false } } : world_t) := ⟨_, rfl⟩
  have hd2 : w2.ble_state.bonded_devices = wa.ble_state.bonded_devices := by
    rw [hw2]; show (update_ble_whitelist wa).ble_state.bonded_devices = _
    rw [update_ble_whitelist_state]
  have hc2 : w2.ble_state.bonded_count = wa.ble_state.bonded_count := by
    rw [hw2]; show (update_ble_whitelist wa).ble_state.bonded_count = _
    rw [update_ble_whitelist_state]
  have key : gap_event_enc_change env w
      = some (0, update_device_connection_info env w2 desc.peer_id_addr
          desc.peer_id_addr.type) := by
    unfold gap_event_enc_change
    simp only [hfind, hbonded, if_true, hb, Bool.not_false, ← hwa, ← hw2]
  obtain ⟨e1, e2⟩ := update_store_congr env w2 wa desc.peer_id_addr desc.peer_id_addr.type
    hd2 hc2
  rw [← hwa]
  exact ⟨_, key, e1, e2⟩

/-- C17, as amended: on a well-formed store, one successful reconnection to a
peer already stored with priority `p < 10` touches the peer twice, once in the
connect handler and once more in the encryption-change handler that reports
the link as bonded: the priority is `p + 1` after the connect event and
`min (p + 2) 10` after the encryption change.  A record created on first
successful bonding is touched once by the handler that creates it: its
priority is one above the value its slot held (1 on a zeroed slot), capped
at 10. -/
theorem reconnection_touches_twice (env1 env2 : env_t) (w : world_t) (peer : ble_addr_t)
    (b1 : Bool) (status conn_handle : Nat)
    (hfind1 : env1.ble_gap_conn_find = some { peer_id_addr := peer, sec_state_bonded := b1 })
    (hfind2 : env2.ble_gap_conn_find = some { peer_id_addr := peer, sec_state_bonded := true })
    (hok : store_ok w) :
    (∀ p, peer_priority w peer peer.type = some p → p < 10 →
        ∃ w1 w2,
          bleprph_gap_event env1 w (ble_gap_event.connect 0 conn_handle) = some (0, w1) ∧
          bleprph_gap_event env2 w1 (ble_gap_event.enc_change status conn_handle)
            = some (0, w2) ∧
          peer_priority w1 peer peer.type = some (p + 1) ∧
          peer_priority w2 peer peer.type = some (min (p + 2) 10)) ∧
      (∀ slot, is_bonded_device w peer peer.type = false → w.ble_state.bonded_count < 8 →
        w.ble_state.bonded_devices[w.ble_state.bonded_count]? = some slot →
        ∃ w2,
          bleprph_gap_event env2 w (ble_gap_event.enc_change status conn_handle)
            = some (0, w2) ∧
          peer_priority w2 peer peer.type
            = some (if slot.priority < 10 then slot.priority + 1 else slot.priority)) := by
  constructor
  · intro p hp hp10
    have hb := priority_implies_bonded w peer peer.type p hp
    obtain ⟨w1, k1, d1, c1⟩ := gap_event_connect_bonded env1 w conn_handle _ hfind1 hb
    have pp1 : peer_priority w1 peer peer.type = some (p + 1) := by
      rw [peer_priority_congr w1 _ peer peer.type d1 c1,
        touch_priority_step env1 w peer peer.type p hok hp, if_pos hp10]
    have ok1 : store_ok w1 :=
      store_ok_congr w1 _ d1 c1 (update_store_ok env1 w peer peer.type hok)
    have hb1 := priority_implies_bonded w1 peer peer.type _ pp1
    obtain ⟨w2, k2, d2, c2⟩ := gap_event_enc_change_bonded env2 w1 _ hfind2 rfl hb1
    refine ⟨w1, w2, by simp only [bleprph_gap_event, k1], by simp only [bleprph_gap_event, k2],
      pp1, ?_⟩
    rw [peer_priority_congr w2 _ peer peer.type d2 c2,
      touch_priority_step env2 w1 peer peer.type (p + 1) ok1 pp1]
    congr 1
    split_ifs <;> omega
  · intro slot hnew hlt hslot
    obtain ⟨hlen, hcnt, hnd⟩ := hok
    rcases add_cases env2 w peer peer.type hlen hcnt with ⟨hc, _⟩ | ⟨_, _, d, hd, ea, eca2⟩
    · rcases hc with hc | hc
      · rw [hnew] at hc; cases hc
      · simp only [MAX_BONDED_DEVICES] at hc; omega
    have hds : d = slot := by
      rw [hd] at hslot; exact Option.some.inj hslot
    have htl : (w.ble_state.bonded_devices.take w.ble_state.bonded_count).length
        = w.ble_state.bonded_count := by
      simp only [MAX_BONDED_DEVICES] at hlen hcnt; simp; omega
    have htake : (add_bonded_device env2 w peer peer.type).2.ble_state.bonded_devices.take
          (w.ble_state.bonded_count + 1)
        = w.ble_state.bonded_devices.take w.ble_state.bonded_count ++
            [{ d with addr := peer, addr_type := peer.type }] := by
      rw [ea, ← List.singleton_append, ← List.append_assoc]
      exact List.take_left' (by simp [htl])
    have oka2 := add_store_ok env2 w peer peer.type ⟨hlen, hcnt, hnd⟩
    have ppa : peer_priority (add_bonded_device env2 w peer peer.type).2 peer peer.type
        = some slot.priority := by
      unfold peer_priority
      rw [eca2, htake]
      have hnd2 := oka2.2.2
      rw [eca2, htake] at hnd2
      rw [find_unique peer peer.type _ { d with addr := peer, addr_type := peer.type } hnd2
        (by simp) (by simp [same_peer])]
      simp [hds]
    obtain ⟨w2, k2, d2, c2⟩ := gap_event_enc_change_new env2 w _ hfind2 rfl hnew
    refine ⟨w2, by simp only [bleprph_gap_event, k2], ?_⟩
    rw [peer_priority_congr w2 _ peer peer.type d2 c2,
      touch_priority_step env2 _ peer peer.type slot.priority oka2 ppa]

theorem reconnection_touches_twice_witness :
    env_peer_one.ble_gap_conn_find
        = some { peer_id_addr := ⟨0, [1, 2, 3, 4, 5, 6]⟩, sec_state_bonded := true } ∧
      store_ok world_three_peers ∧
      peer_priority world_three_peers ⟨0, [1, 2, 3, 4, 5, 6]⟩ 0 = some 1 ∧ 1 < 10 ∧
      ∃ w1 w2,
        bleprph_gap_event env_peer_one world_three_peers (ble_gap_event.connect 0 1)
          = some (0, w1) ∧
        bleprph_gap_event env_peer_one w1 (ble_gap_event.enc_change 0 1) = some (0, w2) ∧
        peer_priority w1 ⟨0, [1, 2, 3, 4, 5, 6]⟩ 0 = some (1 + 1) ∧
        peer_priority w2 ⟨0, [1, 2, 3, 4, 5, 6]⟩ 0 = some (min (1 + 2) 10) :=
  ⟨rfl, by decide, by decide, by decide,
    (reconnection_touches_twice env_peer_one env_peer_one world_three_peers
      ⟨0, [1, 2, 3, 4, 5, 6]⟩ true 0 1 rfl rfl (by decide)).1 1 (by decide) (by decide)⟩

/-- C17, the claim as stated fails: a stored peer of priority 1 has priority 3,
not 2, after one reconnection (connect event, then encryption change reporting
the link as bonded); and a peer bonded for the first time on an empty store
already has priority 1, not 0. -/
theorem reconnection_counts_twice :
    peer_priority world_three_peers ⟨0, [1, 2, 3, 4, 5, 6]⟩ 0 = some 1 ∧
      (run_link_steps world_three_peers
          [link_step.gap_event env_peer_one (ble_gap_event.connect 0 1),
            link_step.gap_event env_peer_one (ble_gap_event.enc_change 0 1)]).map
          (fun w => peer_priority w ⟨0, [1, 2, 3, 4, 5, 6]⟩ 0)
        = some (some 3) ∧
      is_bonded_device world_init ⟨0, [1, 2, 3, 4, 5, 6]⟩ 0 = false ∧
      (run_link_steps world_init
          [link_step.gap_event env_peer_one (ble_gap_event.connect 0 1),
            link_step.gap_event env_peer_one (ble_gap_event.enc_change 0 1)]).map
          (fun w => peer_priority w ⟨0, [1, 2, 3, 4, 5, 6]⟩ 0)
        = some (some 1) := by
  decide

/-! ## Theorems: the end of the pairing window, the manual trigger, the reset -/

theorem update_ble_whitelist_eq (w : world_t) :
    update_ble_whitelist w = { w with calls := w.calls ++ whitelist_calls w } := by
  unfold update_ble_whitelist whitelist_calls
  dsimp only
  split_ifs <;> simp [world_t.log]

/-- C18, as amended: when the pairing window leaves the open state by timeout
(the check finds the timer active and at least 60000 ms elapsed), the timer
flag is cleared; if `is_bonded` is true, `allow_new_bonding` becomes false and
advertising is switched to restricted mode (stop, allow-list refreshed,
`start_bonded_advertising`, which asks for filter policy 3 when the transport
accepts the advertising fields); if `is_bonded` is false, nothing else
changes: `allow_new_bonding` keeps its value and no call is made. -/
theorem pairing_window_expiry (env : env_t) (w : world_t)
    (hactive : w.allow_new_bonding_timeout_active = true)
    (helapsed : (((env.xTaskGetTickCount + 2 ^ 32 - w.allow_new_bonding_start_time) % 2 ^ 32) *
      env.portTICK_PERIOD_MS) % 2 ^ 32 ≥ ALLOW_NEW_BONDING_TIMEOUT_MS) :
    (button_task_timeout_check env w).allow_new_bonding_timeout_active = false ∧
      (w.ble_state.is_bonded = true →
        (button_task_timeout_check env w).ble_state.allow_new_bonding = false ∧
        (button_task_timeout_check env w).calls
          = w.calls ++ ext_call.ble_gap_adv_stop ::
            (whitelist_calls w ++ start_bonded_advertising_calls env) ∧
        (env.ble_gap_adv_set_fields_rc = 0 → env.ble_gap_adv_rsp_set_fields_rc = 0 →
          ext_call.ble_gap_adv_start 3 ∈ start_bonded_advertising_calls env)) ∧
      (w.ble_state.is_bonded = false →
        button_task_timeout_check env w = { w with allow_new_bonding_timeout_active := false } ∧
        (button_task_timeout_check env w).ble_state.allow_new_bonding
          = w.ble_state.allow_new_bonding ∧
        (button_task_timeout_check env w).calls = w.calls) := by
  by_cases hb : w.ble_state.is_bonded = true
  · have e : button_task_timeout_check env w
        = start_bonded_advertising env
          (update_ble_whitelist
            ({ { w with allow_new_bonding_timeout_active := false } with
                ble_state := { w.ble_state with allow_new_bonding := false } }.log
              ext_call.ble_gap_adv_stop)) := by
      unfold button_task_timeout_check
      simp only [hactive, if_true, helapsed, hb]
    rw [e, start_bonded_advertising_eq, update_ble_whitelist_eq]
    refine ⟨rfl, fun _ => ⟨rfl, ?_, ?_⟩, fun h => absurd hb (by rw [h]; simp)⟩
    · simp [world_t.log, whitelist_calls]
    · intro h1 h2
      simp [start_bonded_advertising_calls, h1, h2]
  · have hb2 : w.ble_state.is_bonded = false := by simpa using hb
    have e : button_task_timeout_check env w
        = { w with allow_new_bonding_timeout_active := false } := by
      unfold button_task_timeout_check
      simp only [hactive, if_true, helapsed, hb2, Bool.false_eq_true, if_false]
    rw [e]
    exact ⟨rfl, fun h => absurd h hb, fun _ => ⟨rfl, rfl, rfl⟩⟩

theorem pairing_window_expiry_witness :
    world_window_open.allow_new_bonding_timeout_active = true ∧
      (((({ env_ok with xTaskGetTickCount := 6000 } : env_t).xTaskGetTickCount + 2 ^ 32 -
          world_window_open.allow_new_bonding_start_time) % 2 ^ 32) *
        ({ env_ok with xTaskGetTickCount := 6000 } : env_t).portTICK_PERIOD_MS) % 2 ^ 32
          ≥ ALLOW_NEW_BONDING_TIMEOUT_MS ∧
      (button_task_timeout_check { env_ok with xTaskGetTickCount := 6000 }
        world_window_open).allow_new_bonding_timeout_active = false :=
  ⟨by decide, by decide,
    (pairing_window_expiry { env_ok with xTaskGetTickCount := 6000 } world_window_open
      (by decide) (by decide)).1⟩

/-- C18, the claim as stated fails: with no peer bonded, the window opened by
`PAIR` at tick 0 times out at tick 6000 (10 ms ticks) and `allow_new_bonding`
is still true. -/
theorem window_expiry_keeps_bonding_open :
    world_window_open.ble_state.is_bonded = false ∧
      world_window_open.allow_new_bonding_timeout_active = true ∧
      (button_task_timeout_check { env_ok with xTaskGetTickCount := 6000 }
        world_window_open).allow_new_bonding_timeout_active = false ∧
      (button_task_timeout_check { env_ok with xTaskGetTickCount := 6000 }
        world_window_open).ble_state.allow_new_bonding = true := by
  decide

theorem button_task_medium_press_eq (env : env_t) (w : world_t) :
    button_task_medium_press env w
      = { w with
          ble_state := { w.ble_state with allow_new_bonding := true },
          allow_new_bonding_timeout_active := true,
          allow_new_bonding_start_time := env.xTaskGetTickCount,
          calls := w.calls ++ ext_call.ble_gap_adv_stop :: startAdvertising_calls env } := by
  unfold button_task_medium_press
  simp only [startAdvertising_eq]
  simp [world_t.log]

/-- C19, as amended: after a manual bonding trigger is handled, be it the
`PAIR` command or the 2 s button hold, in any link state, the pairing window
is open (`allow_new_bonding` true, the timer active from the current tick) and
unrestricted advertising is started (stop, then `startAdvertising`); the link
flags are left as they were: `active_scan_mode` and `reconnect_mode` keep
their values and neither a scan nor a connection attempt is cancelled. -/
theorem manual_trigger_opens_window (env : env_t) (w : world_t)
    (hbuf : w.wifi_cred_buf.length = WIFI_CRED_MAX_LEN) :
    (∃ w', gatt_svc_access env w (cred_write str_PAIR) = some (0, w') ∧
        w'.ble_state.allow_new_bonding = true ∧
        w'.allow_new_bonding_timeout_active = true ∧
        w'.allow_new_bonding_start_time = env.xTaskGetTickCount ∧
        w'.calls = w.calls ++ ext_call.ble_gap_adv_stop ::
          (startAdvertising_calls env ++ status_notification_calls env w str_PAIRING_MODE) ∧
        w'.ble_state.active_scan_mode = w.ble_state.active_scan_mode ∧
        w'.ble_state.reconnect_mode = w.ble_state.reconnect_mode) ∧
      ((button_task_medium_press env w).ble_state.allow_new_bonding = true ∧
        (button_task_medium_press env w).allow_new_bonding_timeout_active = true ∧
        (button_task_medium_press env w).allow_new_bonding_start_time
          = env.xTaskGetTickCount ∧
        (button_task_medium_press env w).calls
          = w.calls ++ ext_call.ble_gap_adv_stop :: startAdvertising_calls env ∧
        (button_task_medium_press env w).ble_state.active_scan_mode
          = w.ble_state.active_scan_mode ∧
        (button_task_medium_press env w).ble_state.reconnect_mode
          = w.ble_state.reconnect_mode) ∧
      ext_call.ble_gap_disc_cancel ∉
        ext_call.ble_gap_adv_stop ::
          (startAdvertising_calls env ++ status_notification_calls env w str_PAIRING_MODE) := by
  have hd := gatt_cred_dispatch_cases env w str_PAIR hbuf (by decide)
  rw [if_neg (by decide), if_pos rfl, gatt_cmd_pair_eq] at hd
  refine ⟨⟨_, hd, rfl, rfl, rfl, rfl, rfl, rfl⟩, ?_, ?_⟩
  · rw [button_task_medium_press_eq]
    exact ⟨rfl, rfl, rfl, rfl, rfl, rfl⟩
  · unfold startAdvertising_calls status_notification_calls
    split_ifs <;> simp

theorem manual_trigger_opens_window_witness :
    world_linked.wifi_cred_buf.length = WIFI_CRED_MAX_LEN ∧
      (button_task_medium_press env_ok world_linked).ble_state.allow_new_bonding = true ∧
      (button_task_medium_press env_ok world_linked).allow_new_bonding_timeout_active = true ∧
      (button_task_medium_press env_ok world_linked).allow_new_bonding_start_time
        = env_ok.xTaskGetTickCount ∧
      (button_task_medium_press env_ok world_linked).calls
        = world_linked.calls ++ ext_call.ble_gap_adv_stop :: startAdvertising_calls env_ok ∧
      (button_task_medium_press env_ok world_linked).ble_state.active_scan_mode
        = world_linked.ble_state.active_scan_mode ∧
      (button_task_medium_press env_ok world_linked).ble_state.reconnect_mode
        = world_linked.ble_state.reconnect_mode :=
  ⟨world_linked_buf,
    (manual_trigger_opens_window env_ok world_linked world_linked_buf).2.1⟩

/-- A pass of the `button_task` loop with the button stable down, held for at
least 2 s and less than 5 s, the 2 s hold not handled yet: the pass runs the
time-out check, the 2 s block and the delay. -/
theorem button_task_iteration_medium (env : env_t) (w : world_t) (loc : button_locals)
    (hlast : loc.last_state = 0) (hstable : loc.stable_state = 0)
    (hdeb : ((env.xTaskGetTickCount + 2 ^ 32 - loc.last_change) % 2 ^ 32
      * env.portTICK_PERIOD_MS) % 2 ^ 32 > BUTTON_DEBOUNCE_MS)
    (hlo : ((env.xTaskGetTickCount + 2 ^ 32 - loc.press_start_time) % 2 ^ 32
      * env.portTICK_PERIOD_MS) % 2 ^ 32 ≥ 2000)
    (hhi : ((env.xTaskGetTickCount + 2 ^ 32 - loc.press_start_time) % 2 ^ 32
      * env.portTICK_PERIOD_MS) % 2 ^ 32 < 5000)
    (hmed : loc.medium_press_detected = false) :
    button_task_iteration env 0 w loc
      = ((button_task_medium_press env (button_task_timeout_check env w)).log
          (ext_call.vTaskDelay 10),
        { loc with medium_press_detected := true }) := by
  have h5 : ¬ ((env.xTaskGetTickCount + 2 ^ 32 - loc.press_start_time) % 2 ^ 32
      * env.portTICK_PERIOD_MS) % 2 ^ 32 ≥ 5000 := not_le.mpr hhi
  unfold button_task_iteration
  simp only [hlast, hstable, ne_eq, not_true_eq_false, if_false, if_true, hdeb, hlo, hhi, hmed,
    h5, Bool.not_false, and_self, and_true, and_false, true_and]

/-- A pass of the `button_task` loop with the button stable down, held for at
least 5 s, the 5 s hold not handled yet: the pass runs the time-out check, the
5 s block and the delay. -/
theorem button_task_iteration_long (env : env_t) (w : world_t) (loc : button_locals)
    (hlast : loc.last_state = 0) (hstable : loc.stable_state = 0)
    (hdeb : ((env.xTaskGetTickCount + 2 ^ 32 - loc.last_change) % 2 ^ 32
      * env.portTICK_PERIOD_MS) % 2 ^ 32 > BUTTON_DEBOUNCE_MS)
    (hheld : ((env.xTaskGetTickCount + 2 ^ 32 - loc.press_start_time) % 2 ^ 32
      * env.portTICK_PERIOD_MS) % 2 ^ 32 ≥ 5000)
    (hlong : loc.long_press_detected = false) :
    button_task_iteration env 0 w loc
      = ((button_task_long_press env (button_task_timeout_check env w)).log
          (ext_call.vTaskDelay 10),
        { loc with long_press_detected := true }) := by
  have h5 : ¬ ((env.xTaskGetTickCount + 2 ^ 32 - loc.press_start_time) % 2 ^ 32
      * env.portTICK_PERIOD_MS) % 2 ^ 32 < 5000 := not_lt.mpr hheld
  unfold button_task_iteration
  simp only [hlast, hstable, ne_eq, not_true_eq_false, if_false, if_true, hdeb, hheld, hlong,
    h5, Bool.not_false, and_self, and_true, and_false, true_and]

theorem button_task_long_press_eq (env : env_t) (w : world_t)
    (herase : env.nvs_flash_erase_ok = true) :
    button_task_long_press env w
      = { w with
          ble_state := { w.ble_state with
            is_bonded := false, has_irk := false, allow_new_bonding := true, bonded_count := 0,
            bonded_devices := List.replicate MAX_BONDED_DEVICES bonded_device_zero },
          allow_new_bonding_timeout_active := false,
          calls := w.calls ++ [ext_call.nvs_flash_erase, ext_call.nvs_flash_init,
              ext_call.ble_gap_wl_set [], ext_call.ble_gap_adv_stop] ++
            startAdvertising_calls env ++
            [ext_call.qrcode_display_init, ext_call.qrcode_display_generate_and_show] } := by
  unfold button_task_long_press
  simp only [herase, if_true, startAdvertising_eq, display_qr_code_callback]
  simp [world_t.log]

/-- C19, the claim as stated fails: with the active scan of a reconnection
running (`active_scan_mode` and `reconnect_mode` true), a pass of `button_task`
that sees the button held for 2.5 s opens the window and restarts
advertising, and afterwards both flags are still true. -/
theorem manual_trigger_leaves_scan_running :
    world_scanning.ble_state.active_scan_mode = true ∧
      world_scanning.ble_state.reconnect_mode = true ∧
      (button_task_iteration env_tick_250 0 world_scanning locals_pressed).2.medium_press_detected
        = true ∧
      (button_task_iteration env_tick_250 0 world_scanning locals_pressed).1.ble_state.allow_new_bonding
        = true ∧
      (button_task_iteration env_tick_250 0 world_scanning locals_pressed).1.allow_new_bonding_timeout_active
        = true ∧
      (button_task_iteration env_tick_250 0 world_scanning locals_pressed).1.ble_state.active_scan_mode
        = true ∧
      (button_task_iteration env_tick_250 0 world_scanning locals_pressed).1.ble_state.reconnect_mode
        = true ∧
      (button_task_iteration env_tick_250 0 world_scanning locals_pressed).1.calls
        = world_scanning.calls ++ [ext_call.ble_gap_adv_stop, ext_call.ble_gap_adv_set_fields,
            ext_call.ble_gap_adv_rsp_set_fields, ext_call.ble_gap_adv_start 0,
            ext_call.vTaskDelay 10] := by
  decide

/-- C20: a pass of `button_task` that sees the button stable down and held for
at least 5 s, the 5 s hold not handled yet and the erase of the storage
succeeding, marks the hold as handled and leaves the bonded store empty
(`bonded_count = 0`, every slot zeroed, `is_bonded_device` false for every
address), `is_bonded` false, the pairing-window timer inactive; after the
time-out check it erases and re-initialises the storage, clears the allow-list
(`ble_gap_wl_set(NULL, 0)`), starts unrestricted advertising (stop, then
`startAdvertising`) and regenerates the pairing-identifier display. -/
theorem full_reset (env : env_t) (w : world_t) (loc : button_locals)
    (hlast : loc.last_state = 0) (hstable : loc.stable_state = 0)
    (hdeb : ((env.xTaskGetTickCount + 2 ^ 32 - loc.last_change) % 2 ^ 32
      * env.portTICK_PERIOD_MS) % 2 ^ 32 > BUTTON_DEBOUNCE_MS)
    (hheld : ((env.xTaskGetTickCount + 2 ^ 32 - loc.press_start_time) % 2 ^ 32
      * env.portTICK_PERIOD_MS) % 2 ^ 32 ≥ 5000)
    (hlong : loc.long_press_detected = false)
    (herase : env.nvs_flash_erase_ok = true) :
    (button_task_iteration env 0 w loc).2.long_press_detected = true ∧
      (button_task_iteration env 0 w loc).1.ble_state.bonded_count = 0 ∧
      (∀ addr addr_type,
        is_bonded_device (button_task_iteration env 0 w loc).1 addr addr_type = false) ∧
      (button_task_iteration env 0 w loc).1.ble_state.bonded_devices
        = List.replicate MAX_BONDED_DEVICES bonded_device_zero ∧
      (button_task_iteration env 0 w loc).1.ble_state.is_bonded = false ∧
      (button_task_iteration env 0 w loc).1.ble_state.allow_new_bonding = true ∧
      (button_task_iteration env 0 w loc).1.allow_new_bonding_timeout_active = false ∧
      (button_task_iteration env 0 w loc).1.calls
        = (button_task_timeout_check env w).calls ++
          [ext_call.nvs_flash_erase, ext_call.nvs_flash_init,
            ext_call.ble_gap_wl_set [], ext_call.ble_gap_adv_stop] ++
          startAdvertising_calls env ++
          [ext_call.qrcode_display_init, ext_call.qrcode_display_generate_and_show,
            ext_call.vTaskDelay 10] := by
  rw [button_task_iteration_long env w loc hlast hstable hdeb hheld hlong,
    button_task_long_press_eq env _ herase]
  refine ⟨rfl, rfl, ?_, rfl, rfl, rfl, rfl, ?_⟩
  · intro addr addr_type
    simp [is_bonded_device, world_t.log]
  · simp [world_t.log]

theorem full_reset_witness :
    (button_task_iteration env_tick_600 0 world_three_peers locals_held).2.long_press_detected
        = true ∧
      (button_task_iteration env_tick_600 0 world_three_peers locals_held).1.ble_state.bonded_count
        = 0 ∧
      (∀ addr addr_type,
        is_bonded_device (button_task_iteration env_tick_600 0 world_three_peers locals_held).1
          addr addr_type = false) ∧
      (button_task_iteration env_tick_600 0 world_three_peers locals_held).1.ble_state.bonded_devices
        = List.replicate MAX_BONDED_DEVICES bonded_device_zero ∧
      (button_task_iteration env_tick_600 0 world_three_peers locals_held).1.ble_state.is_bonded
        = false ∧
      (button_task_iteration env_tick_600 0 world_three_peers locals_held).1.ble_state.allow_new_bonding
        = true ∧
      (button_task_iteration env_tick_600 0 world_three_peers
        locals_held).1.allow_new_bonding_timeout_active = false ∧
      (button_task_iteration env_tick_600 0 world_three_peers locals_held).1.calls
        = (button_task_timeout_check env_tick_600 world_three_peers).calls ++
          [ext_call.nvs_flash_erase, ext_call.nvs_flash_init,
            ext_call.ble_gap_wl_set [], ext_call.ble_gap_adv_stop] ++
          startAdvertising_calls env_tick_600 ++
          [ext_call.qrcode_display_init, ext_call.qrcode_display_generate_and_show,
            ext_call.vTaskDelay 10] :=
  full_reset env_tick_600 world_three_peers locals_held rfl rfl (by decide) (by decide) rfl rfl

/-! ## Theorems: boot -/

/-- What a load that stays inside the array leaves behind. -/
theorem load_some (env : env_t) (nvs : nvs_ble_bond) (w wl : world_t)
    (h : load_bonded_devices_from_nvs env nvs w = some wl) :
    wl.calls = w.calls ∧
      wl.ble_state.bonded_count = (load_bonded_devices_read env nvs w).ble_state.bonded_count ∧
      wl.ble_state.is_bonded = decide (0 < wl.ble_state.bonded_count) ∧
      wl.ble_state.allow_new_bonding = w.ble_state.allow_new_bonding ∧
      wl.allow_new_bonding_timeout_active = w.allow_new_bonding_timeout_active ∧
      wl.ble_state.bonded_count ≤ MAX_BONDED_DEVICES := by
  unfold load_bonded_devices_from_nvs at h
  dsimp only at h
  split_ifs at h with h1 h2
  · rw [← Option.some.inj h]
    refine ⟨?_, rfl, ?_, ?_, ?_, h2⟩ <;>
      first
      | rfl
      | (unfold load_bonded_devices_read; dsimp only; split_ifs <;>
          simp [sort_bonded_devices_by_priority])
  · rw [← Option.some.inj h]
    refine ⟨?_, rfl, ?_, ?_, ?_, by omega⟩ <;>
      first
      | rfl
      | (unfold load_bonded_devices_read; dsimp only; split_ifs <;> simp)

theorem load_defined (env : env_t) (nvs : nvs_ble_bond) (w : world_t)
    (hbound : (load_bonded_devices_read env nvs w).ble_state.bonded_count
      ≤ MAX_BONDED_DEVICES) :
    ∃ wl, load_bonded_devices_from_nvs env nvs w = some wl := by
  unfold load_bonded_devices_from_nvs
  dsimp only
  split_ifs
  · exact ⟨_, rfl⟩
  · exact ⟨_, rfl⟩

theorem load_read_count (env : env_t) (nvs : nvs_ble_bond) (w : world_t) :
    (load_bonded_devices_read env nvs w).ble_state.bonded_count
      = (if env.nvs_open_ok then nvs_get_u8_bonded_count nvs w.ble_state.bonded_count
          else w.ble_state.bonded_count) := by
  unfold load_bonded_devices_read
  dsimp only
  split_ifs <;> rfl

/-- C21: when `bleprph_on_sync` runs on a store whose loaded count fits the
eight slots (its two `assert`s passing), the store is loaded first and
`is_bonded` set from the loaded count; then, if the loaded store holds at
least one record, the allow-list is set and restricted advertising started
(`start_bonded_advertising`: filter policy 3 once the transport accepts the
advertising fields), and otherwise unrestricted advertising
(`startAdvertising`: filter policy 0); the display follows.  A persisted count
of 0, a first boot without persisted count, and a store that cannot be opened
at first boot all give the empty store. -/
theorem boot_advertising (env : env_t) (sync : sync_env_t) (w : world_t)
    (hinfer : sync.ble_hs_id_infer_auto_rc = 0)
    (hensure : sync.ble_hs_util_ensure_addr_rc = 0)
    (hbound : (load_bonded_devices_read env sync.nvs w).ble_state.bonded_count
      ≤ MAX_BONDED_DEVICES) :
    ∃ wl w', load_bonded_devices_from_nvs env sync.nvs w = some wl ∧
      bleprph_on_sync env sync w = some w' ∧
      w'.ble_state = wl.ble_state ∧
      (0 < w'.ble_state.bonded_count →
        w'.calls = w.calls ++ [ext_call.ble_att_set_preferred_mtu 247, ext_call.vTaskDelay 100] ++
            whitelist_calls w' ++ start_bonded_advertising_calls env ++
            [ext_call.qrcode_display_init, ext_call.qrcode_display_generate_and_show] ∧
          (env.ble_gap_adv_set_fields_rc = 0 → env.ble_gap_adv_rsp_set_fields_rc = 0 →
            start_bonded_advertising_calls env
              = [ext_call.ble_gap_adv_stop, ext_call.ble_gap_adv_set_fields,
                  ext_call.ble_gap_adv_rsp_set_fields, ext_call.ble_gap_adv_start 3])) ∧
      (w'.ble_state.bonded_count = 0 →
        w'.calls = w.calls ++ [ext_call.ble_att_set_preferred_mtu 247, ext_call.vTaskDelay 100] ++
            startAdvertising_calls env ++
            [ext_call.qrcode_display_init, ext_call.qrcode_display_generate_and_show] ∧
          (env.ble_gap_adv_set_fields_rc = 0 → env.ble_gap_adv_rsp_set_fields_rc = 0 →
            startAdvertising_calls env
              = [ext_call.ble_gap_adv_set_fields, ext_call.ble_gap_adv_rsp_set_fields,
                  ext_call.ble_gap_adv_start 0])) ∧
      (env.nvs_open_ok = true → sync.nvs.bonded_count = some 0 →
        w'.ble_state.bonded_count = 0) ∧
      ((env.nvs_open_ok = false ∨ sync.nvs.bonded_count = none) →
        w'.ble_state.bonded_count = w.ble_state.bonded_count) := by
  obtain ⟨w1, hw1⟩ := load_defined env sync.nvs w hbound
  obtain ⟨hcalls, hcount, hflag, _, _, _⟩ := load_some env sync.nvs w w1 hw1
  have hread := load_read_count env sync.nvs w
  have hadv3 : env.ble_gap_adv_set_fields_rc = 0 → env.ble_gap_adv_rsp_set_fields_rc = 0 →
      start_bonded_advertising_calls env
        = [ext_call.ble_gap_adv_stop, ext_call.ble_gap_adv_set_fields,
            ext_call.ble_gap_adv_rsp_set_fields, ext_call.ble_gap_adv_start 3] := by
    intro h1 h2; simp [start_bonded_advertising_calls, h1, h2]
  have hadv0 : env.ble_gap_adv_set_fields_rc = 0 → env.ble_gap_adv_rsp_set_fields_rc = 0 →
      startAdvertising_calls env
        = [ext_call.ble_gap_adv_set_fields, ext_call.ble_gap_adv_rsp_set_fields,
            ext_call.ble_gap_adv_start 0] := by
    intro h1 h2; simp [startAdvertising_calls, h1, h2]
  have hc0 : env.nvs_open_ok = true → sync.nvs.bonded_count = some 0 →
      w1.ble_state.bonded_count = 0 := by
    intro h1 h2
    rw [hcount, hread, if_pos h1]
    simp [nvs_get_u8_bonded_count, h2]
  have hcw : (env.nvs_open_ok = false ∨ sync.nvs.bonded_count = none) →
      w1.ble_state.bonded_count = w.ble_state.bonded_count := by
    intro h
    rw [hcount, hread]
    rcases h with h | h
    · simp [h]
    · simp [nvs_get_u8_bonded_count, h]
  by_cases hpos : 0 < w1.ble_state.bonded_count
  · have hb : w1.ble_state.is_bonded = true := by rw [hflag]; simpa using hpos
    have key : bleprph_on_sync env sync w
        = some { w1 with calls := w.calls ++
            [ext_call.ble_att_set_preferred_mtu 247, ext_call.vTaskDelay 100] ++
            whitelist_calls w1 ++ start_bonded_advertising_calls env ++
            [ext_call.qrcode_display_init, ext_call.qrcode_display_generate_and_show] } := by
      unfold bleprph_on_sync
      rw [hw1]
      simp only [hinfer, hensure, ne_eq, not_true_eq_false, if_false]
      simp [world_t.log, hb, start_bonded_advertising_eq, update_ble_whitelist_eq,
        display_qr_code_callback, whitelist_calls, hcalls]
    rw [key]
    refine ⟨w1, _, hw1, rfl, rfl, fun _ => ⟨rfl, hadv3⟩, fun h => ?_, hc0, hcw⟩
    have : w1.ble_state.bonded_count = 0 := h
    omega
  · have hz : w1.ble_state.bonded_count = 0 := by omega
    have hb : w1.ble_state.is_bonded = false := by rw [hflag]; simp [hz]
    have key : bleprph_on_sync env sync w
        = some { w1 with calls := w.calls ++
            [ext_call.ble_att_set_preferred_mtu 247, ext_call.vTaskDelay 100] ++
            startAdvertising_calls env ++
            [ext_call.qrcode_display_init, ext_call.qrcode_display_generate_and_show] } := by
      unfold bleprph_on_sync
      rw [hw1]
      simp only [hinfer, hensure, ne_eq, not_true_eq_false, if_false]
      simp [world_t.log, hb, startAdvertising_eq, display_qr_code_callback, hcalls]
    rw [key]
    refine ⟨w1, _, hw1, rfl, rfl, fun h => ?_, fun _ => ⟨rfl, hadv0⟩, hc0, hcw⟩
    have : 0 < w1.ble_state.bonded_count := h
    omega

theorem boot_advertising_witness :
    (sync_ok nvs_blank).ble_hs_id_infer_auto_rc = 0 ∧
      (sync_ok nvs_blank).ble_hs_util_ensure_addr_rc = 0 ∧
      (load_bonded_devices_read env_ok (sync_ok nvs_blank).nvs world_init).ble_state.bonded_count
        ≤ MAX_BONDED_DEVICES ∧
      ∃ w', bleprph_on_sync env_ok (sync_ok nvs_blank) world_init = some w' ∧
        w'.ble_state.bonded_count = 0 ∧
        w'.calls = world_init.calls ++
            [ext_call.ble_att_set_preferred_mtu 247, ext_call.vTaskDelay 100] ++
            startAdvertising_calls env_ok ++
            [ext_call.qrcode_display_init, ext_call.qrcode_display_generate_and_show] := by
  obtain ⟨_, w', _, h1, _, _, h4, _, h6⟩ :=
    boot_advertising env_ok (sync_ok nvs_blank) world_init rfl rfl (by decide)
  have hz : w'.ble_state.bonded_count = 0 := h6 (Or.inr rfl)
  exact ⟨rfl, rfl, by decide, w', h1, hz, (h4 hz).1⟩

/-- Two boots: on a blank store the device advertises without filter; on the
store of three peers it sets the allow-list in priority order and advertises
with filter policy 3. -/
theorem boot_run :
    (bleprph_on_sync env_ok (sync_ok nvs_blank) world_init).map
        (fun w => (w.ble_state.is_bonded, w.ble_state.bonded_count, w.calls))
      = some (false, 0,
          [ext_call.ble_att_set_preferred_mtu 247, ext_call.vTaskDelay 100,
            ext_call.ble_gap_adv_set_fields, ext_call.ble_gap_adv_rsp_set_fields,
            ext_call.ble_gap_adv_start 0,
            ext_call.qrcode_display_init, ext_call.qrcode_display_generate_and_show]) ∧
      (bleprph_on_sync env_ok (sync_ok nvs_three_peers) world_init).map
        (fun w => (w.ble_state.is_bonded, w.ble_state.bonded_count, w.calls))
      = some (true, 3,
          [ext_call.ble_att_set_preferred_mtu 247, ext_call.vTaskDelay 100,
            ext_call.ble_gap_wl_set [],
            ext_call.ble_gap_wl_set
              [⟨0, [2, 2, 3, 4, 5, 6]⟩, ⟨0, [3, 2, 3, 4, 5, 6]⟩, ⟨0, [1, 2, 3, 4, 5, 6]⟩],
            ext_call.ble_gap_adv_stop,
            ext_call.ble_gap_adv_set_fields, ext_call.ble_gap_adv_rsp_set_fields,
            ext_call.ble_gap_adv_start 3,
            ext_call.qrcode_display_init, ext_call.qrcode_display_generate_and_show]) := by
  decide

/-! ## Theorems: the access gate -/

/-- C22: on each of the two notify-only characteristics (scan result and
status), in every state and whatever the request carries, a characteristic
read is answered with `BLE_ATT_ERR_READ_NOT_PERMITTED` and a characteristic
write with `BLE_ATT_ERR_WRITE_NOT_PERMITTED`, and the whole state (the
subscription flags and the link state with it) is left as it was. -/
theorem notify_only_channels_deny (env : env_t) (w : world_t) (dsc : Option Nat)
    (om : List Nat) :
    gatt_svc_access env w
        { op := gatt_access_op.READ_CHR, chr := some WIFI_SCAN_CHR_UUID, dsc := dsc, om := om }
      = some (BLE_ATT_ERR_READ_NOT_PERMITTED, w) ∧
    gatt_svc_access env w
        { op := gatt_access_op.WRITE_CHR, chr := some WIFI_SCAN_CHR_UUID, dsc := dsc, om := om }
      = some (BLE_ATT_ERR_WRITE_NOT_PERMITTED, w) ∧
    gatt_svc_access env w
        { op := gatt_access_op.READ_CHR, chr := some STATUS_CHR_UUID, dsc := dsc, om := om }
      = some (BLE_ATT_ERR_READ_NOT_PERMITTED, w) ∧
    gatt_svc_access env w
        { op := gatt_access_op.WRITE_CHR, chr := some STATUS_CHR_UUID, dsc := dsc, om := om }
      = some (BLE_ATT_ERR_WRITE_NOT_PERMITTED, w) ∧
    BLE_ATT_ERR_READ_NOT_PERMITTED = 2 ∧ BLE_ATT_ERR_WRITE_NOT_PERMITTED = 3 := by
  refine ⟨?_, ?_, ?_, ?_, rfl, rfl⟩ <;>
    simp [gatt_svc_access, WIFI_SCAN_CHR_UUID, STATUS_CHR_UUID, WIFI_CRED_CHR_UUID,
      BLE_GATT_DSC_CLT_CFG_UUID16]

theorem gatt_cred_dispatch_rc (env : env_t) (w : world_t) (r : Nat × world_t)
    (h : gatt_cred_dispatch env w = some r) : r.1 = 0 := by
  unfold gatt_cred_dispatch at h
  split_ifs at h
  · rw [← Option.some.inj h]
  · rw [← Option.some.inj h]
  · cases hc : wifi_manager_connect env w w.wifi_cred_buf with
    | none => rw [hc] at h; cases h
    | some w1 =>
      rw [hc] at h
      rw [← Option.some.inj h]
  · rw [← Option.some.inj h]

theorem wifi_manager_connect_returns (env : env_t) (w : world_t) (credentials : List Nat)
    (hcfg : env.esp_wifi_set_config_ok = true) :
    ∃ w', wifi_manager_connect env w credentials = some w' := by
  unfold wifi_manager_connect
  simp only [hcfg, Bool.not_true, Bool.false_eq_true, if_false]
  cases env.cJSON_Parse (cstr credentials) with
  | none => dsimp only; split_ifs <;> exact ⟨_, rfl⟩
  | some root =>
    obtain ⟨ssid, password⟩ := root
    cases ssid with
    | none => dsimp only; split_ifs <;> exact ⟨_, rfl⟩
    | some o =>
      cases o with
      | none => dsimp only; split_ifs <;> exact ⟨_, rfl⟩
      | some ssid => dsimp only; split_ifs <;> exact ⟨_, rfl⟩

/-- C23: a write to the credential characteristic whose payload is longer than
127 bytes is answered with the ATT error `BLE_ATT_ERR_UNLIKELY` and leaves the
whole state as it was, call log included: the command dispatch is not reached
(no scan, no change of the pairing window, no connect request, no status
notification).  A write of at most 127 bytes is copied into the buffer and
handed to the command dispatch; whenever the callback returns, it returns 0,
and it does return unless `ESP_ERROR_CHECK(esp_wifi_set_config(..))` aborts
inside `wifi_manager_connect`. -/
theorem credential_write_length_gate (env : env_t) (w : world_t) (payload : List Nat) :
    (127 < payload.length →
        gatt_svc_access env w (cred_write payload) = some (BLE_ATT_ERR_UNLIKELY, w) ∧
        BLE_ATT_ERR_UNLIKELY ≠ 0) ∧
      (payload.length ≤ 127 →
        gatt_svc_access env w (cred_write payload)
          = gatt_cred_dispatch env (cred_buffered w payload) ∧
        (∀ r, gatt_svc_access env w (cred_write payload) = some r → r.1 = 0) ∧
        (env.esp_wifi_set_config_ok = true →
          ∃ w', gatt_svc_access env w (cred_write payload) = some (0, w'))) := by
  constructor
  · intro hlong
    have h1 : payload.length > WIFI_CRED_MAX_LEN - 1 := by
      simp only [WIFI_CRED_MAX_LEN]; omega
    refine ⟨?_, by decide⟩
    simp only [gatt_svc_access, cred_write, write_flat_buffer, h1, if_true]
    simp [WIFI_CRED_CHR_UUID, BLE_GATT_DSC_CLT_CFG_UUID16, WIFI_SCAN_CHR_UUID,
      BLE_ATT_ERR_INVALID_ATTR_VALUE_LEN]
  · intro hshort
    have e := gatt_cred_write_eq env w payload (by simpa [WIFI_CRED_MAX_LEN] using hshort)
    refine ⟨e, ?_, ?_⟩
    · intro r hr
      rw [e] at hr
      exact gatt_cred_dispatch_rc env _ r hr
    · intro hcfg
      rw [e]
      unfold gatt_cred_dispatch
      split_ifs
      · exact ⟨_, rfl⟩
      · exact ⟨_, rfl⟩
      · obtain ⟨w', hw'⟩ := wifi_manager_connect_returns env (cred_buffered w payload)
          (cred_buffered w payload).wifi_cred_buf hcfg
        exact ⟨w', by rw [hw']; rfl⟩
      · exact ⟨_, rfl⟩

theorem credential_write_length_gate_witness :
    127 < (List.replicate 128 65).length ∧
      gatt_svc_access env_ok world_linked (cred_write (List.replicate 128 65))
        = some (BLE_ATT_ERR_UNLIKELY, world_linked) ∧
      str_garbage.length ≤ 127 ∧
      ∃ w', gatt_svc_access env_ok world_linked (cred_write str_garbage) = some (0, w') :=
  ⟨by simp,
    ((credential_write_length_gate env_ok world_linked (List.replicate 128 65)).1
      (by simp)).1,
    by decide,
    ((credential_write_length_gate env_ok world_linked str_garbage).2 (by decide)).2.2 rfl⟩

/-! ## Theorems: the sort as a stable permutation -/

/-- The inner loop swaps two neighbours only when their priorities or their
timestamps differ, so the records of one (priority, timestamp) class keep
their order. -/
theorem sort_inner_filter (p t : Nat) (m : Nat) (l : List bonded_device_t) :
    (sort_inner m l).filter
        (fun d => decide (d.priority = p ∧ d.last_connected_timestamp = t))
      = l.filter (fun d => decide (d.priority = p ∧ d.last_connected_timestamp = t)) := by
  induction m generalizing l with
  | zero => simp [sort_inner]
  | succ m ih =>
    match l with
    | [] => simp [sort_inner]
    | [a] => simp [sort_inner]
    | a :: b :: rest =>
      simp only [sort_inner]
      split_ifs with h1 h2
      · rw [List.filter_cons, ih, List.filter_cons, List.filter_cons, List.filter_cons]
        split_ifs with c1 c2 <;> first | rfl | (exfalso; simp at c1 c2; omega)
      · rw [List.filter_cons, ih, List.filter_cons, List.filter_cons, List.filter_cons]
        split_ifs with c1 c2 <;> first | rfl | (exfalso; simp at c1 c2; omega)
      · simp only [List.filter_cons, ih]

theorem sort_slots_filter (p t : Nat) (count : Nat) (devs : List bonded_device_t) :
    (sort_slots count devs).filter
        (fun d => decide (d.priority = p ∧ d.last_connected_timestamp = t))
      = devs.filter (fun d => decide (d.priority = p ∧ d.last_connected_timestamp = t)) := by
  unfold sort_slots
  generalize List.range (count - 1) = passes
  induction passes generalizing devs with
  | nil => rfl
  | cons i rest ih =>
    rw [List.foldl_cons, ih, sort_inner_filter]

/-- C28: for every store with `bonded_count <= 8` (in its array of eight slots),
`sort_bonded_devices_by_priority` changes nothing but the order of the first
`bonded_count` records: the count, the slots behind them and the rest of the
state stay, the records in use afterwards are a permutation of the records in
use before (whole records, so every field is intact), and for each pair
(priority, timestamp) the records carrying it appear in the same order
before and after: the sort is stable. -/
theorem sort_is_stable_permutation (w : world_t)
    (hlen : w.ble_state.bonded_devices.length = MAX_BONDED_DEVICES)
    (hcnt : w.ble_state.bonded_count ≤ 8) :
    (sort_bonded_devices_by_priority w).ble_state.bonded_count = w.ble_state.bonded_count ∧
      sort_bonded_devices_by_priority w
        = { w with ble_state := { w.ble_state with
              bonded_devices := (sort_bonded_devices_by_priority w).ble_state.bonded_devices } } ∧
      (sort_bonded_devices_by_priority w).ble_state.bonded_devices.drop w.ble_state.bonded_count
        = w.ble_state.bonded_devices.drop w.ble_state.bonded_count ∧
      List.Perm
        ((sort_bonded_devices_by_priority w).ble_state.bonded_devices.take
          w.ble_state.bonded_count)
        (w.ble_state.bonded_devices.take w.ble_state.bonded_count) ∧
      ∀ p t,
        ((sort_bonded_devices_by_priority w).ble_state.bonded_devices.take
            w.ble_state.bonded_count).filter
            (fun d => decide (d.priority = p ∧ d.last_connected_timestamp = t))
          = (w.ble_state.bonded_devices.take w.ble_state.bonded_count).filter
            (fun d => decide (d.priority = p ∧ d.last_connected_timestamp = t)) := by
  have hc : w.ble_state.bonded_count ≤ w.ble_state.bonded_devices.length := by
    rw [hlen]; exact hcnt
  obtain ⟨sorted, e, hl, pm, _, ec⟩ := sort_world_spec w hc
  refine ⟨ec, rfl, ?_, ?_, ?_⟩
  · rw [e, List.drop_left' hl]
  · rw [e, List.take_left' hl]; exact pm
  · intro p t
    have hf := sort_slots_filter p t w.ble_state.bonded_count w.ble_state.bonded_devices
    have e2 : sort_slots w.ble_state.bonded_count w.ble_state.bonded_devices
        = sorted ++ w.ble_state.bonded_devices.drop w.ble_state.bonded_count := e
    rw [e2] at hf
    nth_rewrite 2 [← List.take_append_drop w.ble_state.bonded_count w.ble_state.bonded_devices]
      at hf
    rw [List.filter_append, List.filter_append] at hf
    rw [e, List.take_left' hl]
    exact List.append_cancel_right hf

theorem sort_is_stable_permutation_witness :
    world_three_peers.ble_state.bonded_devices.length = MAX_BONDED_DEVICES ∧
      world_three_peers.ble_state.bonded_count ≤ 8 ∧
      (sort_bonded_devices_by_priority world_three_peers).ble_state.bonded_count
        = world_three_peers.ble_state.bonded_count ∧
      List.Perm
        ((sort_bonded_devices_by_priority world_three_peers).ble_state.bonded_devices.take
          world_three_peers.ble_state.bonded_count)
        (world_three_peers.ble_state.bonded_devices.take
          world_three_peers.ble_state.bonded_count) :=
  ⟨by decide, by decide,
    (sort_is_stable_permutation world_three_peers (by decide) (by decide)).1,
    (sort_is_stable_permutation world_three_peers (by decide) (by decide)).2.2.2.1⟩

/-- A concrete run: three records of equal priority and timestamp, told apart
by their addresses, and one record that outranks them; the three keep their
order. -/
theorem sort_stable_run :
    ((sort_bonded_devices_by_priority
        { world_init with ble_state := { world_init.ble_state with
            bonded_devices :=
              [sample_peer 1 2 7, sample_peer 2 2 7, sample_peer 3 5 1, sample_peer 4 2 7] ++
                List.replicate 4 bonded_device_zero,
            bonded_count := 4 } }).ble_state.bonded_devices.take 4).map
        (fun d => d.addr.val.headD 0)
      = [3, 1, 2, 4] := by
  decide

/-! ## Theorems: the chunking loop, its sizes and its abort -/

/-- One iteration of the loop of `send_wifi_scan_results`. -/
theorem send_loop_succ (envs : Nat → env_t) (cs len : Nat) (s : List Nat)
    (fuel offset k : Nat) (w : world_t) :
    send_loop envs cs len s (fuel + 1) offset k w
      = if offset < len then
          if !(ble_manager_send_wifi_scan_result_chunk (envs k) w (s.drop offset)
              ((if len - offset > cs then cs else len - offset) % 2 ^ 16)).1 then
            ([(s.drop offset).take ((if len - offset > cs then cs else len - offset) % 2 ^ 16)],
              (ble_manager_send_wifi_scan_result_chunk (envs k) w (s.drop offset)
                ((if len - offset > cs then cs else len - offset) % 2 ^ 16)).2)
          else
            ((s.drop offset).take ((if len - offset > cs then cs else len - offset) % 2 ^ 16) ::
              (send_loop envs cs len s fuel
                (offset + (if len - offset > cs then cs else len - offset)) (k + 1)
                ((ble_manager_send_wifi_scan_result_chunk (envs k) w (s.drop offset)
                  ((if len - offset > cs then cs else len - offset) % 2 ^ 16)).2.log
                    (ext_call.vTaskDelay 20))).1,
              (send_loop envs cs len s fuel
                (offset + (if len - offset > cs then cs else len - offset)) (k + 1)
                ((ble_manager_send_wifi_scan_result_chunk (envs k) w (s.drop offset)
                  ((if len - offset > cs then cs else len - offset) % 2 ^ 16)).2.log
                    (ext_call.vTaskDelay 20))).2)
        else ([], w) := by
  simp only [send_loop]

/-- Once the fuel covers the bytes left, more fuel changes nothing: the loop
has ended on its own condition or on a failed chunk. -/
theorem send_loop_fuel_succ (envs : Nat → env_t) (cs len : Nat) (s : List Nat)
    (hcs : 0 < cs) :
    ∀ (fuel offset k : Nat) (w : world_t), len - offset ≤ fuel →
      send_loop envs cs len s (fuel + 1) offset k w = send_loop envs cs len s fuel offset k w := by
  intro fuel
  induction fuel with
  | zero =>
    intro offset k w h
    have hn : ¬ offset < len := by omega
    rw [send_loop_succ, if_neg hn]
    simp only [send_loop]
  | succ fuel ih =>
    intro offset k w h
    rw [send_loop_succ envs cs len s (fuel + 1) offset k w,
      send_loop_succ envs cs len s fuel offset k w]
    by_cases hlt : offset < len
    · have hle : len - (offset + (if len - offset > cs then cs else len - offset)) ≤ fuel := by
        split_ifs <;> omega
      rw [ih _ _ _ hle]
    · rw [if_neg hlt, if_neg hlt]

theorem send_loop_fuel (envs : Nat → env_t) (cs len : Nat) (s : List Nat) (hcs : 0 < cs)
    (fuel offset k : Nat) (w : world_t) (h : len - offset ≤ fuel) :
    send_loop envs cs len s fuel offset k w
      = send_loop envs cs len s (len - offset) offset k w := by
  obtain ⟨d, rfl⟩ : ∃ d, fuel = (len - offset) + d := ⟨fuel - (len - offset), by omega⟩
  clear h
  induction d with
  | zero => rfl
  | succ d ih =>
    rw [← Nat.add_assoc, send_loop_fuel_succ envs cs len s hcs _ offset k w (by omega), ih]

/-- The sizes of the chunks the loop hands to the chunk primitive. -/
theorem send_loop_chunks (envs : Nat → env_t) (cs len : Nat) (s : List Nat)
    (hcs : 0 < cs) (hcs16 : cs < 2 ^ 16) (hlen : len ≤ s.length) :
    ∀ (fuel offset k : Nat) (w : world_t),
      (∀ c ∈ (send_loop envs cs len s fuel offset k w).1, 0 < c.length ∧ c.length ≤ cs) ∧
        (∀ c ∈ (send_loop envs cs len s fuel offset k w).1.dropLast, c.length = cs) ∧
        (len ≤ offset → (send_loop envs cs len s fuel offset k w).1 = []) := by
  intro fuel
  induction fuel with
  | zero =>
    intro offset k w
    simp [send_loop]
  | succ fuel ih =>
    intro offset k w
    rw [send_loop_succ]
    by_cases hlt : offset < len
    · obtain ⟨ss, hss, hss1, hss2, hss3, hss4⟩ : ∃ ss,
          (if len - offset > cs then cs else len - offset) = ss ∧ 0 < ss ∧
            ss ≤ cs ∧ ss ≤ len - offset ∧ (ss < len - offset → ss = cs) := by
        refine ⟨_, rfl, ?_, ?_, ?_, ?_⟩ <;> split_ifs <;> omega
      have hmod : ss % 2 ^ 16 = ss := Nat.mod_eq_of_lt (by omega)
      have harg : ((s.drop offset).take ss).length = ss := by
        rw [List.length_take, List.length_drop]; omega
      rw [if_pos hlt, hss, hmod]
      obtain ⟨i1, i2, i3⟩ := ih (offset + ss) (k + 1)
        ((ble_manager_send_wifi_scan_result_chunk (envs k) w (s.drop offset) ss).2.log
          (ext_call.vTaskDelay 20))
      split_ifs
      · refine ⟨?_, ?_, fun h => absurd h (by omega)⟩
        · intro c hc
          rw [List.mem_singleton.1 hc, harg]
          exact ⟨hss1, hss2⟩
        · intro c hc
          simp at hc
      · refine ⟨?_, ?_, fun h => absurd h (by omega)⟩
        · intro c hc
          rcases List.mem_cons.1 hc with rfl | hc
          · rw [harg]; exact ⟨hss1, hss2⟩
          · exact i1 c hc
        · intro c hc
          dsimp only at hc
          by_cases hr : (send_loop envs cs len s fuel (offset + ss) (k + 1)
              ((ble_manager_send_wifi_scan_result_chunk (envs k) w (s.drop offset) ss).2.log
                (ext_call.vTaskDelay 20))).1 = []
          · rw [hr] at hc
            simp at hc
          · rw [List.dropLast_cons_of_ne_nil hr] at hc
            rcases List.mem_cons.1 hc with rfl | hc
            · rw [harg]
              apply hss4
              by_contra hge
              exact hr (i3 (by omega))
            · exact i2 c hc
    · rw [if_neg hlt]
      simp

theorem strlen_le (l : List Nat) : strlen l ≤ l.length := by
  unfold strlen cstr
  exact (List.takeWhile_sublist _).length_le

/-- C29: for every payload, every state and every behaviour of the transport,
with a negotiated transfer unit `U`, `4 <= U <= 65535`, the loop of
`send_wifi_scan_results` ends within as many iterations as the payload has
bytes (any larger fuel gives the same result); every chunk it hands to
`ble_manager_send_wifi_scan_result_chunk` is non-empty and at most `U - 3`
bytes long, which is below `2 ^ 16`, so the 16-bit length parameter does not
truncate it; and every chunk but the last is exactly `U - 3` bytes long. -/
theorem chunk_sizes (fuel : Nat) (envs : Nat → env_t) (w : world_t) (payload : List Nat)
    (hU : 4 ≤ w.ble_state.mtu_size) (hU16 : w.ble_state.mtu_size ≤ 65535)
    (hfuel : strlen payload ≤ fuel) :
    send_wifi_scan_results fuel envs w payload
        = send_wifi_scan_results (strlen payload) envs w payload ∧
      (∀ c ∈ (send_wifi_scan_results fuel envs w payload).1,
        0 < c.length ∧ c.length ≤ w.ble_state.mtu_size - 3 ∧ c.length < 2 ^ 16 ∧
          c.length % 2 ^ 16 = c.length) ∧
      (∀ c ∈ (send_wifi_scan_results fuel envs w payload).1.dropLast,
        c.length = w.ble_state.mtu_size - 3) := by
  have hcs : (w.ble_state.mtu_size + 2 ^ 32 - 3) % 2 ^ 32 = w.ble_state.mtu_size - 3 := by
    omega
  unfold send_wifi_scan_results
  by_cases hc : ble_manager_is_connected w = true
  · simp only [hc, if_true, ble_manager_get_mtu, hcs]
    obtain ⟨i1, i2, _⟩ := send_loop_chunks envs (w.ble_state.mtu_size - 3) (strlen payload)
      payload (by omega) (by omega) (strlen_le payload) fuel 0 0 w
    refine ⟨?_, ?_, i2⟩
    · have e := send_loop_fuel envs (w.ble_state.mtu_size - 3) (strlen payload) payload
        (by omega) fuel 0 0 w (by omega)
      rw [e]
      rfl
    · intro c hc
      obtain ⟨h1, h2⟩ := i1 c hc
      have h3 : c.length < 2 ^ 16 := by omega
      exact ⟨h1, h2, h3, Nat.mod_eq_of_lt h3⟩
  · simp [hc]

theorem chunk_sizes_witness :
    4 ≤ world_linked.ble_state.mtu_size ∧ world_linked.ble_state.mtu_size ≤ 65535 ∧
      strlen [1, 2, 3, 4, 5, 6, 7, 8, 9, 10] ≤ 50 ∧
      send_wifi_scan_results 50 (fun _ => env_ok) world_linked [1, 2, 3, 4, 5, 6, 7, 8, 9, 10]
        = send_wifi_scan_results (strlen [1, 2, 3, 4, 5, 6, 7, 8, 9, 10]) (fun _ => env_ok)
            world_linked [1, 2, 3, 4, 5, 6, 7, 8, 9, 10] ∧
      (∀ c ∈ (send_wifi_scan_results 50 (fun _ => env_ok) world_linked
            [1, 2, 3, 4, 5, 6, 7, 8, 9, 10]).1.dropLast,
        c.length = world_linked.ble_state.mtu_size - 3) :=
  ⟨by decide, by decide, by decide,
    (chunk_sizes 50 (fun _ => env_ok) world_linked [1, 2, 3, 4, 5, 6, 7, 8, 9, 10]
      (by decide) (by decide) (by decide)).1,
    (chunk_sizes 50 (fun _ => env_ok) world_linked [1, 2, 3, 4, 5, 6, 7, 8, 9, 10]
      (by decide) (by decide) (by decide)).2.2⟩

theorem chunk_send_fail (env : env_t) (w : world_t) (data : List Nat) (length : Nat)
    (hc : w.ble_state.is_connected = true) (hs : w.wifi_scan_notify_enabled = true)
    (hfail : env.ble_hs_mbuf_from_flat_ok = false ∨ env.ble_gatts_notify_custom_rc ≠ 0) :
    ble_manager_send_wifi_scan_result_chunk env w data length
      = (false, { w with calls := w.calls ++
          (if env.ble_hs_mbuf_from_flat_ok then
            [ext_call.ble_gatts_notify_custom w.connection_handle w.wifi_scan_chr_handle
              (data.take length)]
          else []) }) := by
  unfold ble_manager_send_wifi_scan_result_chunk
  cases hm : env.ble_hs_mbuf_from_flat_ok with
  | false =>
    cases w
    simp_all
  | true =>
    have hrc : env.ble_gatts_notify_custom_rc ≠ 0 := by
      rcases hfail with h | h
      · rw [hm] at h; cases h
      · exact h
    cases w
    simp_all [world_t.log]

/-- The loop when the chunk call number `k` (counted from the call `k0` the
loop starts with) is the first to fail. -/
theorem send_loop_abort (envs : Nat → env_t) (cs len : Nat) (s : List Nat)
    (hcs : 0 < cs) (hcs16 : cs < 2 ^ 16) (hlen : len ≤ s.length) :
    ∀ (k fuel offset k0 : Nat) (w : world_t),
      (∀ i, i < k → (envs (k0 + i)).ble_hs_mbuf_from_flat_ok = true ∧
        (envs (k0 + i)).ble_gatts_notify_custom_rc = 0) →
      ((envs (k0 + k)).ble_hs_mbuf_from_flat_ok = false ∨
        (envs (k0 + k)).ble_gatts_notify_custom_rc ≠ 0) →
      offset + k * cs < len → k < fuel →
      w.ble_state.is_connected = true → w.wifi_scan_notify_enabled = true →
      ∃ chunks failed,
        (send_loop envs cs len s fuel offset k0 w).1 = chunks ++ [failed] ∧
        chunks.length = k ∧ (∀ c ∈ chunks, c.length = cs) ∧
        chunks.flatten = (s.drop offset).take (k * cs) ∧
        failed = (s.drop (offset + k * cs)).take (min cs (len - (offset + k * cs))) ∧
        (send_loop envs cs len s fuel offset k0 w).2
          = { w with calls := w.calls ++
              (chunks.map (fun c =>
                [ext_call.ble_gatts_notify_custom w.connection_handle w.wifi_scan_chr_handle c,
                  ext_call.vTaskDelay 20])).flatten ++
              (if (envs (k0 + k)).ble_hs_mbuf_from_flat_ok then
                [ext_call.ble_gatts_notify_custom w.connection_handle w.wifi_scan_chr_handle
                  failed]
              else []) } := by
  intro k
  induction k with
  | zero =>
    intro fuel offset k0 w _ hfail hoff hfuel hc hs
    obtain ⟨fuel, rfl⟩ : ∃ f, fuel = f + 1 := ⟨fuel - 1, by omega⟩
    have hlt : offset < len := by omega
    obtain ⟨ss, hss, hss1⟩ : ∃ ss,
        (if len - offset > cs then cs else len - offset) = ss ∧
          ss = min cs (len - offset) := by
      refine ⟨_, rfl, ?_⟩
      split_ifs <;> omega
    have hmod : ss % 2 ^ 16 = ss := Nat.mod_eq_of_lt (by omega)
    have hch := chunk_send_fail (envs k0) w (s.drop offset) ss hc hs hfail
    rw [send_loop_succ, if_pos hlt, hss, hmod, hch]
    refine ⟨[], (s.drop offset).take ss, by simp, rfl, by simp, by simp, ?_, ?_⟩
    · rw [hss1]; simp
    · simp
  | succ k ih =>
    intro fuel offset k0 w hok hfail hoff hfuel hc hs
    obtain ⟨fuel, rfl⟩ : ∃ f, fuel = f + 1 := ⟨fuel - 1, by omega⟩
    have hmul : (k + 1) * cs = k * cs + cs := Nat.succ_mul k cs
    have hlt : offset < len := by omega
    have hss : (if len - offset > cs then cs else len - offset) = cs := by
      rw [if_pos (by omega)]
    have hmod : cs % 2 ^ 16 = cs := Nat.mod_eq_of_lt hcs16
    have h0 := hok 0 (by omega)
    have hch := chunk_send_ok (envs k0) w (s.drop offset) cs hc hs h0.1 h0.2
    have harg : ((s.drop offset).take cs).length = cs := by
      rw [List.length_take, List.length_drop]; omega
    obtain ⟨chunks, failed, e1, e2, e3, e4, e5, e6⟩ := ih fuel (offset + cs) (k0 + 1)
      ((w.log (ext_call.ble_gatts_notify_custom w.connection_handle w.wifi_scan_chr_handle
        ((s.drop offset).take cs))).log (ext_call.vTaskDelay 20))
      (fun i hi => by
        have := hok (i + 1) (by omega)
        rwa [show k0 + 1 + i = k0 + (i + 1) by omega])
      (by rwa [show k0 + 1 + k = k0 + (k + 1) by omega])
      (by omega) (by omega) hc hs
    rw [send_loop_succ, if_pos hlt, hss, hmod, hch]
    simp only [Bool.not_true, Bool.false_eq_true, if_false]
    refine ⟨(s.drop offset).take cs :: chunks, failed, ?_, ?_, ?_, ?_, ?_, ?_⟩
    · rw [e1]; rfl
    · simp [e2]
    · intro c hcm
      rcases List.mem_cons.1 hcm with rfl | hcm
      · exact harg
      · exact e3 c hcm
    · rw [List.flatten_cons, e4, hmul, Nat.add_comm (k * cs) cs, List.take_add,
        List.drop_drop]
    · rw [e5, hmul]
      have : offset + cs + k * cs = offset + (k * cs + cs) := by omega
      rw [this]
    · rw [e6]
      have hk : k0 + 1 + k = k0 + (k + 1) := by omega
      simp [world_t.log, hk]

/-- C25: with the link connected, the scan-result channel subscribed and a
transfer unit `U`, `4 <= U < 2 ^ 16`, if the chunk calls `0 .. k - 1` succeed
and the call number `k` fails (no buffer, or the transport refuses the
notification) while bytes are left to send, then
`send_wifi_scan_results` makes exactly `k + 1` chunk calls and stops: the
first `k` chunks have `U - 3` bytes each and concatenate to the first
`k * (U - 3)` bytes of the payload, the call that failed carried the next
chunk and was made once, nothing was attempted after it; the transport was
handed the `k` chunks, each followed by the 20 ms delay, and, if a buffer was
there, the refused one. -/
theorem chunk_failure_aborts (fuel : Nat) (envs : Nat → env_t) (w : world_t)
    (payload : List Nat) (k : Nat)
    (hconn : w.ble_state.is_connected = true)
    (hsub : w.wifi_scan_notify_enabled = true)
    (hU : 4 ≤ w.ble_state.mtu_size) (hU16 : w.ble_state.mtu_size < 2 ^ 16)
    (hsucc : ∀ i, i < k → (envs i).ble_hs_mbuf_from_flat_ok = true ∧
      (envs i).ble_gatts_notify_custom_rc = 0)
    (hfail : (envs k).ble_hs_mbuf_from_flat_ok = false ∨
      (envs k).ble_gatts_notify_custom_rc ≠ 0)
    (hleft : k * (w.ble_state.mtu_size - 3) < strlen payload)
    (hfuel : k < fuel) :
    ∃ chunks failed,
      (send_wifi_scan_results fuel envs w payload).1 = chunks ++ [failed] ∧
      chunks.length = k ∧ (∀ c ∈ chunks, c.length = w.ble_state.mtu_size - 3) ∧
      chunks.flatten = payload.take (k * (w.ble_state.mtu_size - 3)) ∧
      failed = (payload.drop (k * (w.ble_state.mtu_size - 3))).take
        (min (w.ble_state.mtu_size - 3)
          (strlen payload - k * (w.ble_state.mtu_size - 3))) ∧
      (send_wifi_scan_results fuel envs w payload).2
        = { w with calls := w.calls ++
            (chunks.map (fun c =>
              [ext_call.ble_gatts_notify_custom w.connection_handle w.wifi_scan_chr_handle c,
                ext_call.vTaskDelay 20])).flatten ++
            (if (envs k).ble_hs_mbuf_from_flat_ok then
              [ext_call.ble_gatts_notify_custom w.connection_handle w.wifi_scan_chr_handle
                failed]
            else []) } := by
  have hcs : (w.ble_state.mtu_size + 2 ^ 32 - 3) % 2 ^ 32 = w.ble_state.mtu_size - 3 := by
    omega
  have h := send_loop_abort envs (w.ble_state.mtu_size - 3) (strlen payload) payload
    (by omega) (by omega) (strlen_le payload) k fuel 0 0 w
    (fun i hi => by rw [Nat.zero_add]; exact hsucc i hi)
    (by rw [Nat.zero_add]; exact hfail) (by omega) hfuel hconn hsub
  simp only [Nat.zero_add, List.drop_zero] at h
  simp only [send_wifi_scan_results, ble_manager_is_connected, hconn, if_true,
    ble_manager_get_mtu, hcs]
  exact h

theorem chunk_failure_aborts_witness :
    ∃ chunks failed,
      (send_wifi_scan_results 10
          (fun i => if i = 1 then { env_ok with ble_gatts_notify_custom_rc := 6 } else env_ok)
          world_linked [1, 2, 3, 4, 5, 6, 7, 8, 9, 10]).1 = chunks ++ [failed] ∧
      chunks.length = 1 ∧
      chunks.flatten
        = [1, 2, 3, 4, 5, 6, 7, 8, 9, 10].take (1 * (world_linked.ble_state.mtu_size - 3)) := by
  obtain ⟨chunks, failed, h1, h2, _, h4, _⟩ := chunk_failure_aborts 10
    (fun i => if i = 1 then { env_ok with ble_gatts_notify_custom_rc := 6 } else env_ok)
    world_linked [1, 2, 3, 4, 5, 6, 7, 8, 9, 10] 1 rfl rfl (by decide) (by decide)
    (fun i hi => by
      have : i = 0 := by omega
      subst this
      exact ⟨rfl, rfl⟩)
    (Or.inr (by decide)) (by decide) (by decide)
  exact ⟨chunks, failed, h1, h2, h4⟩

/-- A concrete run: ten bytes over a transfer unit of 7, the second chunk call
refused: the chunk `1 2 3 4` went out, the chunk `5 6 7 8` was handed over
once and refused, the chunk `9 10` was never tried. -/
theorem chunk_failure_run :
    (send_wifi_scan_results 10
        (fun i => if i = 1 then { env_ok with ble_gatts_notify_custom_rc := 6 } else env_ok)
        world_linked [1, 2, 3, 4, 5, 6, 7, 8, 9, 10]).1 = [[1, 2, 3, 4], [5, 6, 7, 8]] ∧
      (send_wifi_scan_results 10
        (fun i => if i = 1 then { env_ok with ble_gatts_notify_custom_rc := 6 } else env_ok)
        world_linked [1, 2, 3, 4, 5, 6, 7, 8, 9, 10]).2.calls
        = [ext_call.ble_gatts_notify_custom 1 11 [1, 2, 3, 4], ext_call.vTaskDelay 20,
            ext_call.ble_gatts_notify_custom 1 11 [5, 6, 7, 8]] := by
  decide

/-! ## Theorems: a send on a link that is not ready -/

/-- C24, as amended: if the link is not connected or the scan-result channel is
not subscribed, `ble_manager_send_wifi_scan_result_chunk` returns false and
leaves the state as it is, and `send_wifi_scan_results`, which returns no
value, hands no notification to the transport and changes no state: it makes
no chunk call when the link is not connected and at most one, failing, chunk
call otherwise.  The failure goes no further: `wifi_scan_task` then sets the
status `WIFI_STATUS_SCAN_OK` and notifies it on the status channel. -/
theorem unready_send_is_silent (fuel : Nat) (envs : Nat → env_t) (env : env_t) (w : world_t)
    (payload : List Nat)
    (hnot : w.ble_state.is_connected = false ∨ w.wifi_scan_notify_enabled = false) :
    (∀ (e : env_t) (data : List Nat) (length : Nat),
        ble_manager_send_wifi_scan_result_chunk e w data length = (false, w)) ∧
      (send_wifi_scan_results fuel envs w payload).2 = w ∧
      (send_wifi_scan_results fuel envs w payload).1.length ≤ 1 ∧
      (w.ble_state.is_connected = false → (send_wifi_scan_results fuel envs w payload).1 = []) ∧
      wifi_scan_task_send fuel envs env w payload
        = { w with
            current_wifi_status := wifi_status_t.WIFI_STATUS_SCAN_OK,
            wifi_scan_running := false,
            calls := w.calls ++
              ext_call.update_wifi_status_notify wifi_status_t.WIFI_STATUS_SCAN_OK ::
                status_notification_calls env w str_WIFI_SCAN_OK } := by
  have hchunk : ∀ (e : env_t) (data : List Nat) (length : Nat),
      ble_manager_send_wifi_scan_result_chunk e w data length = (false, w) := by
    intro e data length
    unfold ble_manager_send_wifi_scan_result_chunk
    rcases hnot with h | h <;> simp [h]
  have hloop : ∀ cs len, (send_loop envs cs len payload fuel 0 0 w).2 = w ∧
      (send_loop envs cs len payload fuel 0 0 w).1.length ≤ 1 := by
    intro cs len
    cases fuel with
    | zero => simp [send_loop]
    | succ fuel =>
      rw [send_loop_succ, hchunk]
      by_cases h : 0 < len <;> simp [h]
  have hsend : (send_wifi_scan_results fuel envs w payload).2 = w := by
    unfold send_wifi_scan_results
    split_ifs
    · exact (hloop _ _).1
    · rfl
  refine ⟨hchunk, hsend, ?_, ?_, ?_⟩
  · unfold send_wifi_scan_results
    split_ifs
    · exact (hloop _ _).2
    · simp
  · intro hc
    simp [send_wifi_scan_results, ble_manager_is_connected, hc]
  · unfold wifi_scan_task_send
    simp only [hsend, ite_self, update_wifi_status_notify_eq]
    rfl

theorem unready_send_is_silent_witness :
    (world_flag_down.ble_state.is_connected = false ∨
        world_flag_down.wifi_scan_notify_enabled = false) ∧
      (send_wifi_scan_results 10 (fun _ => env_ok) world_flag_down
        [1, 2, 3, 4, 5, 6, 7, 8, 9, 10]).2 = world_flag_down ∧
      (send_wifi_scan_results 10 (fun _ => env_ok) world_flag_down
        [1, 2, 3, 4, 5, 6, 7, 8, 9, 10]).1 = [] :=
  ⟨Or.inl rfl,
    (unready_send_is_silent 10 (fun _ => env_ok) env_ok world_flag_down
      [1, 2, 3, 4, 5, 6, 7, 8, 9, 10] (Or.inl rfl)).2.1,
    (unready_send_is_silent 10 (fun _ => env_ok) env_ok world_flag_down
      [1, 2, 3, 4, 5, 6, 7, 8, 9, 10] (Or.inl rfl)).2.2.2.1 rfl⟩

/-- C24, the claim as stated fails: on a connected link whose scan-result
channel is not subscribed (the status channel is), the send of a ten-byte
payload makes one chunk call, which fails, and hands nothing to the
transport; the only report that follows is the status `WIFI_SCAN_OK`, set and
notified by `wifi_scan_task`. -/
theorem failed_send_reports_scan_ok :
    world_scan_unsubscribed.ble_state.is_connected = true ∧
      world_scan_unsubscribed.wifi_scan_notify_enabled = false ∧
      (send_wifi_scan_results 10 (fun _ => env_ok) world_scan_unsubscribed
        [1, 2, 3, 4, 5, 6, 7, 8, 9, 10]).1 = [[1, 2, 3, 4]] ∧
      (send_wifi_scan_results 10 (fun _ => env_ok) world_scan_unsubscribed
        [1, 2, 3, 4, 5, 6, 7, 8, 9, 10]).2.calls = [] ∧
      (send_wifi_scan_results 10 (fun _ => env_ok) world_scan_unsubscribed
        [1, 2, 3, 4, 5, 6, 7, 8, 9, 10]).2.current_wifi_status
          = wifi_status_t.WIFI_STATUS_UNKNOWN ∧
      (wifi_scan_task_send 10 (fun _ => env_ok) env_ok world_scan_unsubscribed
        [1, 2, 3, 4, 5, 6, 7, 8, 9, 10]).current_wifi_status
          = wifi_status_t.WIFI_STATUS_SCAN_OK ∧
      (wifi_scan_task_send 10 (fun _ => env_ok) env_ok world_scan_unsubscribed
        [1, 2, 3, 4, 5, 6, 7, 8, 9, 10]).calls
          = [ext_call.update_wifi_status_notify wifi_status_t.WIFI_STATUS_SCAN_OK,
              ext_call.ble_gatts_notify_custom 1 15 str_WIFI_SCAN_OK] := by
  decide

/-! ## Theorems: the bonded flag and the count -/

theorem update_count (env : env_t) (w : world_t) (addr : ble_addr_t) (addr_type : Nat) :
    (update_device_connection_info env w addr addr_type).ble_state.bonded_count
      = w.ble_state.bonded_count := by
  unfold update_device_connection_info
  dsimp only
  split_ifs
  · simp only [sort_bonded_devices_by_priority, save_ble_state]
  · rfl

theorem add_flag_count (env : env_t) (w : world_t) (addr : ble_addr_t) (addr_type : Nat) :
    (add_bonded_device env w addr addr_type).2.ble_state.is_bonded = w.ble_state.is_bonded ∧
      w.ble_state.bonded_count ≤ (add_bonded_device env w addr addr_type).2.ble_state.bonded_count ∧
      (is_bonded_device w addr addr_type = false →
        0 < (add_bonded_device env w addr addr_type).2.ble_state.bonded_count) := by
  unfold add_bonded_device
  split_ifs with h1 h2
  · exact ⟨rfl, le_refl _, fun h => by rw [h] at h1; cases h1⟩
  · refine ⟨?_, ?_, fun _ => ?_⟩ <;> simp [save_ble_state]
  · refine ⟨rfl, le_refl _, fun _ => ?_⟩
    simp only [MAX_BONDED_DEVICES] at h2
    show 0 < w.ble_state.bonded_count
    omega

theorem bonded_count_pos (w : world_t) (addr : ble_addr_t) (addr_type : Nat)
    (h : is_bonded_device w addr addr_type = true) : 0 < w.ble_state.bonded_count := by
  by_contra hz
  have hz0 : w.ble_state.bonded_count = 0 := by omega
  simp [is_bonded_device, hz0] at h

/-- The encryption-change handler either leaves the state as it is or ends
with the bonded flag set and a store that is not empty. -/
theorem enc_change_flag (env : env_t) (w : world_t) (r : Nat × world_t)
    (h : gap_event_enc_change env w = some r) :
    r.2 = w ∨ (r.2.ble_state.is_bonded = true ∧ 0 < r.2.ble_state.bonded_count) := by
  unfold gap_event_enc_change at h
  cases hf : env.ble_gap_conn_find with
  | none => rw [hf] at h; cases h
  | some desc =>
    rw [hf] at h
    dsimp only at h
    by_cases hb : desc.sec_state_bonded = true
    · rw [if_pos hb] at h
      right
      rw [← Option.some.inj h]
      dsimp only
      rw [update_is_bonded_flag, update_count]
      refine ⟨rfl, ?_⟩
      dsimp only
      by_cases hk : is_bonded_device w desc.peer_id_addr desc.peer_id_addr.type = true
      · simp only [hk, Bool.not_true, Bool.false_eq_true, if_false]
        exact bonded_count_pos w _ _ hk
      · have hk2 : is_bonded_device w desc.peer_id_addr desc.peer_id_addr.type = false := by
          simpa using hk
        simp only [hk2, Bool.not_false, if_true, update_ble_whitelist_state]
        exact (add_flag_count env w _ _).2.2 hk2
    · rw [if_neg hb] at h
      left
      rw [← Option.some.inj h]

theorem long_press_flag (env : env_t) (w : world_t) :
    ((button_task_long_press env w).ble_state.is_bonded = false ∧
        (button_task_long_press env w).ble_state.bonded_count = 0) ∨
      (button_task_long_press env w).ble_state = w.ble_state := by
  cases he : env.nvs_flash_erase_ok with
  | true =>
    left
    rw [button_task_long_press_eq env w he]
    exact ⟨rfl, rfl⟩
  | false =>
    right
    simp [button_task_long_press, he, world_t.log]

/-- Every operation keeps `is_bonded → 0 < bonded_count`. -/
theorem run_bond_step_half (w w1 : world_t) (s : bond_step)
    (hinv : w.ble_state.is_bonded = true → 0 < w.ble_state.bonded_count)
    (hr : run_bond_step w s = some w1) :
    w1.ble_state.is_bonded = true → 0 < w1.ble_state.bonded_count := by
  cases s with
  | load env nvs =>
    simp only [run_bond_step] at hr
    rw [(load_some env nvs w w1 hr).2.2.1]
    intro h
    simpa using h
  | add_bonded_device env addr addr_type =>
    simp only [run_bond_step, Option.some.injEq] at hr
    obtain ⟨h1, h2, _⟩ := add_flag_count env w addr addr_type
    rw [← hr, h1]
    intro h
    exact Nat.lt_of_lt_of_le (hinv h) h2
  | update_device_connection_info env addr addr_type =>
    simp only [run_bond_step, Option.some.injEq] at hr
    rw [← hr, update_is_bonded_flag, update_count]
    exact hinv
  | enc_change env status conn_handle =>
    simp only [run_bond_step, bleprph_gap_event] at hr
    cases he : gap_event_enc_change env w with
    | none => rw [he] at hr; cases hr
    | some r =>
      rw [he] at hr
      simp only [Option.map_some', Option.some.injEq] at hr
      rcases enc_change_flag env w r he with e | ⟨_, e2⟩
      · rw [← hr, e]; exact hinv
      · rw [← hr]; exact fun _ => e2
  | full_reset env =>
    simp only [run_bond_step, Option.some.injEq] at hr
    rcases long_press_flag env w with ⟨e1, _⟩ | e
    · rw [← hr, e1]
      intro h; cases h
    · rw [← hr, e]; exact hinv

/-- Every operation but a direct call of `add_bonded_device` keeps
`0 < bonded_count → is_bonded`. -/
theorem run_bond_step_converse (w w1 : world_t) (s : bond_step)
    (hs : direct_call_of_add s = false)
    (hinv : 0 < w.ble_state.bonded_count → w.ble_state.is_bonded = true)
    (hr : run_bond_step w s = some w1) :
    0 < w1.ble_state.bonded_count → w1.ble_state.is_bonded = true := by
  cases s with
  | load env nvs =>
    simp only [run_bond_step] at hr
    rw [(load_some env nvs w w1 hr).2.2.1]
    intro h
    simpa using h
  | add_bonded_device env addr addr_type => cases hs
  | update_device_connection_info env addr addr_type =>
    simp only [run_bond_step, Option.some.injEq] at hr
    rw [← hr, update_is_bonded_flag, update_count]
    exact hinv
  | enc_change env status conn_handle =>
    simp only [run_bond_step, bleprph_gap_event] at hr
    cases he : gap_event_enc_change env w with
    | none => rw [he] at hr; cases hr
    | some r =>
      rw [he] at hr
      simp only [Option.map_some', Option.some.injEq] at hr
      rcases enc_change_flag env w r he with e | ⟨e1, _⟩
      · rw [← hr, e]; exact hinv
      · rw [← hr]; exact fun _ => e1
  | full_reset env =>
    simp only [run_bond_step, Option.some.injEq] at hr
    rcases long_press_flag env w with ⟨_, e2⟩ | e
    · rw [← hr, e2]
      intro h; omega
    · rw [← hr, e]; exact hinv

theorem run_bond_steps_half (steps : List bond_step) :
    ∀ (w0 w : world_t),
      (w0.ble_state.is_bonded = true → 0 < w0.ble_state.bonded_count) →
      run_bond_steps w0 steps = some w →
      (w.ble_state.is_bonded = true → 0 < w.ble_state.bonded_count) := by
  induction steps with
  | nil =>
    intro w0 w h hr
    simp only [run_bond_steps, Option.some.injEq] at hr
    rw [← hr]; exact h
  | cons s rest ih =>
    intro w0 w h hr
    simp only [run_bond_steps] at hr
    cases hs : run_bond_step w0 s with
    | none => simp [hs] at hr
    | some w1 =>
      simp only [hs] at hr
      exact ih w1 w (run_bond_step_half w0 w1 s h hs) hr

theorem run_bond_steps_converse (steps : List bond_step) :
    ∀ (w0 w : world_t),
      (∀ s ∈ steps, direct_call_of_add s = false) →
      (0 < w0.ble_state.bonded_count → w0.ble_state.is_bonded = true) →
      run_bond_steps w0 steps = some w →
      (0 < w.ble_state.bonded_count → w.ble_state.is_bonded = true) := by
  induction steps with
  | nil =>
    intro w0 w _ h hr
    simp only [run_bond_steps, Option.some.injEq] at hr
    rw [← hr]; exact h
  | cons s rest ih =>
    intro w0 w hall h hr
    simp only [run_bond_steps] at hr
    cases hs : run_bond_step w0 s with
    | none => simp [hs] at hr
    | some w1 =>
      simp only [hs] at hr
      exact ih w1 w (fun x hx => hall x (List.mem_cons_of_mem _ hx))
        (run_bond_step_converse w0 w1 s (hall s (List.mem_cons_self _ _)) h hs) hr

/-- C30, as amended: in every state reached from the initial state by any
sequence of boot loads, calls of `add_bonded_device` and of
`update_device_connection_info`, encryption-change events and full resets,
`is_bonded` being true implies `bonded_count > 0`; and when no step of the
sequence is a direct call of `add_bonded_device` (the handler of the
encryption change calls it and sets the flag right after), `is_bonded` is
true if and only if `bonded_count > 0`. -/
theorem bonded_flag_invariant (steps : List bond_step) (w : world_t)
    (hrun : run_bond_steps world_init steps = some w) :
    (w.ble_state.is_bonded = true → 0 < w.ble_state.bonded_count) ∧
      ((∀ s ∈ steps, direct_call_of_add s = false) →
        (w.ble_state.is_bonded = true ↔ 0 < w.ble_state.bonded_count)) := by
  have h1 := run_bond_steps_half steps world_init w (by decide) hrun
  refine ⟨h1, fun hall => ⟨h1, ?_⟩⟩
  exact run_bond_steps_converse steps world_init w hall (by decide) hrun

theorem bonded_flag_invariant_witness :
    run_bond_steps world_init bond_steps_sample
        = some ((run_bond_steps world_init bond_steps_sample).getD world_init) ∧
      (∀ s ∈ bond_steps_sample, direct_call_of_add s = false) ∧
      (((run_bond_steps world_init bond_steps_sample).getD world_init).ble_state.is_bonded = true ↔
        0 < ((run_bond_steps world_init bond_steps_sample).getD
          world_init).ble_state.bonded_count) :=
  ⟨by decide, by simp [bond_steps_sample, direct_call_of_add],
    (bonded_flag_invariant bond_steps_sample
      ((run_bond_steps world_init bond_steps_sample).getD world_init) (by decide)).2
      (by simp [bond_steps_sample, direct_call_of_add])⟩

/-- The sample run ends with one peer bonded and the flag set. -/
theorem bond_steps_sample_run :
    (run_bond_steps world_init bond_steps_sample).map
        (fun w => (w.ble_state.is_bonded, w.ble_state.bonded_count))
      = some (true, 1) := by
  decide

/-- C30, the claim as stated fails: a call of `add_bonded_device` on the
initial state stores the peer (`bonded_count` is 1) and leaves `is_bonded`
false. -/
theorem direct_add_leaves_flag_down :
    (run_bond_steps world_init
        [bond_step.add_bonded_device env_ok ⟨0, [1, 2, 3, 4, 5, 6]⟩ 0]).map
        (fun w => (w.ble_state.is_bonded, w.ble_state.bonded_count))
      = some (false, 1) ∧
      (add_bonded_device env_ok world_init ⟨0, [1, 2, 3, 4, 5, 6]⟩ 0).1 = true := by
  decide

/-! ## Theorems: the connect policy outside a pairing window -/

/-- Boot leaves `allow_new_bonding` and the timer flag as it finds them. -/
theorem on_sync_window (env : env_t) (sync : sync_env_t) (w w' : world_t)
    (h : bleprph_on_sync env sync w = some w') :
    w'.ble_state.allow_new_bonding = w.ble_state.allow_new_bonding ∧
      w'.allow_new_bonding_timeout_active = w.allow_new_bonding_timeout_active := by
  unfold bleprph_on_sync at h
  cases hl : load_bonded_devices_from_nvs env sync.nvs w with
  | none => rw [hl] at h; cases h
  | some wl =>
    obtain ⟨_, _, _, l1, l2, _⟩ := load_some env sync.nvs w wl hl
    rw [hl] at h
    dsimp only at h
    split_ifs at h
    · rw [← Option.some.inj h]
      simp only [display_qr_code_callback, world_t.log, start_bonded_advertising_eq,
        update_ble_whitelist_eq]
      exact ⟨l1, l2⟩
    · rw [← Option.some.inj h]
      simp only [display_qr_code_callback, world_t.log, startAdvertising_eq]
      exact ⟨l1, l2⟩

/-- C26, as amended: what the connect handler does with a successful
connection from a peer that is not in the bonded store follows
`allow_new_bonding`, whatever the pairing-window timer says: with the flag
false the link is terminated and no pairing is initiated; with the flag true
the handler initiates pairing (and terminates only if the transport refuses
that).  The timer being inactive does not make the flag false: the flag is
true from its static initialiser, the timer inactive, and boot changes
neither. -/
theorem connect_policy_follows_flag (env : env_t) (w : world_t) (conn_handle : Nat)
    (desc : ble_gap_conn_desc)
    (hfind : env.ble_gap_conn_find = some desc)
    (hunknown : is_bonded_device w desc.peer_id_addr desc.peer_id_addr.type = false) :
    (w.ble_state.allow_new_bonding = false →
        ∃ w', bleprph_gap_event env w (ble_gap_event.connect 0 conn_handle) = some (0, w') ∧
          w'.calls = w.calls ++ [ext_call.ble_gap_adv_stop,
            ext_call.ble_gap_terminate conn_handle BLE_ERR_REM_USER_CONN_TERM]) ∧
      (w.ble_state.allow_new_bonding = true →
        ∃ w', bleprph_gap_event env w (ble_gap_event.connect 0 conn_handle) = some (0, w') ∧
          w'.calls = w.calls ++ ext_call.ble_gap_adv_stop ::
            ext_call.ble_gap_security_initiate conn_handle ::
              (if env.ble_gap_security_initiate_rc ≠ 0 then
                [ext_call.ble_gap_terminate conn_handle BLE_ERR_REM_USER_CONN_TERM]
              else [])) ∧
      world_init.ble_state.allow_new_bonding = true ∧
      world_init.allow_new_bonding_timeout_active = false ∧
      (∀ (e : env_t) (sync : sync_env_t) (wb : world_t),
        bleprph_on_sync e sync world_init = some wb →
          wb.ble_state.allow_new_bonding = true ∧
            wb.allow_new_bonding_timeout_active = false) := by
  refine ⟨?_, ?_, rfl, rfl, ?_⟩
  · intro hclosed
    have key : gap_event_connect env w 0 conn_handle
        = (0, ({ w with
            connection_handle := conn_handle,
            ble_state := { w.ble_state with
              is_connected := true, active_scan_mode := false, reconnect_mode := false },
            calls := w.calls ++ [ext_call.ble_gap_adv_stop,
              ext_call.ble_gap_terminate conn_handle BLE_ERR_REM_USER_CONN_TERM] } :
                world_t)) := by
      unfold is_bonded_device at hunknown
      simp [gap_event_connect, hfind, is_bonded_device, world_t.log, hunknown, hclosed]
    refine ⟨(gap_event_connect env w 0 conn_handle).2, ?_, ?_⟩
    · simp only [bleprph_gap_event, key]
    · rw [key]
  · intro hopen
    have key : gap_event_connect env w 0 conn_handle
        = (0, ({ w with
            connection_handle := conn_handle,
            ble_state := { w.ble_state with
              is_connected := true, active_scan_mode := false, reconnect_mode := false },
            calls := w.calls ++ ext_call.ble_gap_adv_stop ::
              ext_call.ble_gap_security_initiate conn_handle ::
                (if env.ble_gap_security_initiate_rc ≠ 0 then
                  [ext_call.ble_gap_terminate conn_handle BLE_ERR_REM_USER_CONN_TERM]
                else []) } : world_t)) := by
      unfold is_bonded_device at hunknown
      by_cases hrc : env.ble_gap_security_initiate_rc = 0 <;>
        simp [gap_event_connect, hfind, is_bonded_device, world_t.log, hunknown, hopen, hrc]
    refine ⟨(gap_event_connect env w 0 conn_handle).2, ?_, ?_⟩
    · simp only [bleprph_gap_event, key]
    · rw [key]
  · intro e sync wb h
    exact on_sync_window e sync world_init wb h

theorem connect_policy_follows_flag_witness :
    env_stranger.ble_gap_conn_find
        = some { peer_id_addr := ⟨0, [9, 9, 9, 9, 9, 9]⟩, sec_state_bonded := false } ∧
      is_bonded_device world_closed ⟨0, [9, 9, 9, 9, 9, 9]⟩ 0 = false ∧
      world_closed.ble_state.allow_new_bonding = false ∧
      ∃ w', bleprph_gap_event env_stranger world_closed (ble_gap_event.connect 0 1)
          = some (0, w') ∧
        w'.calls = world_closed.calls ++ [ext_call.ble_gap_adv_stop,
          ext_call.ble_gap_terminate 1 BLE_ERR_REM_USER_CONN_TERM] :=
  ⟨rfl, by decide, rfl,
    (connect_policy_follows_flag env_stranger world_closed 1
      { peer_id_addr := ⟨0, [9, 9, 9, 9, 9, 9]⟩, sec_state_bonded := false } rfl
      (by decide)).1 rfl⟩

/-- C26, the claim as stated fails: right after boot on a blank store the
pairing-window timer is inactive and the peer `09:09:09:09:09:09` is not in
the store, yet its successful connection is not terminated: the handler stops
advertising and initiates pairing with it. -/
theorem boot_state_admits_stranger :
    (bleprph_on_sync env_ok (sync_ok nvs_blank) world_init).map
        (fun w => (w.allow_new_bonding_timeout_active,
          is_bonded_device w ⟨0, [9, 9, 9, 9, 9, 9]⟩ 0, w.calls.length))
      = some (false, false, 7) ∧
      ((bleprph_on_sync env_ok (sync_ok nvs_blank) world_init).bind
        (fun w => bleprph_gap_event env_stranger w (ble_gap_event.connect 0 1))).map
        (fun r => (r.1, r.2.calls.drop 7))
      = some (0, [ext_call.ble_gap_adv_stop, ext_call.ble_gap_security_initiate 1]) := by
  decide

/-! ## Theorems: the load of a store that was not written by this program -/

/-- C27, the code on the inputs the claim gets wrong: when the namespace
opens and holds a blob of eight records and a count byte `c`, the reads copy
both as they are: at the entry of the sort `bonded_count` is `c`, whatever `c`
is, and the array is the blob.  For `c <= 8` the load completes with
`bonded_count = c` and the first `c` records of the blob, reordered, as the
records in use.  Nothing is checked, neither the count against the eight
slots nor the records against each other. -/
theorem load_trusts_persisted_store (env : env_t) (nvs : nvs_ble_bond) (w : world_t)
    (blob : List bonded_device_t) (c : Nat)
    (hopen : env.nvs_open_ok = true)
    (hlen : w.ble_state.bonded_devices.length = MAX_BONDED_DEVICES)
    (hblob : nvs.bonded_list = some blob) (hbl : blob.length = MAX_BONDED_DEVICES)
    (hcount : nvs.bonded_count = some c) (hc : c < 256) :
    (load_bonded_devices_read env nvs w).ble_state.bonded_count = c ∧
      (load_bonded_devices_read env nvs w).ble_state.bonded_devices = blob ∧
      (c ≤ MAX_BONDED_DEVICES →
        ∃ wl, load_bonded_devices_from_nvs env nvs w = some wl ∧
          wl.ble_state.bonded_count = c ∧
          List.Perm (wl.ble_state.bonded_devices.take c) (blob.take c)) := by
  have hmod : c % 2 ^ 8 = c := Nat.mod_eq_of_lt (by omega)
  have hr1 : (load_bonded_devices_read env nvs w).ble_state.bonded_count = c := by
    unfold load_bonded_devices_read nvs_get_u8_bonded_count
    simp only [hopen, if_true, hcount]
    exact hmod
  have hr2 : (load_bonded_devices_read env nvs w).ble_state.bonded_devices = blob := by
    simp [load_bonded_devices_read, hopen, nvs_get_blob_bonded_list, hblob, hbl, hlen]
  refine ⟨hr1, hr2, ?_⟩
  intro hc8
  obtain ⟨wl, hwl⟩ := load_defined env nvs w (by rw [hr1]; exact hc8)
  refine ⟨wl, hwl, ?_, ?_⟩
  · rw [(load_some env nvs w wl hwl).2.1, hr1]
  · unfold load_bonded_devices_from_nvs at hwl
    dsimp only at hwl
    split_ifs at hwl with hpos
    · obtain ⟨sorted, e, hl, pm, _, _⟩ := sort_world_spec (load_bonded_devices_read env nvs w)
        (by rw [hr1, hr2, hbl]; exact hc8)
      rw [hr1] at hl
      rw [hr1, hr2] at pm
      rw [← Option.some.inj hwl, e, List.take_left' hl]
      exact pm
    · rw [← Option.some.inj hwl, hr2]

theorem load_trusts_persisted_store_witness :
    env_ok.nvs_open_ok = true ∧
      nvs_repeated.bonded_count = some 2 ∧
      (load_bonded_devices_read env_ok nvs_repeated world_init).ble_state.bonded_count = 2 ∧
      ∃ wl, load_bonded_devices_from_nvs env_ok nvs_repeated world_init = some wl ∧
        wl.ble_state.bonded_count = 2 ∧
        List.Perm (wl.ble_state.bonded_devices.take 2)
          (([sample_peer 1 1 5, sample_peer 1 3 2] ++
            List.replicate 6 bonded_device_zero).take 2) :=
  ⟨rfl, rfl,
    (load_trusts_persisted_store env_ok nvs_repeated world_init
      ([sample_peer 1 1 5, sample_peer 1 3 2] ++ List.replicate 6 bonded_device_zero) 2
      rfl (by decide) rfl (by decide) rfl (by decide)).1,
    (load_trusts_persisted_store env_ok nvs_repeated world_init
      ([sample_peer 1 1 5, sample_peer 1 3 2] ++ List.replicate 6 bonded_device_zero) 2
      rfl (by decide) rfl (by decide) rfl (by decide)).2.2 (by decide)⟩

/-- The failing runs of C27: a blob that holds one peer twice with the count 2
is loaded as it is and leaves two records with the same address and type in
the store; a count byte of 9 reaches the sort as `bonded_count = 9` on an
array of eight slots, and the load leaves the array. -/
theorem load_corrupt_store_run :
    (load_bonded_devices_from_nvs env_ok nvs_repeated world_init).map
        (fun w => (w.ble_state.bonded_count,
          (w.ble_state.bonded_devices.take 2).map peer_key, decide (store_ok w)))
      = some (2, [([1, 2, 3, 4, 5, 6], 0), ([1, 2, 3, 4, 5, 6], 0)], false) ∧
      (load_bonded_devices_read env_ok nvs_count_nine world_init).ble_state.bonded_count = 9 ∧
      (load_bonded_devices_read env_ok nvs_count_nine
        world_init).ble_state.bonded_devices.length = 8 ∧
      (load_bonded_devices_from_nvs env_ok nvs_count_nine world_init).isNone = true := by
  decide

end TestBle
